import Mathlib

/-!
# chan_sccp.c

A shallow embedding of the entry points of `src/chan_sccp.c`:

* `sccp_devicestate`    (lines 372-418), the presence query;
* `sccp_request`        (lines 116-362), the channel request;
* `sccp_handle_message` (lines 425-618), the message dispatcher;
* `load_config` and `load_module` (lines 624-728 and 1603-1727), the start;
* `sccp_do_monitor` and `sccp_restart_monitor` (lines 770-794 and 803-828), the
  monitor thread, and the part of `unload_module` that stops it;
* `sccp_app_setmessage` (lines 1429-1460), the dialplan application;
* `sccp_rtp_bridge`     (lines 1513-1592), the bridge callback.

Pointers are keys into explicit tables, `NULL` is `none`, and the functions of
other translation units are either parameters (`Env`) or small models whose
doc comment says where they come from.
-/

namespace ChanSccp

/-! ## Strings -/

/-- C strings: the characters before the terminating NUL. -/
abbrev CStr := List Char

/-- The libc `strcasecmp`: 0 exactly when both strings agree up to ASCII case. -/
def strcasecmp (a b : CStr) : Int :=
  if a.map Char.toLower = b.map Char.toLower then 0 else 1

/-- The libc `strncasecmp`: `strcasecmp` on the first `n` characters. -/
def strncasecmp (a b : CStr) (n : Nat) : Int :=
  strcasecmp (a.take n) (b.take n)

/-- The Asterisk `ast_strlen_zero`: the string is empty. -/
def ast_strlen_zero (s : CStr) : Bool := s.isEmpty

/-- The helper `sccp_copy_string(dst, src, size)`: at most `size - 1` characters
of `src` arrive in `dst`, which is always NUL terminated. -/
def sccp_copy_string (src : CStr) (size : Nat) : CStr := src.take (size - 1)

/-- The idiom `if ((options = strchr(s, '/'))) { *options = '\0'; options++; }`:
the part of `s` before the first `/`, and the part after it when there is one. -/
def splitAtSlash (s : CStr) : CStr × Option CStr :=
  let head := s.takeWhile (fun ch => ch != '/')
  if '/' ∈ s then (head, some ((s.dropWhile (fun ch => ch != '/')).drop 1))
  else (head, none)

/-! ## Data model -/

/-- The type `sccp_subscription_id_t`: number and name that address one device
of a shared line. -/
structure SubscriptionId where
  number : CStr
  name : CStr
deriving DecidableEq, Repr

/-- The channel states `SCCP_CHANNELSTATE_*` the file tests for, `DOWN` (the
zero value of a fresh channel), and a catch-all for the other states. -/
inductive ChannelState where
  | DOWN
  | RINGING
  | CONNECTED
  | HOLD
  | OTHER (code : Nat)
deriving DecidableEq, Repr

/-- The autoanswer directive `SCCP_AUTOANSWER_*`; `NONE` is the zero value. -/
inductive AutoAnswer where
  | NONE
  | AA_1W
  | AA_2W
deriving DecidableEq, Repr

/-- The ringer modes `SKINNY_STATION_*RING` that a request can select. -/
inductive RingerMode where
  | INSIDERING
  | OUTSIDERING
  | FEATURERING
  | SILENTRING
  | URGENTRING
deriving DecidableEq, Repr

/-- Asterisk hangup cause `AST_CAUSE_NOTDEFINED`. -/
def AST_CAUSE_NOTDEFINED : Nat := 0
/-- Asterisk hangup cause `AST_CAUSE_BUSY`. -/
def AST_CAUSE_BUSY : Nat := 17
/-- Asterisk hangup cause `AST_CAUSE_CONGESTION`. -/
def AST_CAUSE_CONGESTION : Nat := 34
/-- Asterisk hangup cause `AST_CAUSE_REQUESTED_CHAN_UNAVAIL`. -/
def AST_CAUSE_REQUESTED_CHAN_UNAVAIL : Nat := 44

/-- The PBX channel (`struct ast_channel *`) that owns an SCCP channel, as an
opaque handle. -/
structure AstChannel where
  handle : Nat
deriving DecidableEq, Repr

/-- The fields of `sccp_channel_t` that the file reads or writes. `line` is the
name of the owning line, `device` the key of the bound device. -/
structure Channel where
  callid : Nat
  state : ChannelState
  line : CStr
  device : Option Nat
  subscriptionId : SubscriptionId
  format : Int
  isCodecFix : Bool
  capability : Nat
  autoanswer_type : AutoAnswer
  autoanswer_cause : Nat
  ringermode : RingerMode
  owner : Option AstChannel
deriving DecidableEq, Repr

/-- One entry of `l->devices` (`sccp_linedevices_t`): the key of the device the
line is presented on (`NULL` while it is not attached). -/
structure LineDevice where
  device : Option Nat
deriving DecidableEq, Repr

/-- The fields of `sccp_line_t` that the file reads or writes. The list
`devices` stands for the `SCCP_LIST` with its `first` and `size` members. -/
structure Line where
  name : CStr
  id : CStr
  defaultSubscriptionId : SubscriptionId
  devices : List LineDevice
  channels : List Channel
  channelCount : Nat
  incominglimit : Nat
deriving DecidableEq, Repr

/-- The fields of `sccp_device_t` that the file reads: its identifier, the NAT
flag and the key of its current session. `key` is the address of the object. -/
structure Device where
  key : Nat
  id : CStr
  nat : Nat
  session : Option Nat
deriving DecidableEq, Repr

/-- The fields of `sccp_session_t` that the file reads or writes. `key` is the
address of the object, `device` the key of the bound device, `sin_addr` the
peer address `sin.sin_addr.s_addr`. -/
structure Session where
  key : Nat
  device : Option Nat
  sin_addr : Nat
  lastKeepAlive : Nat
  rtpPort : Nat
deriving DecidableEq, Repr

/-- The value of `GLOB(monitor_thread)`: one of the two markers, or a thread. -/
inductive MonitorThread where
  | AST_PTHREADT_NULL
  | AST_PTHREADT_STOP
  | thread (tid : Nat)
deriving DecidableEq, Repr

/-- The process-wide state (`sccp_globals` and the call-identifier counter),
with three counters that record what `sccp_restart_monitor` did:
`monitorSignals` counts `pthread_kill(.., SIGURG)`, `monitorStarts` the monitor
threads created, `restartCalls` the calls of `sccp_restart_monitor`. -/
structure Globals where
  lines : List Line
  devices : List Device
  sessions : List Session
  callCount : Nat
  monitor_thread : MonitorThread
  monitorSignals : Nat
  monitorStarts : Nat
  restartCalls : Nat
deriving DecidableEq, Repr

/-- What the build and the surroundings decide: the device states the PBX
headers offer (`CS_AST_DEVICE_*`), the collaborators of other modules, the
sizes of the subscription-id fields of a channel, the clock and the debug
category. -/
structure Env where
  CS_AST_DEVICE_RINGING : Bool
  CS_AST_DEVICE_RINGINUSE : Bool
  CS_AST_DEVICE_ONHOLD : Bool
  /-- Whether the allocation inside `sccp_channel_allocate` succeeds. -/
  channel_alloc_ok : Bool
  /-- The hand-off `sccp_pbx_channel_allocate(c)`: the PBX channel that becomes
  `c->owner`, or failure. -/
  sccp_pbx_channel_allocate : Channel → Option AstChannel
  /-- The capability `sccp_channel_updateChannelCapability(c)` computes. -/
  channelCapability : Channel → Nat
  /-- The value of `sizeof(c->subscriptionId.number)`. -/
  sizeof_subscription_number : Nat
  /-- The value of `sizeof(c->subscriptionId.name)`. -/
  sizeof_subscription_name : Nat
  /-- The value of `pthread_self()`. -/
  pthread_self : Nat
  /-- The thread `ast_pthread_create_background` starts, or failure. -/
  pthread_create : Option Nat
  /-- The value of `time(0)`. -/
  now : Nat
  /-- Whether `(GLOB(debug) & DEBUGCAT_MESSAGE) == DEBUGCAT_MESSAGE`. -/
  debugMessage : Bool

/-! ## Registries -/

/-- Modelled from the spec: `sccp_line_find_byname` (sccp_line.c) is not among
the sources. "Resolve lineName via the Line Registry", "a mapping from line name
to Line": the first line of the registry that carries the name. -/
def sccp_line_find_byname (g : Globals) (name : CStr) : Option Line :=
  g.lines.find? (fun l => l.name = name)

/-- Modelled from the spec: `sccp_channel_find_bystate_on_line` (sccp_channel.c)
is not among the sources. "Any channel in Ringing state": the first channel of
the line that is in the given state. -/
def sccp_channel_find_bystate_on_line (l : Line) (state : ChannelState) : Option Channel :=
  l.channels.find? (fun c => c.state = state)

/-- The device a key points to. -/
def derefDevice (g : Globals) (key : Nat) : Option Device :=
  g.devices.find? (fun d => d.key = key)

/-- The session a key points to. -/
def derefSession (g : Globals) (key : Nat) : Option Session :=
  g.sessions.find? (fun s => s.key = key)

/-! ## sccp_devicestate -/

/-- The device states `AST_DEVICE_*` of the PBX. -/
inductive AstDeviceState where
  | AST_DEVICE_UNKNOWN
  | AST_DEVICE_NOT_INUSE
  | AST_DEVICE_INUSE
  | AST_DEVICE_BUSY
  | AST_DEVICE_INVALID
  | AST_DEVICE_UNAVAILABLE
  | AST_DEVICE_RINGING
  | AST_DEVICE_RINGINUSE
  | AST_DEVICE_ONHOLD
deriving DecidableEq, Repr

open AstDeviceState

/-- The tail of the `else if` chain of `sccp_devicestate` (lines 399-413), whose
shape depends on the `CS_AST_DEVICE_*` switches: with `CS_AST_DEVICE_RINGINUSE`
the inner `if`/`else` is the body of the ringing test. -/
def devicestate_inuse (env : Env) (l : Line) : AstDeviceState :=
  if env.CS_AST_DEVICE_RINGING ∧
      (sccp_channel_find_bystate_on_line l ChannelState.RINGING).isSome then
    if env.CS_AST_DEVICE_RINGINUSE ∧
        (sccp_channel_find_bystate_on_line l ChannelState.CONNECTED).isSome then
      AST_DEVICE_RINGINUSE
    else
      AST_DEVICE_RINGING
  else if env.CS_AST_DEVICE_ONHOLD ∧
      (sccp_channel_find_bystate_on_line l ChannelState.HOLD).isSome then
    AST_DEVICE_ONHOLD
  else
    AST_DEVICE_INUSE

/-- The function `sccp_devicestate(data)` (lines 372-418). -/
def sccp_devicestate (env : Env) (g : Globals) (data : CStr) : AstDeviceState :=
  -- exclude options
  let lineName := (splitAtSlash data).1
  match sccp_line_find_byname g lineName with
  | none => AST_DEVICE_INVALID
  | some l =>
    if l.devices.head? = none then AST_DEVICE_UNAVAILABLE
    else if l.incominglimit ≠ 0 ∧ l.channelCount = l.incominglimit then AST_DEVICE_BUSY
    else if l.channelCount = 0 then AST_DEVICE_NOT_INUSE
    else devicestate_inuse env l

/-! ### The precedence table of the specification -/

/-- The reading of "incoming-call limit reached": a limit is configured and the
channel count is greater than or equal to it. -/
def incomingLimitReached (l : Line) : Prop :=
  l.incominglimit ≠ 0 ∧ l.incominglimit ≤ l.channelCount

instance (l : Line) : Decidable (incomingLimitReached l) := by
  unfold incomingLimitReached; infer_instance

/-- Some channel of the line is in the given state. -/
def hasChannelInState (l : Line) (st : ChannelState) : Prop :=
  ∃ c ∈ l.channels, c.state = st

instance (l : Line) (st : ChannelState) : Decidable (hasChannelInState l st) := by
  unfold hasChannelInState; infer_instance

/-- The first rule of a table whose condition holds, `dflt` when none does. -/
def firstMatch (dflt : AstDeviceState) : List (Bool × AstDeviceState) → AstDeviceState
  | [] => dflt
  | (cond, res) :: rest => if cond then res else firstMatch dflt rest

/-- The rules of the specification for a line that exists, in their order, with
`reached` as the reading of "incoming-call limit reached". -/
def deviceStateRules (reached : Bool) (l : Line) : List (Bool × AstDeviceState) :=
  [ (decide (l.devices = []), AST_DEVICE_UNAVAILABLE),
    (reached, AST_DEVICE_BUSY),
    (decide (l.channelCount = 0), AST_DEVICE_NOT_INUSE),
    (decide (hasChannelInState l ChannelState.RINGING ∧
             hasChannelInState l ChannelState.CONNECTED), AST_DEVICE_RINGINUSE),
    (decide (hasChannelInState l ChannelState.RINGING), AST_DEVICE_RINGING),
    (decide (hasChannelInState l ChannelState.HOLD), AST_DEVICE_ONHOLD) ]

/-- The reference function of the specification: line not found gives Invalid,
otherwise the first rule that matches, InUse when none does. The incoming-call
limit counts as reached when the channel count is at or above it. -/
def deviceStateSpec (g : Globals) (lineName : CStr) : AstDeviceState :=
  match sccp_line_find_byname g lineName with
  | none => AST_DEVICE_INVALID
  | some l => firstMatch AST_DEVICE_INUSE (deviceStateRules (decide (incomingLimitReached l)) l)

/-- The reference function with the limit read the way the code tests it: a
limit is configured and the channel count is equal to it. -/
def deviceStateSpecEq (g : Globals) (lineName : CStr) : AstDeviceState :=
  match sccp_line_find_byname g lineName with
  | none => AST_DEVICE_INVALID
  | some l =>
    firstMatch AST_DEVICE_INUSE
      (deviceStateRules (decide (l.incominglimit ≠ 0 ∧ l.channelCount = l.incominglimit)) l)

/-! ### Builds and sample registries -/

/-- A build in which the PBX offers the ringing, ring-in-use and on-hold device
states; the hand-off to the PBX succeeds with handle 7. -/
def fullEnv : Env where
  CS_AST_DEVICE_RINGING := true
  CS_AST_DEVICE_RINGINUSE := true
  CS_AST_DEVICE_ONHOLD := true
  channel_alloc_ok := true
  sccp_pbx_channel_allocate := fun _ => some ⟨7⟩
  channelCapability := fun _ => 0
  sizeof_subscription_number := 80
  sizeof_subscription_name := 80
  pthread_self := 1
  pthread_create := some 2
  now := 1000
  debugMessage := false

/-- A channel of line "100" in the given state. -/
def sampleChannel (callid : Nat) (st : ChannelState) : Channel where
  callid := callid
  state := st
  line := "100".toList
  device := none
  subscriptionId := ⟨[], []⟩
  format := 0
  isCodecFix := false
  capability := 0
  autoanswer_type := AutoAnswer.NONE
  autoanswer_cause := 0
  ringermode := RingerMode.OUTSIDERING
  owner := none

/-- The line "100" with default subscription number "0". -/
def sampleLine (devices : List LineDevice) (channels : List Channel) (count limit : Nat) :
    Line where
  name := "100".toList
  id := "100".toList
  defaultSubscriptionId := ⟨"0".toList, []⟩
  devices := devices
  channels := channels
  channelCount := count
  incominglimit := limit

/-- A registry with the given lines and devices and an idle monitor. -/
def sampleGlobals (lines : List Line) (devices : List Device) : Globals where
  lines := lines
  devices := devices
  sessions := []
  callCount := 1
  monitor_thread := MonitorThread.AST_PTHREADT_NULL
  monitorSignals := 0
  monitorStarts := 0
  restartCalls := 0

/-- Line "100" bound to device 1, with two connected calls and an incoming
limit of one call. -/
def lineAboveLimit : Line :=
  sampleLine [⟨some 1⟩]
    [sampleChannel 2 ChannelState.CONNECTED, sampleChannel 1 ChannelState.CONNECTED] 2 1

/-- Line "100" bound to device 1, with three calls (two of them on hold) and an
incoming limit of two calls. -/
def lineThreeCalls : Line :=
  sampleLine [⟨some 1⟩]
    [sampleChannel 3 ChannelState.CONNECTED, sampleChannel 2 ChannelState.HOLD,
     sampleChannel 1 ChannelState.HOLD] 3 2

/-- Line "100" without device, but with two calls (ringing and connected) and an
incoming limit of two calls. -/
def lineNoDevice : Line :=
  sampleLine []
    [sampleChannel 2 ChannelState.RINGING, sampleChannel 1 ChannelState.CONNECTED] 2 2

/-- Line "100" bound to device 1, with a call on hold and a ringing call, without
a limit. -/
def lineRingingAndHold : Line :=
  sampleLine [⟨some 1⟩]
    [sampleChannel 2 ChannelState.HOLD, sampleChannel 1 ChannelState.RINGING] 2 0

/-- Line "100" bound to device 1, with as many calls as its incoming limit of
two allows. -/
def lineAtLimit : Line :=
  sampleLine [⟨some 1⟩]
    [sampleChannel 2 ChannelState.RINGING, sampleChannel 1 ChannelState.CONNECTED] 2 2

/-- The device "SEP01" that has session 1. -/
def deviceOnline : Device := ⟨1, "SEP01".toList, 0, some 1⟩

/-- The registry of `lineAboveLimit`. -/
def registryAboveLimit : Globals := sampleGlobals [lineAboveLimit] [deviceOnline]

/-- The registry of `lineThreeCalls`. -/
def registryThreeCalls : Globals := sampleGlobals [lineThreeCalls] [deviceOnline]

/-- The registry of `lineNoDevice`. -/
def registryNoDevice : Globals := sampleGlobals [lineNoDevice] []

/-- The registry of `lineRingingAndHold`. -/
def registryRingingAndHold : Globals := sampleGlobals [lineRingingAndHold] [deviceOnline]

/-- The registry of `lineAtLimit`. -/
def registryAtLimit : Globals := sampleGlobals [lineAtLimit] [deviceOnline]

/-! ## sccp_restart_monitor -/

/-- The function `sccp_restart_monitor()` (lines 803-828): its result and the
globals it leaves. A stopped monitor stays stopped, the monitor thread cannot
restart itself, a running monitor is woken with a signal, and a monitor is
started when there is none. -/
def sccp_restart_monitor (env : Env) (g : Globals) : Int × Globals :=
  let g := { g with restartCalls := g.restartCalls + 1 }
  if g.monitor_thread = MonitorThread.AST_PTHREADT_STOP then (0, g)
  else if g.monitor_thread = MonitorThread.thread env.pthread_self then (-1, g)
  else if g.monitor_thread ≠ MonitorThread.AST_PTHREADT_NULL then
    (0, { g with monitorSignals := g.monitorSignals + 1 })
  else
    match env.pthread_create with
    | none => (-1, g)
    | some tid =>
      (0, { g with monitor_thread := MonitorThread.thread tid,
                   monitorStarts := g.monitorStarts + 1 })

/-! ## sccp_request -/

/-- The type `struct composedId`: the line name and the subscription id of a
dial string. -/
structure ComposedId where
  mainId : CStr
  subscriptionId : SubscriptionId
deriving DecidableEq, Repr

/-- Modelled from the spec: `sccp_parseComposedId` (sccp_utils.c) is not among
the sources. The dial string "has the grammar
`<lineName>[@subscriptionNumber[:subscriptionName]]`"; an absent part is empty.
Only the first `maxLength` characters are read. -/
def sccp_parseComposedId (labelString : CStr) (maxLength : Nat) : ComposedId :=
  let s := labelString.take maxLength
  let rest := (s.dropWhile (fun ch => ch != '@')).drop 1
  { mainId := s.takeWhile (fun ch => ch != '@'),
    subscriptionId :=
      { number := rest.takeWhile (fun ch => ch != ':'),
        name := (rest.dropWhile (fun ch => ch != ':')).drop 1 } }

/-- Modelled from the spec: `sccp_app_separate_args` (sccp_utils.c) is not among
the sources. It cuts the "trailing options tokens" apart at the delimiter and
fills an array of `arraylen` entries; the last entry takes what is left of the
buffer, an empty buffer gives no token. -/
def sccp_app_separate_args (buf : CStr) (delim : Char) : Nat → List CStr
  | 0 => []
  | 1 => if buf.isEmpty then [] else [buf]
  | n + 2 =>
    if buf.isEmpty then []
    else
      buf.takeWhile (fun ch => ch != delim) ::
        sccp_app_separate_args ((buf.dropWhile (fun ch => ch != delim)).drop 1) delim (n + 1)

/-- Apply `f` to the line a `sccp_line_t *` points to: the first line of the
registry with that name. -/
def updateLine (name : CStr) (f : Line → Line) : List Line → List Line
  | [] => []
  | l :: ls => if l.name = name then f l :: ls else l :: updateLine name f ls

/-- Modelled from the spec: `sccp_channel_allocate` (sccp_channel.c) is not
among the sources. "Allocate a new Channel with a fresh call identifier, bind it
to the Line"; the call identifier is "unique, monotonically assigned", the ringer
style is "default outside", and `channelCount` "equals the number of live
Channels currently bound to the Line". Every other field is zero. The result is
`NULL` when the memory allocation fails. -/
def sccp_channel_allocate (env : Env) (g : Globals) (l : Line) (device : Option Nat) :
    Option (Channel × Globals) :=
  if env.channel_alloc_ok then
    let c : Channel :=
      { callid := g.callCount, state := ChannelState.DOWN, line := l.name, device := device,
        subscriptionId := { number := [], name := [] }, format := 0, isCodecFix := false,
        capability := 0, autoanswer_type := AutoAnswer.NONE,
        autoanswer_cause := AST_CAUSE_NOTDEFINED, ringermode := RingerMode.OUTSIDERING,
        owner := none }
    some (c, { g with
      callCount := g.callCount + 1,
      lines := updateLine l.name
        (fun x => { x with channels := c :: x.channels, channelCount := x.channelCount + 1 })
        g.lines })
  else none

/-- Modelled from the spec: `sccp_channel_delete` (sccp_channel.c) is not among
the sources. "The Channel is destroyed": it leaves the channel list of its line,
and the channel count follows ("`line.channelCount == count(channels bound to
line)` after every Channel create/destroy"). "No partial leak of call identifiers
or counters": the call identifier of the channel goes back to the counter when it
is the one that was assigned last; an older identifier stays consumed, so that the
identifiers of the channels that are left stay unique. -/
def sccp_channel_delete (g : Globals) (c : Channel) : Globals :=
  { g with
    callCount := if c.callid + 1 = g.callCount then c.callid else g.callCount,
    lines := updateLine c.line
      (fun x => { x with channels := x.channels.eraseP (fun y => y.callid = c.callid),
                         channelCount := x.channelCount - 1 })
      g.lines }

/-- Replace the first channel with the call identifier of `c` by `c`. -/
def replaceChannel (c : Channel) : List Channel → List Channel
  | [] => []
  | y :: ys => if y.callid = c.callid then c :: ys else y :: replaceChannel c ys

/-- The variable `c` of `sccp_request` points to the object that the channel
list of the line holds: what was written through `c` shows in the registry. -/
def storeChannel (g : Globals) (c : Channel) : Globals :=
  { g with
    lines := updateLine c.line (fun x => { x with channels := replaceChannel c x.channels })
      g.lines }

/-- Lines 302-318 of `sccp_request`: the autoanswer type of an option that starts
with "aa", in the old style ("aa1w", "aa2w") or the new one ("aa=1w", "aa=2w"),
and what is left of the option behind it (`optv[opti]` is moved forward). -/
def autoanswerType (c : Channel) (opt : CStr) : Channel × CStr :=
  -- let's use the old style auto answer aa1w and aa2w
  if strncasecmp opt "aa1w".toList 4 = 0 then
    ({ c with autoanswer_type := AutoAnswer.AA_1W }, opt.drop 4)
  else if strncasecmp opt "aa2w".toList 4 = 0 then
    ({ c with autoanswer_type := AutoAnswer.AA_2W }, opt.drop 4)
  else if strncasecmp opt "aa=".toList 3 = 0 then
    if strncasecmp (opt.drop 3) "1w".toList 2 = 0 then
      ({ c with autoanswer_type := AutoAnswer.AA_1W }, (opt.drop 3).drop 2)
    else if strncasecmp (opt.drop 3) "2w".toList 2 = 0 then
      ({ c with autoanswer_type := AutoAnswer.AA_2W }, (opt.drop 3).drop 2)
    else (c, opt.drop 3)
  else (c, opt)

/-- Lines 320-328 of `sccp_request`: the autoanswer cause that the rest of an
"aa" option selects, when there is a rest and an autoanswer type is set. -/
def autoanswerCause (c : Channel) (rest : CStr) : Channel :=
  if ast_strlen_zero rest = false ∧ c.autoanswer_type ≠ AutoAnswer.NONE then
    if strcasecmp rest "b".toList = 0 then
      { c with autoanswer_cause := AST_CAUSE_BUSY }
    else if strcasecmp rest "u".toList = 0 then
      { c with autoanswer_cause := AST_CAUSE_REQUESTED_CHAN_UNAVAIL }
    else if strcasecmp rest "c".toList = 0 then
      { c with autoanswer_cause := AST_CAUSE_CONGESTION }
    else c
  else c

/-- Lines 335-347 of `sccp_request`: the ringer mode that the value of a
"ringer=" option selects. -/
def ringerOption (c : Channel) (v : CStr) : Channel :=
  if strcasecmp v "inside".toList = 0 then
    { c with ringermode := RingerMode.INSIDERING }
  else if strcasecmp v "outside".toList = 0 then
    { c with ringermode := RingerMode.OUTSIDERING }
  else if strcasecmp v "feature".toList = 0 then
    { c with ringermode := RingerMode.FEATURERING }
  else if strcasecmp v "silent".toList = 0 then
    { c with ringermode := RingerMode.SILENTRING }
  else if strcasecmp v "urgent".toList = 0 then
    { c with ringermode := RingerMode.URGENTRING }
  else
    { c with ringermode := RingerMode.OUTSIDERING }

/-- The body of the option loop of `sccp_request` (lines 301-351) for one
option: the channel and the `*cause` of the caller afterwards. -/
def applyOption (c : Channel) (cause : Nat) (opt : CStr) : Channel × Nat :=
  if strncasecmp opt "aa".toList 2 = 0 then
    (autoanswerCause (autoanswerType c opt).1 (autoanswerType c opt).2,
     if (autoanswerCause (autoanswerType c opt).1 (autoanswerType c opt).2).autoanswer_cause ≠ 0
     then (autoanswerCause (autoanswerType c opt).1 (autoanswerType c opt).2).autoanswer_cause
     else cause)
  else if strncasecmp opt "ringer=".toList 7 = 0 then
    -- check for ringer options
    (ringerOption c (opt.drop 7), cause)
  else
    -- "Wrong option" is logged
    (c, cause)

/-- The option loop `for (opti = 0; opti < optc; opti++)` of `sccp_request`. -/
def applyOptions (c : Channel) (cause : Nat) : List CStr → Channel × Nat
  | [] => (c, cause)
  | opt :: rest => applyOptions (applyOption c cause opt).1 (applyOption c cause opt).2 rest

/-- What a call of `sccp_request` leaves: the returned PBX channel (`NULL` is
`none`), the SCCP channel `c` at the label `OUT`, the `*cause` of the caller and
the globals. -/
structure RequestResult where
  ret : Option AstChannel
  c : Option Channel
  cause : Nat
  g : Globals
deriving DecidableEq, Repr

/-- The label `OUT` of `sccp_request` (lines 356-361): the monitor is restarted
and `c && c->owner ? c->owner : NULL` is returned. -/
def request_out (env : Env) (g : Globals) (c : Option Channel) (cause : Nat) : RequestResult :=
  { ret := c.bind (fun x => x.owner), c := c, cause := cause,
    g := (sccp_restart_monitor env g).2 }

/-- Lines 195-208 of `sccp_request`: the subscription id of the channel is the
dialled one when its number is not empty, the default of the line otherwise. -/
def setSubscriptionId (env : Env) (c : Channel) (dialled : SubscriptionId) (l : Line) : Channel :=
  if ast_strlen_zero dialled.number = false then
    let number := sccp_copy_string dialled.number env.sizeof_subscription_number
    if ast_strlen_zero dialled.name = false then
      { c with subscriptionId :=
          { number := number,
            name := sccp_copy_string dialled.name env.sizeof_subscription_name } }
    else
      { c with subscriptionId := { number := number, name := c.subscriptionId.name } }
  else
    { c with subscriptionId :=
        { number := sccp_copy_string l.defaultSubscriptionId.number
            env.sizeof_subscription_number,
          name := sccp_copy_string l.defaultSubscriptionId.name
            env.sizeof_subscription_name } }

/-- The function `sccp_request(type, format, data, cause)` (lines 116-362), in
the build with `CS_AST_HAS_TECH_PVT`, where `SET_CAUSE(x)` is `*cause = x`. -/
def sccp_request (env : Env) (g : Globals) (type : Option CStr) (format : Int)
    (data : Option CStr) : RequestResult :=
  match type with
  | none => request_out env g none AST_CAUSE_REQUESTED_CHAN_UNAVAIL
  | some _ =>
    match data with
    | none => request_out env g none AST_CAUSE_REQUESTED_CHAN_UNAVAIL
    | some d =>
      let lineSubscriptionId := sccp_parseComposedId (splitAtSlash d).1 80
      match sccp_line_find_byname g lineSubscriptionId.mainId with
      | none => request_out env g none AST_CAUSE_REQUESTED_CHAN_UNAVAIL
      | some l =>
        if l.devices.head? = none then
          request_out env g none AST_CAUSE_REQUESTED_CHAN_UNAVAIL
        else
          match sccp_channel_allocate env g l none with
          | none => request_out env g none AST_CAUSE_REQUESTED_CHAN_UNAVAIL
          | some (c0, g1) =>
            -- set subscriberId for individual device addressing
            let c1 := setSubscriptionId env c0 lineSubscriptionId.subscriptionId l
            match env.sccp_pbx_channel_allocate c1 with
            | none =>
              request_out env (sccp_channel_delete g1 c1) none AST_CAUSE_REQUESTED_CHAN_UNAVAIL
            | some owner =>
              let c2 := { c1 with owner := some owner }
              if l.devices.length = 0 then
                request_out env (storeChannel g1 c2) (some c2) AST_CAUSE_REQUESTED_CHAN_UNAVAIL
              else
                let c3 := { c2 with format := format, isCodecFix := true }
                let c4 := { c3 with capability := env.channelCapability c3 }
                -- check for the channel params
                let r := applyOptions c4 AST_CAUSE_NOTDEFINED
                  (match (splitAtSlash d).2 with
                   | none => []
                   | some options => sccp_app_separate_args options '/' 2)
                request_out env (storeChannel g1 r.1) (some r.1) r.2

/-- Some Line-Device association of the line points to a device that has a
session. -/
def hasConnectedDevice (g : Globals) (l : Line) : Bool :=
  l.devices.any (fun ld =>
    match ld.device with
    | none => false
    | some k =>
      match derefDevice g k with
      | none => false
      | some d => d.session.isSome)

/-- The device "SEP02" that has no session. -/
def deviceOffline : Device := ⟨2, "SEP02".toList, 0, none⟩

/-- Line "100" without calls, presented on device 1. -/
def lineIdle : Line := sampleLine [⟨some 1⟩] [] 0 0

/-- Line "100" without calls, presented on device 2 only. -/
def lineOfflineOnly : Line := sampleLine [⟨some 2⟩] [] 0 0

/-- Line "100" without calls and without any Line-Device association. -/
def lineUnbound : Line := sampleLine [] [] 0 0

/-- The registry of `lineIdle`: line "100" and its connected device. -/
def registryIdle : Globals := sampleGlobals [lineIdle] [deviceOnline]

/-- The registry of `lineOfflineOnly`: the only device of line "100" is offline. -/
def registryOfflineOnly : Globals := sampleGlobals [lineOfflineOnly] [deviceOffline]

/-- The registry of `lineUnbound`. -/
def registryUnbound : Globals := sampleGlobals [lineUnbound] [deviceOnline]

/-- The empty registry. -/
def registryEmpty : Globals := sampleGlobals [] []

/-- The build `fullEnv` with a PBX that refuses every hand-off. -/
def refusingEnv : Env := { fullEnv with sccp_pbx_channel_allocate := fun _ => none }

/-- Both strings of a subscription id fit into the fields of a channel. -/
def fitsSubscriptionFields (env : Env) (sid : SubscriptionId) : Prop :=
  sid.number.length < env.sizeof_subscription_number ∧
  sid.name.length < env.sizeof_subscription_name

/-- Lines 289-291 of `sccp_request`: format, codec fix and capability. -/
def setFormat (env : Env) (c : Channel) (format : Int) : Channel :=
  { { c with format := format, isCodecFix := true } with
    capability := env.channelCapability { c with format := format, isCodecFix := true } }

/-- The options of a dial string as `sccp_request` cuts them apart (line 298). -/
def requestOptions (d : CStr) : List CStr :=
  match (splitAtSlash d).2 with
  | none => []
  | some options => sccp_app_separate_args options '/' 2

/-- Line "100" without calls, presented on device 1, limited to one incoming
call. -/
def lineLimitOne : Line := sampleLine [⟨some 1⟩] [] 0 1

/-- The registry of `lineLimitOne`. -/
def registryLimitOne : Globals := sampleGlobals [lineLimitOne] [deviceOnline]

/-- The registry of `lineLimitOne` after two calls of `sccp_request` for "100":
nothing in `sccp_request` looks at the incoming limit. -/
def registryAfterTwoRequests : Globals :=
  (sccp_request fullEnv
    (sccp_request fullEnv registryLimitOne (some "SCCP".toList) 0 (some "100".toList)).g
    (some "SCCP".toList) 0 (some "100".toList)).g

/-! ## sccp_handle_message -/

/-- The message kinds that `sccp_handle_message` has a `case` label for, and
`other` for every message id without one. -/
inductive MessageId where
  | AlarmMessage
  | RegisterMessage
  | RegisterTokenReq
  | UnregisterMessage
  | KeepAliveMessage
  | IpPortMessage
  | VersionReqMessage
  | CapabilitiesResMessage
  | ButtonTemplateReqMessage
  | SoftKeyTemplateReqMessage
  | SoftKeySetReqMessage
  | LineStatReqMessage
  | SpeedDialStatReqMessage
  | StimulusMessage
  | OffHookMessage
  | OnHookMessage
  | HeadsetStatusMessage
  | TimeDateReqMessage
  | KeypadButtonMessage
  | SoftKeyEventMessage
  | OpenReceiveChannelAck
  | OpenMultiMediaReceiveChannelAckMessage
  | ConnectionStatisticsRes
  | ServerReqMessage
  | ConfigStatReqMessage
  | EnblocCallMessage
  | RegisterAvailableLinesMessage
  | ForwardStatReqMessage
  | FeatureStatReqMessage
  | ServiceURLStatReqMessage
  | AccessoryStatusMessage
  | DialedPhoneBookMessage
  | UpdateCapabilitiesMessage
  | StartMediaTransmissionAck
  | Unknown_0x004A_Message
  | Unknown_0x0143_Message
  | Unknown_0x0144_Message
  | SpeedDialStatDynamicMessage
  | ExtensionDeviceCaps
  | other (code : Nat)
deriving DecidableEq, Repr

/-- The part of a `sccp_moo_t` that `sccp_handle_message` reads: the message id
and, for `IpPortMessage`, the media port. -/
structure Message where
  lel_messageId : MessageId
  les_rtpMediaPort : Nat
deriving DecidableEq, Repr

/-- The per-message handlers `sccp_handle_*(s, r)` of sccp_actions.c. -/
inductive Handler where
  | sccp_handle_alarm
  | sccp_handle_register
  | sccp_handle_unregister
  | sccp_handle_version
  | sccp_handle_capabilities_res
  | sccp_handle_button_template_req
  | sccp_handle_soft_key_template_req
  | sccp_handle_soft_key_set_req
  | sccp_handle_line_number
  | sccp_handle_speed_dial_stat_req
  | sccp_handle_stimulus
  | sccp_handle_offhook
  | sccp_handle_onhook
  | sccp_handle_headset
  | sccp_handle_time_date_req
  | sccp_handle_keypad_button
  | sccp_handle_soft_key_event
  | sccp_handle_open_receive_channel_ack
  | sccp_handle_OpenMultiMediaReceiveAck
  | sccp_handle_ConnectionStatistics
  | sccp_handle_ServerResMessage
  | sccp_handle_ConfigStatMessage
  | sccp_handle_EnblocCallMessage
  | sccp_handle_forward_stat_req
  | sccp_handle_feature_stat_req
  | sccp_handle_services_stat_req
  | sccp_handle_accessorystatus_message
  | sccp_handle_dialedphonebook_message
  | sccp_handle_updatecapabilities_message
  | sccp_handle_startmediatransmission_ack
  | sccp_handle_unknown_message
deriving DecidableEq, Repr

/-- The levels of `ast_log` that the dispatcher uses. -/
inductive LogLevel where
  | LOG_WARNING
  | LOG_ERROR
deriving DecidableEq, Repr

/-- The calls that `sccp_handle_message` makes, in the order it makes them.
Sessions and devices are named by their keys, `NULL` is `none`. -/
inductive Call where
  | ast_log (level : LogLevel)
  | ast_free
  | handler (h : Handler)
  | sccp_handle_AvailableLines (device : Option Nat)
  | sccp_session_sendmsg_KeepAliveAck (device : Option Nat)
  | sccp_session_close (session : Option Nat)
  | destroy_session (session : Option Nat) (cleanupTime : Nat)
deriving DecidableEq, Repr

/-- What stops the function for good: a member of a `NULL` pointer is read, or a
pointer does not point to an object of the registry. -/
inductive Fault where
  | nullDereference
  | danglingPointer
deriving DecidableEq, Repr

/-- What a call of `sccp_handle_message` leaves: the returned `uint8_t`, the
globals and the calls made. -/
structure HandleResult where
  ret : Nat
  g : Globals
  calls : List Call
deriving DecidableEq, Repr

/-- Modelled from the spec: `sccp_device_find_byipaddress` (sccp_device.c) is
not among the sources. "The device currently resolvable by peer address": the
first device of the registry whose session has that peer address. -/
def sccp_device_find_byipaddress (g : Globals) (s_addr : Nat) : Option Device :=
  g.devices.find? (fun d =>
    match d.session with
    | none => false
    | some k =>
      match derefSession g k with
      | none => false
      | some s => s.sin_addr = s_addr)

/-- Write a session back to the object its key points to. -/
def writeSession (g : Globals) (s : Session) : Globals :=
  { g with sessions := g.sessions.map (fun x => if x.key = s.key then s else x) }

/-- The test of line 444: the message is none of the kinds that a session
without device may send. -/
def notPreRegistration (mid : MessageId) : Bool :=
  mid ≠ MessageId.RegisterMessage ∧ mid ≠ MessageId.UnregisterMessage ∧
  mid ≠ MessageId.RegisterTokenReq ∧ mid ≠ MessageId.AlarmMessage ∧
  mid ≠ MessageId.KeepAliveMessage ∧ mid ≠ MessageId.IpPortMessage

/-- The `switch (mid)` of `sccp_handle_message` (lines 487-614): the session
after it and the calls it makes. -/
def dispatch (env : Env) (s : Session) (r : Message) : Session × List Call :=
  match r.lel_messageId with
  | MessageId.AlarmMessage => (s, [Call.handler Handler.sccp_handle_alarm])
  | MessageId.RegisterMessage => (s, [Call.handler Handler.sccp_handle_register])
  | MessageId.RegisterTokenReq => (s, [Call.handler Handler.sccp_handle_register])
  | MessageId.UnregisterMessage => (s, [Call.handler Handler.sccp_handle_unregister])
  | MessageId.KeepAliveMessage => (s, [Call.sccp_session_sendmsg_KeepAliveAck s.device])
  | MessageId.IpPortMessage =>
    -- obsolete message
    ({ s with rtpPort := r.les_rtpMediaPort }, [])
  | MessageId.VersionReqMessage => (s, [Call.handler Handler.sccp_handle_version])
  | MessageId.CapabilitiesResMessage =>
    (s, [Call.handler Handler.sccp_handle_capabilities_res])
  | MessageId.ButtonTemplateReqMessage =>
    (s, [Call.handler Handler.sccp_handle_button_template_req])
  | MessageId.SoftKeyTemplateReqMessage =>
    (s, [Call.handler Handler.sccp_handle_soft_key_template_req])
  | MessageId.SoftKeySetReqMessage => (s, [Call.handler Handler.sccp_handle_soft_key_set_req])
  | MessageId.LineStatReqMessage => (s, [Call.handler Handler.sccp_handle_line_number])
  | MessageId.SpeedDialStatReqMessage =>
    (s, [Call.handler Handler.sccp_handle_speed_dial_stat_req])
  | MessageId.StimulusMessage => (s, [Call.handler Handler.sccp_handle_stimulus])
  | MessageId.OffHookMessage => (s, [Call.handler Handler.sccp_handle_offhook])
  | MessageId.OnHookMessage => (s, [Call.handler Handler.sccp_handle_onhook])
  | MessageId.HeadsetStatusMessage => (s, [Call.handler Handler.sccp_handle_headset])
  | MessageId.TimeDateReqMessage => (s, [Call.handler Handler.sccp_handle_time_date_req])
  | MessageId.KeypadButtonMessage => (s, [Call.handler Handler.sccp_handle_keypad_button])
  | MessageId.SoftKeyEventMessage => (s, [Call.handler Handler.sccp_handle_soft_key_event])
  | MessageId.OpenReceiveChannelAck =>
    (s, [Call.handler Handler.sccp_handle_open_receive_channel_ack])
  | MessageId.OpenMultiMediaReceiveChannelAckMessage =>
    (s, [Call.handler Handler.sccp_handle_OpenMultiMediaReceiveAck])
  | MessageId.ConnectionStatisticsRes =>
    (s, [Call.handler Handler.sccp_handle_ConnectionStatistics])
  | MessageId.ServerReqMessage => (s, [Call.handler Handler.sccp_handle_ServerResMessage])
  | MessageId.ConfigStatReqMessage => (s, [Call.handler Handler.sccp_handle_ConfigStatMessage])
  | MessageId.EnblocCallMessage => (s, [Call.handler Handler.sccp_handle_EnblocCallMessage])
  | MessageId.RegisterAvailableLinesMessage => (s, [Call.sccp_handle_AvailableLines s.device])
  | MessageId.ForwardStatReqMessage => (s, [Call.handler Handler.sccp_handle_forward_stat_req])
  | MessageId.FeatureStatReqMessage => (s, [Call.handler Handler.sccp_handle_feature_stat_req])
  | MessageId.ServiceURLStatReqMessage =>
    (s, [Call.handler Handler.sccp_handle_services_stat_req])
  | MessageId.AccessoryStatusMessage =>
    (s, [Call.handler Handler.sccp_handle_accessorystatus_message])
  | MessageId.DialedPhoneBookMessage =>
    (s, [Call.handler Handler.sccp_handle_dialedphonebook_message])
  | MessageId.UpdateCapabilitiesMessage =>
    (s, [Call.handler Handler.sccp_handle_updatecapabilities_message])
  | MessageId.StartMediaTransmissionAck =>
    (s, [Call.handler Handler.sccp_handle_startmediatransmission_ack])
  | MessageId.Unknown_0x004A_Message =>
    (s, if env.debugMessage then [Call.handler Handler.sccp_handle_unknown_message] else [])
  | MessageId.Unknown_0x0143_Message =>
    (s, if env.debugMessage then [Call.handler Handler.sccp_handle_unknown_message] else [])
  | MessageId.Unknown_0x0144_Message =>
    (s, if env.debugMessage then [Call.handler Handler.sccp_handle_unknown_message] else [])
  | MessageId.SpeedDialStatDynamicMessage =>
    (s, [Call.handler Handler.sccp_handle_speed_dial_stat_req])
  | MessageId.ExtensionDeviceCaps =>
    (s, if env.debugMessage then [Call.handler Handler.sccp_handle_unknown_message] else [])
  | MessageId.other _ => (s, [Call.handler Handler.sccp_handle_unknown_message])

/-- Lines 479-617 of `sccp_handle_message`: the switch, then the message is
released and 1 is returned. `log` holds the calls made before. -/
def dispatchAndFree (env : Env) (g : Globals) (s : Session) (r : Message) (log : List Call) :
    HandleResult :=
  { ret := 1,
    g := writeSession g (dispatch env s r).1,
    calls := log ++ (dispatch env s r).2 ++ [Call.ast_free] }

/-- Lines 446-477 of `sccp_handle_message`, for a session with a device: the
device is compared with the one found by the peer address of the session, then
its session with this session. -/
def checkDevice (env : Env) (g : Globals) (s : Session) (r : Message) (d : Device) :
    Except Fault HandleResult :=
  if (sccp_device_find_byipaddress g s.sin_addr).map (fun x => x.key) ≠ some d.key then
    -- IP Address has changed mid session
    if d.nat = 1 then
      -- the log line reads `s->device->session->sin.sin_addr`
      match d.session with
      | none => Except.error Fault.nullDereference
      | some k =>
        match derefSession g k with
        | none => Except.error Fault.danglingPointer
        | some _ => Except.ok (dispatchAndFree env g s r [Call.ast_log LogLevel.LOG_WARNING])
    else
      Except.ok
        { ret := 0, g := g, calls := [Call.ast_log LogLevel.LOG_ERROR, Call.ast_free] }
  else if d.session = none ∨ d.session ≠ some s.key then
    Except.ok
      { ret := 0, g := g,
        calls := [Call.sccp_session_close d.session, Call.destroy_session d.session 2,
                  Call.ast_free] }
  else
    Except.ok (dispatchAndFree env g s r [])

/-- The function `sccp_handle_message(r, s)` (lines 425-618). Both log lines of
the `NULL` guards read `s->device->id`. -/
def sccp_handle_message (env : Env) (g : Globals) (r : Option Message) (s : Option Nat) :
    Except Fault HandleResult :=
  match s with
  | none => Except.error Fault.nullDereference
  | some sk =>
    match derefSession g sk with
    | none => Except.error Fault.danglingPointer
    | some s0 =>
      match r with
      | none =>
        match s0.device with
        | none => Except.error Fault.nullDereference
        | some dk =>
          match derefDevice g dk with
          | none => Except.error Fault.danglingPointer
          | some _ =>
            Except.ok
              { ret := 0, g := g, calls := [Call.ast_log LogLevel.LOG_ERROR, Call.ast_free] }
      | some msg =>
        -- always update keepalive
        let s1 := { s0 with lastKeepAlive := env.now }
        let g1 := writeSession g s1
        -- Check if all necessary information is available
        match s1.device with
        | none =>
          if notPreRegistration msg.lel_messageId then
            Except.ok (dispatchAndFree env g1 s1 msg [Call.ast_log LogLevel.LOG_WARNING])
          else
            Except.ok (dispatchAndFree env g1 s1 msg [])
        | some dk =>
          match derefDevice g1 dk with
          | none => Except.error Fault.danglingPointer
          | some d => checkDevice env g1 s1 msg d

/-- The handlers among the calls: every call except logging and the release of
the message. -/
def isHandlerCall : Call → Bool
  | Call.ast_log _ => false
  | Call.ast_free => false
  | _ => true

/-- A session from address 10 that has not registered a device. -/
def sessionUnbound : Session := ⟨1, none, 10, 0, 0⟩

/-- The registry with the unregistered session alone. -/
def registryUnboundSession : Globals :=
  { sampleGlobals [] [] with sessions := [sessionUnbound] }

/-- Lines 443-617 of `sccp_handle_message`: everything behind the update of the
keepalive timestamp, for the session `s` as it is then. -/
def validateAndDispatch (env : Env) (g : Globals) (s : Session) (msg : Message) :
    Except Fault HandleResult :=
  match s.device with
  | none =>
    if notPreRegistration msg.lel_messageId then
      Except.ok (dispatchAndFree env g s msg [Call.ast_log LogLevel.LOG_WARNING])
    else
      Except.ok (dispatchAndFree env g s msg [])
  | some dk =>
    match derefDevice g dk with
    | none => Except.error Fault.danglingPointer
    | some d => checkDevice env g s msg d

/-- The pointers that `sccp_handle_message` follows from a session point to
objects: the device of the session, and the session of a device with NAT, which
the warning of line 451 reads. -/
def pointersResolve (g : Globals) (s : Session) : Prop :=
  ∀ dk, s.device = some dk →
    ∃ d, derefDevice g dk = some d ∧
      (d.nat = 1 → ∃ k s2, d.session = some k ∧ derefSession g k = some s2)

/-- The calls that handle a message: the handlers of the switch, with the
acknowledgement of a keepalive among them. -/
def isMessageHandler : Call → Bool
  | Call.handler _ => true
  | Call.sccp_handle_AvailableLines _ => true
  | Call.sccp_session_sendmsg_KeepAliveAck _ => true
  | _ => false

/-- The calls of the switch among the calls made. -/
def handlerCalls (calls : List Call) : List Call := calls.filter isMessageHandler

/-- Session 1, from address 10, registered as the session of device 1. -/
def sessRegistered : Session := ⟨1, some 1, 10, 0, 0⟩

/-- Session 2, from address 10 as well, bound to device 1, whose session is
session 1. -/
def sessSecond : Session := ⟨2, some 1, 10, 0, 0⟩

/-- Session 3, from address 30, without device. -/
def sessNoDevice : Session := ⟨3, none, 30, 0, 0⟩

/-- Session 4, from address 40, bound to device 2, which has no NAT and is found
under address 60. -/
def sessMoved : Session := ⟨4, some 2, 40, 0, 0⟩

/-- Session 5, from address 50, bound to device 3, which has NAT and is found
under address 70. -/
def sessMovedNat : Session := ⟨5, some 3, 50, 0, 0⟩

/-- Session 6, from address 60, the session of device 2. -/
def sessOfDevice2 : Session := ⟨6, some 2, 60, 0, 0⟩

/-- Session 7, from address 70, the session of device 3. -/
def sessOfDevice3 : Session := ⟨7, some 3, 70, 0, 0⟩

/-- Session 8, from address 80, bound to device 4, which has NAT and no
session. -/
def sessOrphanNat : Session := ⟨8, some 4, 80, 0, 0⟩

/-- Device 2, "SEP02", without NAT, with session 6. -/
def device2 : Device := ⟨2, "SEP02".toList, 0, some 6⟩

/-- Device 3, "SEP03", with NAT, with session 7. -/
def device3 : Device := ⟨3, "SEP03".toList, 1, some 7⟩

/-- Device 4, "SEP04", with NAT, without session. -/
def device4 : Device := ⟨4, "SEP04".toList, 1, none⟩

/-- A registry with the eight sessions and the four devices above. -/
def registrySessions : Globals :=
  { sampleGlobals [lineIdle] [deviceOnline, device2, device3, device4] with
    sessions := [sessRegistered, sessSecond, sessNoDevice, sessMoved, sessMovedNat,
                 sessOfDevice2, sessOfDevice3, sessOrphanNat] }

/-! ### What an option token says -/

/-- The autoanswer type that an option names in the old style ("aa1w", "aa2w") or
the new one ("aa=1w", "aa=2w"), and what is left of the option behind it. -/
def autoanswerSplit (opt : CStr) : Option AutoAnswer × CStr :=
  if strncasecmp opt "aa1w".toList 4 = 0 then (some AutoAnswer.AA_1W, opt.drop 4)
  else if strncasecmp opt "aa2w".toList 4 = 0 then (some AutoAnswer.AA_2W, opt.drop 4)
  else if strncasecmp opt "aa=".toList 3 = 0 then
    if strncasecmp (opt.drop 3) "1w".toList 2 = 0 then
      (some AutoAnswer.AA_1W, (opt.drop 3).drop 2)
    else if strncasecmp (opt.drop 3) "2w".toList 2 = 0 then
      (some AutoAnswer.AA_2W, (opt.drop 3).drop 2)
    else (none, opt.drop 3)
  else (none, opt)

/-- The autoanswer type that an option token sets, if it sets one. -/
def tokenAutoanswer (opt : CStr) : Option AutoAnswer :=
  if strncasecmp opt "aa".toList 2 = 0 then (autoanswerSplit opt).1 else none

/-- The cause that the letter behind an autoanswer type stands for: "b" is busy,
"u" unavailable, "c" congestion. -/
def causeLetter (rest : CStr) : Option Nat :=
  if strcasecmp rest "b".toList = 0 then some AST_CAUSE_BUSY
  else if strcasecmp rest "u".toList = 0 then some AST_CAUSE_REQUESTED_CHAN_UNAVAIL
  else if strcasecmp rest "c".toList = 0 then some AST_CAUSE_CONGESTION
  else none

/-- The autoanswer cause that an option token sets, if it sets one, when
`typeBefore` is the autoanswer type in force before the token. -/
def tokenCause (typeBefore : AutoAnswer) (opt : CStr) : Option Nat :=
  if strncasecmp opt "aa".toList 2 = 0 ∧ (autoanswerSplit opt).2 ≠ [] ∧
      (autoanswerSplit opt).1.getD typeBefore ≠ AutoAnswer.NONE then
    causeLetter (autoanswerSplit opt).2
  else none

/-- The ringer mode that the value of a "ringer=" option stands for: the five
words, and outside for everything else. -/
def ringerWord (v : CStr) : RingerMode :=
  if strcasecmp v "inside".toList = 0 then RingerMode.INSIDERING
  else if strcasecmp v "outside".toList = 0 then RingerMode.OUTSIDERING
  else if strcasecmp v "feature".toList = 0 then RingerMode.FEATURERING
  else if strcasecmp v "silent".toList = 0 then RingerMode.SILENTRING
  else if strcasecmp v "urgent".toList = 0 then RingerMode.URGENTRING
  else RingerMode.OUTSIDERING

/-- The ringer mode that an option token sets, if it sets one. -/
def tokenRinger (opt : CStr) : Option RingerMode :=
  if strncasecmp opt "aa".toList 2 = 0 then none
  else if strncasecmp opt "ringer=".toList 7 = 0 then some (ringerWord (opt.drop 7))
  else none

/-- The autoanswer type in force behind a list of tokens. -/
def typeInForce (init : AutoAnswer) : List CStr → AutoAnswer
  | [] => init
  | t :: rest => typeInForce ((tokenAutoanswer t).getD init) rest

/-- An option token that the loop knows: it starts with "aa" or with "ringer=",
in any case of the letters. -/
def knownOption (opt : CStr) : Prop :=
  strncasecmp opt "aa".toList 2 = 0 ∨ strncasecmp opt "ringer=".toList 7 = 0

instance (opt : CStr) : Decidable (knownOption opt) := by
  unfold knownOption; infer_instance

/-! ## sccp_do_monitor and unload_module -/

/-- What one turn of the loop of `sccp_do_monitor` does: the wait it passes to
`ast_io_wait`, and whether it runs the scheduler queue. -/
structure MonitorTurn where
  wait : Int
  ranQueue : Bool
deriving DecidableEq, Repr

/-- One turn of the loop of `sccp_do_monitor` (lines 778-789): `sched_wait` is the
result of `ast_sched_wait(sched)`, `io_wait` the function `ast_io_wait(io, .)`. -/
def sccp_do_monitor_turn (sched_wait : Int) (io_wait : Int → Int) : MonitorTurn :=
  let res := if sched_wait < 0 ∨ sched_wait > 1000 then 1000 else sched_wait
  { wait := res, ranQueue := decide (io_wait res ≥ 0) }

/-- The first `n` turns of the loop `for (;;)` of `sccp_do_monitor` (lines
770-794), which runs until the thread is cancelled: `ast_sched_wait i` and
`ast_io_wait i` are what the scheduler and the I/O context answer in turn `i`. -/
def sccp_do_monitor (ast_sched_wait : Nat → Int) (ast_io_wait : Nat → Int → Int) :
    Nat → List MonitorTurn
  | 0 => []
  | n + 1 =>
    sccp_do_monitor ast_sched_wait ast_io_wait n ++
      [sccp_do_monitor_turn (ast_sched_wait n) (ast_io_wait n)]

/-- Lines 1814-1823 of `unload_module`: a running monitor thread is cancelled,
signalled and joined, and the marker of the monitor thread is set to STOP. -/
def unload_module_monitor (g : Globals) : Globals :=
  if g.monitor_thread ≠ MonitorThread.AST_PTHREADT_NULL ∧
      g.monitor_thread ≠ MonitorThread.AST_PTHREADT_STOP then
    -- pthread_cancel, pthread_kill(SIGURG), pthread_join
    { g with monitorSignals := g.monitorSignals + 1,
             monitor_thread := MonitorThread.AST_PTHREADT_STOP }
  else
    { g with monitor_thread := MonitorThread.AST_PTHREADT_STOP }

/-- The globals after `n` more calls of `sccp_restart_monitor`, and the results of
these calls. -/
def restartTimes (env : Env) : Nat → Globals → List Int × Globals
  | 0, g => ([], g)
  | n + 1, g =>
    ((sccp_restart_monitor env g).1 :: (restartTimes env n (sccp_restart_monitor env g).2).1,
     (restartTimes env n (sccp_restart_monitor env g).2).2)

/-- A registry with a running monitor thread. -/
def registryMonitorRunning : Globals :=
  { registryIdle with monitor_thread := MonitorThread.thread 9 }

/-- The C string that the buffer `data` holds after `sccp_devicestate(data)`:
`lineName` is `data` itself, and line 379 writes `'\0'` over its first `/`. -/
def sccp_devicestate_data (data : CStr) : CStr := (splitAtSlash data).1

/-- The results `AST_DEVICE_*` that the specification lists for
`sccp_devicestate`. -/
def listedDeviceStates : List AstDeviceState :=
  [AST_DEVICE_INVALID, AST_DEVICE_UNAVAILABLE, AST_DEVICE_BUSY, AST_DEVICE_NOT_INUSE,
   AST_DEVICE_RINGING, AST_DEVICE_RINGINUSE, AST_DEVICE_ONHOLD, AST_DEVICE_INUSE]

/-- Line "100" with two calls, presented on device 1, limited to two incoming
calls, and the same line under the name "200" without a limit. -/
def registryTwoLines : Globals :=
  sampleGlobals
    [sampleLine [⟨some 1⟩] [sampleChannel 1 ChannelState.CONNECTED, sampleChannel 2 ChannelState.CONNECTED] 2 2,
     { sampleLine [⟨some 1⟩] [sampleChannel 3 ChannelState.CONNECTED, sampleChannel 4 ChannelState.CONNECTED]
         2 0 with name := "200".toList }]
    [deviceOnline]

/-! ## sccp_app_setmessage -/

/-- The messages that `sccp_app_setmessage` sends to the display of a device,
with the device (by key) and the arguments of the call. -/
inductive DisplayCall where
  | sccp_dev_displayprinotify (d : Nat) (msg : CStr) (priority : Nat) (timeout : Nat)
  | sccp_dev_displayprompt (d : Nat) (line : Nat) (callid : Nat) (msg : CStr) (timeout : Nat)
deriving DecidableEq, Repr

/-- What `sccp_app_setmessage` works on: the field `phonemessage` of every device
(by device key, `NULL` is `none`), the Asterisk database (by family and key) and
the display messages sent so far. -/
structure MessageState where
  phonemessage : Nat → Option CStr
  astdb : CStr → CStr → Option CStr
  displays : List DisplayCall

/-- The Asterisk `ast_db_put(family, key, value)`: the entry of the database
under family and key becomes the value. -/
def ast_db_put (db : CStr → CStr → Option CStr) (family key value : CStr) :
    CStr → CStr → Option CStr :=
  fun f k => if f = family ∧ k = key then some value else db f k

/-- The Asterisk `ast_db_del(family, key)`: the entry of the database under
family and key is removed. -/
def ast_db_del (db : CStr → CStr → Option CStr) (family key : CStr) :
    CStr → CStr → Option CStr :=
  fun f k => if f = family ∧ k = key then none else db f k

/-- The function `sccp_app_setmessage(chan, data)` (lines 1429-1460). `c` is
`get_sccp_channel_from_ast_channel(chan)`, `text` is `data`, and `ast_strdup` is
the Asterisk function of that name, which returns `NULL` when it gets no memory. -/
def sccp_app_setmessage (ast_strdup : CStr → Option CStr) (g : Globals) (st : MessageState)
    (c : Option Channel) (text : Option CStr) : Except Fault (Int × MessageState) :=
  match c with
  | none =>
    -- "Not an SCCP channel" is logged
    Except.ok (0, st)
  | some c =>
    match text with
    | none => Except.ok (0, st)
    | some text =>
      match c.device with
      | none => Except.ok (0, st)
      | some dk =>
        match derefDevice g dk with
        | none => Except.error Fault.danglingPointer
        | some d =>
          if text ≠ [] then
            Except.ok (0,
              { phonemessage := fun k => if k = dk then ast_strdup text else st.phonemessage k,
                astdb := ast_db_put st.astdb "SCCPM".toList d.id text,
                displays := st.displays ++
                  [DisplayCall.sccp_dev_displayprinotify dk text 5 0,
                   DisplayCall.sccp_dev_displayprompt dk 0 0 text 0] })
          else
            Except.ok (0,
              { phonemessage := fun k => if k = dk then none else st.phonemessage k,
                astdb := ast_db_del st.astdb "SCCPM".toList d.id,
                displays := st.displays ++
                  [DisplayCall.sccp_dev_displayprinotify dk "Message off".toList 5 1,
                   DisplayCall.sccp_dev_displayprompt dk 0 0 "Message off".toList 1] })

/-- Devices 1 and 2 both show "Lunch", and the database has the note of each. -/
def messagesLunch : MessageState :=
  { phonemessage := fun _ => some "Lunch".toList,
    astdb := fun f _ => if f = "SCCPM".toList then some "Lunch".toList else none,
    displays := [] }

/-- A registry with the devices "SEP01" and "SEP02". -/
def registryTwoDevices : Globals := sampleGlobals [lineIdle] [deviceOnline, deviceOffline]

/-- A channel of line "100" that is bound to device 1. -/
def channelOnDevice : Channel := { sampleChannel 1 ChannelState.CONNECTED with device := some 1 }

/-! ## sccp_rtp_bridge -/

/-- The Asterisk `enum ast_bridge_result`. -/
inductive AstBridgeResult where
  | AST_BRIDGE_COMPLETE
  | AST_BRIDGE_FAILED
  | AST_BRIDGE_FAILED_NOWARN
  | AST_BRIDGE_RETRY
deriving DecidableEq, Repr

/-- The Asterisk `enum ast_rtp_get_result`. -/
inductive AstRtpGetResult where
  | AST_RTP_GET_FAILED
  | AST_RTP_TRY_PARTIAL
  | AST_RTP_TRY_NATIVE
deriving DecidableEq, Repr

/-- What `sccp_rtp_bridge` reads of a `struct ast_channel`: the answer of
`ast_check_hangup`, the field `tech_pvt` (`NULL` is `none`), the raw formats and
the answer of `sccp_channel_get_rtp_peer`. -/
structure BridgedChannel where
  hangup : Bool
  tech_pvt : Option Channel
  rawreadformat : Int
  rawwriteformat : Int
  rtp_peer : AstRtpGetResult
deriving DecidableEq, Repr

/-- The locks of the two channels: how often each is held, and how often the
loop released the lock of `c0` to let the other side pass. -/
structure BridgeLocks where
  c0 : Int
  c1 : Int
  spins : Nat
deriving DecidableEq, Repr

/-- What a call of `sccp_rtp_bridge` leaves: its result and the locks. -/
structure BridgeOutcome where
  res : AstBridgeResult
  locks : BridgeLocks
deriving DecidableEq, Repr

/-- The loop `while (ast_channel_trylock(c1))` of `sccp_rtp_bridge` (lines
1524-1528), from its turn `i` on: `busy i` says that the call of
`ast_channel_trylock` in turn `i` does not get the lock. The loop has no bound of
its own; `none` says that it is still turning when the fuel is used up. -/
def lockAvoidance (busy : Nat → Bool) : Nat → Nat → BridgeLocks → Option BridgeLocks
  | 0, _, _ => none
  | fuel + 1, i, lk =>
    if busy i then
      -- unlock c0, usleep(1), lock c0
      lockAvoidance busy fuel (i + 1) { lk with c0 := lk.c0 - 1 + 1, spins := lk.spins + 1 }
    else
      some { lk with c1 := lk.c1 + 1 }

/-- Both channels are unlocked, `c1` first. -/
def unlockBoth (lk : BridgeLocks) : BridgeLocks :=
  { lk with c1 := lk.c1 - 1, c0 := lk.c0 - 1 }

/-- The field `cur_ms` of `ast_codec_pref_getsize(&pvt->device->codecs, format)`:
`cur_ms` gives it for a device (by key) and a format. -/
def packetization (cur_ms : Nat → Int → Int) (pvt : Option Channel) (format : Int) :
    Except Fault Int :=
  match pvt with
  | none => Except.error Fault.nullDereference
  | some c =>
    match c.device with
    | none => Except.error Fault.nullDereference
    | some dk => Except.ok (cur_ms dk format)

/-- The function `sccp_rtp_bridge(c0, c1, flags, fo, rc, timeoutms)` (lines
1513-1592), behind the lock avoidance: `lk` are the locks when both are held. -/
def rtp_bridge_locked (cur_ms : Nat → Int → Int) (c0 c1 : BridgedChannel) (lk : BridgeLocks) :
    Except Fault BridgeOutcome :=
  -- Ensure neither channel got hungup during lock avoidance
  if c0.hangup ∨ c1.hangup then
    Except.ok { res := AstBridgeResult.AST_BRIDGE_FAILED, locks := unlockBoth lk }
  -- Check if a bridge is possible (partial/native)
  else if c0.rtp_peer = AstRtpGetResult.AST_RTP_GET_FAILED ∨
      c1.rtp_peer = AstRtpGetResult.AST_RTP_GET_FAILED then
    Except.ok { res := AstBridgeResult.AST_BRIDGE_FAILED_NOWARN, locks := unlockBoth lk }
  else if c0.rtp_peer = AstRtpGetResult.AST_RTP_TRY_PARTIAL ∨
      c1.rtp_peer = AstRtpGetResult.AST_RTP_TRY_PARTIAL then
    if c0.rawreadformat ≠ c1.rawwriteformat ∨ c1.rawreadformat ≠ c0.rawwriteformat then
      Except.ok { res := AstBridgeResult.AST_BRIDGE_FAILED_NOWARN, locks := unlockBoth lk }
    else
      -- They must also be using the same packetization
      match packetization cur_ms c0.tech_pvt c0.rawreadformat with
      | Except.error f => Except.error f
      | Except.ok fmt0 =>
        match packetization cur_ms c1.tech_pvt c1.rawreadformat with
        | Except.error f => Except.error f
        | Except.ok fmt1 =>
          if fmt0 ≠ fmt1 then
            Except.ok { res := AstBridgeResult.AST_BRIDGE_FAILED_NOWARN, locks := unlockBoth lk }
          else
            Except.ok { res := AstBridgeResult.AST_BRIDGE_FAILED_NOWARN, locks := unlockBoth lk }
  else
    Except.ok { res := AstBridgeResult.AST_BRIDGE_FAILED, locks := unlockBoth lk }

/-- The function `sccp_rtp_bridge` (lines 1513-1592): `c0` is locked, the lock of
`c1` is tried until it is free, and the bridge is looked at. `none` says that the
fuel ran out in the lock avoidance. -/
def sccp_rtp_bridge (busy : Nat → Bool) (cur_ms : Nat → Int → Int) (fuel : Nat)
    (c0 c1 : BridgedChannel) : Option (Except Fault BridgeOutcome) :=
  match lockAvoidance busy fuel 0 { c0 := 1, c1 := 0, spins := 0 } with
  | none => none
  | some lk => some (rtp_bridge_locked cur_ms c0 c1 lk)

/-- Both channels have an SCCP channel behind them that is bound to a device. -/
def bridgePointersResolve (c0 c1 : BridgedChannel) : Prop :=
  (c0.tech_pvt.bind (fun c => c.device)).isSome ∧ (c1.tech_pvt.bind (fun c => c.device)).isSome

instance (c0 c1 : BridgedChannel) : Decidable (bridgePointersResolve c0 c1) := by
  unfold bridgePointersResolve; infer_instance

/-- The value of the Asterisk `AST_MODULE_LOAD_FAILURE`. -/
def AST_MODULE_LOAD_FAILURE : Int := -1

/-- What the start of the module gets from the system and from other modules. -/
structure LoadEnv where
  /-- Whether `ast_malloc(sizeof(struct sccp_global_vars))` gives memory. -/
  malloc_globals : Bool
  /-- Whether `ast_malloc(sizeof(struct sccp_event_subscriptions))` gives memory. -/
  malloc_event_listeners : Bool
  /-- Whether `sched_context_create()` gives a context. -/
  sched_context_create : Bool
  /-- Whether `io_context_create()` gives a context. -/
  io_context_create : Bool
  /-- Whether `ast_malloc(sizeof(sccp_hotline_t))` gives memory. -/
  malloc_hotline : Bool
  /-- The result of `sccp_config_general(SCCP_CONFIG_READINITIAL)`. -/
  sccp_config_general : Int
  /-- Whether the configured port differs from the port before the configuration
  was read. -/
  portChanged : Bool
  /-- The result of `socket(AF_INET, SOCK_STREAM, 0)`. -/
  socket : Int
  /-- The result of `bind` on the server socket. -/
  bind : Int
  /-- The result of `listen` on the server socket. -/
  listen : Int
  /-- The result of `ast_channel_register(&sccp_tech)`. -/
  ast_channel_register : Int

/-- The calls of `load_config` and `load_module` that are kept track of, in the
order they are made. The warnings of `setsockopt` are left out. -/
inductive LoadCall where
  | ast_log (level : LogLevel)
  | sccp_config_readDevicesLines
  | close (descriptor : Int)
  | ast_pthread_create_socket_thread
  | sccp_restart_monitor
  | ast_channel_register
  | ast_rtp_proto_register
  | sccp_register_cli
  | sccp_register_dialplan_functions
deriving DecidableEq, Repr

/-- The state of the start of the module: `GLOB(descriptor)` and the calls made. -/
structure LoadState where
  descriptor : Int
  calls : List LoadCall
deriving DecidableEq, Repr

/-- The function `load_config()` (lines 624-728): its result and the state it
leaves. Every `return` of the function is `return 0`. -/
def load_config (env : LoadEnv) (st : LoadState) : Int × LoadState :=
  if env.sccp_config_general = 0 then (0, st)
  else
    let st1 : LoadState := { st with calls := st.calls ++ [LoadCall.sccp_config_readDevicesLines] }
    -- ok the config parse is done
    let st2 : LoadState :=
      if st1.descriptor > -1 ∧ env.portChanged then
        { descriptor := -1, calls := st1.calls ++ [LoadCall.close st1.descriptor] }
      else st1
    if st2.descriptor < 0 then
      if env.socket < 0 then
        -- "Unable to create SCCP socket"
        (0, { descriptor := env.socket,
              calls := st2.calls ++
                [LoadCall.ast_log LogLevel.LOG_WARNING, LoadCall.sccp_restart_monitor] })
      else if env.bind < 0 then
        -- "Failed to bind"
        (0, { descriptor := -1,
              calls := st2.calls ++
                [LoadCall.ast_log LogLevel.LOG_WARNING, LoadCall.close env.socket] })
      else if env.listen ≠ 0 then
        -- "Failed to start listening"
        (0, { descriptor := -1,
              calls := st2.calls ++
                [LoadCall.ast_log LogLevel.LOG_WARNING, LoadCall.close env.socket] })
      else
        (0, { descriptor := env.socket,
              calls := st2.calls ++
                [LoadCall.ast_pthread_create_socket_thread, LoadCall.sccp_restart_monitor] })
    else
      (0, { st2 with calls := st2.calls ++ [LoadCall.sccp_restart_monitor] })

/-- The function `load_module()` (lines 1603-1727), in the build with
`CS_AST_HAS_TECH_PVT`: its result and the state it leaves. The descriptor is -1
as long as there is no socket. -/
def load_module (env : LoadEnv) : Except Fault (Int × LoadState) :=
  -- make globals
  if env.malloc_globals = false ∨ env.malloc_event_listeners = false then
    Except.ok (AST_MODULE_LOAD_FAILURE,
      { descriptor := -1, calls := [LoadCall.ast_log LogLevel.LOG_ERROR] })
  else if env.sched_context_create = false then
    Except.ok (AST_MODULE_LOAD_FAILURE,
      { descriptor := -1, calls := [LoadCall.ast_log LogLevel.LOG_WARNING] })
  else if env.io_context_create = false then
    Except.ok (AST_MODULE_LOAD_FAILURE,
      { descriptor := -1, calls := [LoadCall.ast_log LogLevel.LOG_WARNING] })
  else if env.malloc_hotline = false then
    -- memset(GLOB(hotline), 0, sizeof(sccp_hotline_t))
    Except.error Fault.nullDereference
  else
    let r := load_config env { descriptor := -1, calls := [] }
    if r.1 = 0 then
      if env.ast_channel_register ≠ 0 then
        Except.ok (-1,
          { r.2 with calls := r.2.calls ++
              [LoadCall.ast_channel_register, LoadCall.ast_log LogLevel.LOG_ERROR] })
      else
        Except.ok (0,
          { r.2 with calls := r.2.calls ++
              [LoadCall.ast_channel_register, LoadCall.ast_rtp_proto_register,
               LoadCall.sccp_register_cli, LoadCall.sccp_register_dialplan_functions,
               LoadCall.sccp_restart_monitor] })
    else
      Except.ok (0,
        { r.2 with calls := r.2.calls ++
            [LoadCall.ast_rtp_proto_register, LoadCall.sccp_register_cli,
             LoadCall.sccp_register_dialplan_functions, LoadCall.sccp_restart_monitor] })

/-- A start at which everything works: the socket is descriptor 5. -/
def loadEnvFine : LoadEnv :=
  { malloc_globals := true, malloc_event_listeners := true, sched_context_create := true,
    io_context_create := true, malloc_hotline := true, sccp_config_general := 1,
    portChanged := true, socket := 5, bind := 0, listen := 0, ast_channel_register := 0 }

/-- The build `fullEnv` without `CS_AST_DEVICE_RINGING`. -/
def envNoRinging : Env := { fullEnv with CS_AST_DEVICE_RINGING := false }

/-- The build `fullEnv` without `CS_AST_DEVICE_RINGINUSE`. -/
def envNoRingInUse : Env := { fullEnv with CS_AST_DEVICE_RINGINUSE := false }

/-- Line "100" bound to device 1, with a ringing call and a connected call,
without a limit. -/
def lineRingingAndConnected : Line :=
  sampleLine [⟨some 1⟩]
    [sampleChannel 2 ChannelState.RINGING, sampleChannel 1 ChannelState.CONNECTED] 2 0

/-- The packetization test of lines 1567-1568 is reached: no channel is hung up,
no RTP peer query failed, some side offers a partial bridge only, and the raw
formats fit. -/
def bridgeReadsPacketization (c0 c1 : BridgedChannel) : Prop :=
  ¬ (c0.hangup = true ∨ c1.hangup = true) ∧
  ¬ (c0.rtp_peer = AstRtpGetResult.AST_RTP_GET_FAILED ∨
      c1.rtp_peer = AstRtpGetResult.AST_RTP_GET_FAILED) ∧
  (c0.rtp_peer = AstRtpGetResult.AST_RTP_TRY_PARTIAL ∨
      c1.rtp_peer = AstRtpGetResult.AST_RTP_TRY_PARTIAL) ∧
  ¬ (c0.rawreadformat ≠ c1.rawwriteformat ∨ c1.rawreadformat ≠ c0.rawwriteformat)

instance (c0 c1 : BridgedChannel) : Decidable (bridgeReadsPacketization c0 c1) := by
  unfold bridgeReadsPacketization; infer_instance

theorem find_bystate_isSome (l : Line) (st : ChannelState) :
    (sccp_channel_find_bystate_on_line l st).isSome = true ↔ hasChannelInState l st := by
  simp [sccp_channel_find_bystate_on_line, hasChannelInState]

theorem devicestate_of_found (env : Env) (g : Globals) (data : CStr) (l : Line)
    (hl : sccp_line_find_byname g (splitAtSlash data).1 = some l) :
    sccp_devicestate env g data =
      if l.devices.head? = none then AST_DEVICE_UNAVAILABLE
      else if l.incominglimit ≠ 0 ∧ l.channelCount = l.incominglimit then AST_DEVICE_BUSY
      else if l.channelCount = 0 then AST_DEVICE_NOT_INUSE
      else devicestate_inuse env l := by
  simp only [sccp_devicestate, hl]

/-- Claim C2, as the code has it: in a build that offers the ringing,
ring-in-use and on-hold device states, `sccp_devicestate` is the first-match
table of the specification applied to the line name of its argument, with
"incoming-call limit reached" read as "a limit is configured and the channel
count is equal to it". -/
theorem C2_devicestate_refines_table (env : Env) (g : Globals) (data : CStr)
    (hr : env.CS_AST_DEVICE_RINGING = true) (hu : env.CS_AST_DEVICE_RINGINUSE = true)
    (hh : env.CS_AST_DEVICE_ONHOLD = true) :
    sccp_devicestate env g data = deviceStateSpecEq g (splitAtSlash data).1 := by
  cases hl : sccp_line_find_byname g (splitAtSlash data).1 with
  | none => simp only [sccp_devicestate, deviceStateSpecEq, hl]
  | some l =>
    rw [devicestate_of_found env g data l hl]
    simp only [deviceStateSpecEq, hl, deviceStateRules, firstMatch, devicestate_inuse, hr, hu,
      hh, find_bystate_isSome, List.head?_eq_none_iff, decide_eq_true_eq, true_and]
    by_cases h1 : l.devices = []
    · simp [h1]
    · by_cases h2 : l.incominglimit ≠ 0 ∧ l.channelCount = l.incominglimit
      · simp [h1, h2]
      · by_cases h3 : l.channelCount = 0
        · simp [h1, h2, h3]
        · by_cases h4 : hasChannelInState l ChannelState.RINGING
          · by_cases h5 : hasChannelInState l ChannelState.CONNECTED
            · simp [h1, h2, h3, h4, h5]
            · simp [h1, h2, h3, h4, h5]
          · by_cases h6 : hasChannelInState l ChannelState.HOLD
            · simp [h1, h2, h3, h4, h6]
            · simp [h1, h2, h3, h4, h6]

/-- Witness of C2: the line "100" at its limit, asked for as "100/aa=1w". -/
theorem C2_devicestate_refines_table_witness :
    fullEnv.CS_AST_DEVICE_RINGING = true ∧ fullEnv.CS_AST_DEVICE_RINGINUSE = true ∧
    fullEnv.CS_AST_DEVICE_ONHOLD = true ∧
    sccp_devicestate fullEnv registryAtLimit "100/aa=1w".toList =
      deviceStateSpecEq registryAtLimit (splitAtSlash "100/aa=1w".toList).1 :=
  ⟨rfl, rfl, rfl,
    C2_devicestate_refines_table fullEnv registryAtLimit "100/aa=1w".toList rfl rfl rfl⟩

/-- Counterexample to C2 as stated: with two calls on a line whose incoming
limit is one, the limit is reached and the table of the specification answers
Busy, while `sccp_devicestate` answers InUse. -/
theorem C2_counterexample :
    deviceStateSpec registryAboveLimit "100".toList = AST_DEVICE_BUSY ∧
    sccp_devicestate fullEnv registryAboveLimit "100".toList = AST_DEVICE_INUSE ∧
    sccp_devicestate fullEnv registryAboveLimit "100".toList ≠
      deviceStateSpec registryAboveLimit "100".toList := by
  decide

/-- Claim C3: an existing line without any bound device is Unavailable, whatever
its channel count, its incoming limit and the states of its channels. -/
theorem C3_no_device_unavailable (env : Env) (g : Globals) (data : CStr) (l : Line)
    (hl : sccp_line_find_byname g (splitAtSlash data).1 = some l)
    (hd : l.devices = []) :
    sccp_devicestate env g data = AST_DEVICE_UNAVAILABLE := by
  rw [devicestate_of_found env g data l hl]
  simp [hd]

/-- Witness of C3: a line without device that is at its limit and has a ringing
and a connected channel. -/
theorem C3_no_device_unavailable_witness :
    sccp_line_find_byname registryNoDevice (splitAtSlash "100".toList).1 = some lineNoDevice ∧
    lineNoDevice.channelCount = lineNoDevice.incominglimit ∧
    hasChannelInState lineNoDevice ChannelState.RINGING ∧
    sccp_devicestate fullEnv registryNoDevice "100".toList = AST_DEVICE_UNAVAILABLE :=
  ⟨by decide, by decide, by decide,
    C3_no_device_unavailable fullEnv registryNoDevice "100".toList lineNoDevice
      (by decide) rfl⟩

theorem devicestate_in_use (env : Env) (g : Globals) (data : CStr) (l : Line)
    (hl : sccp_line_find_byname g (splitAtSlash data).1 = some l)
    (hd : l.devices ≠ []) (hc : l.channelCount ≠ 0)
    (hlim : ¬ (l.incominglimit ≠ 0 ∧ l.channelCount = l.incominglimit)) :
    sccp_devicestate env g data = devicestate_inuse env l := by
  rw [devicestate_of_found env g data l hl]
  have hd2 : ¬ l.devices.head? = none := by simpa [List.head?_eq_none_iff] using hd
  simp only [if_neg hd2, if_neg hlim, if_neg hc]

/-- Claim C4, as the code has it: on a line with a bound device, a non-zero
channel count and its incoming limit not reached (the count is not equal to a
configured limit, which holds for every count below it), a ringing channel decides
the result in a build with `CS_AST_DEVICE_RINGING`, whether or not a channel is on
hold: the result is RingInUse when the build also has `CS_AST_DEVICE_RINGINUSE` and
some channel is connected, and Ringing otherwise. In a build without
`CS_AST_DEVICE_RINGING` a ringing channel does not count: the result is OnHold when
the build has `CS_AST_DEVICE_ONHOLD` and some channel is on hold, and InUse
otherwise. -/
theorem C4_ringing_precedence (env : Env) (g : Globals) (data : CStr) (l : Line)
    (hl : sccp_line_find_byname g (splitAtSlash data).1 = some l)
    (hd : l.devices ≠ []) (hc : l.channelCount ≠ 0)
    (hlim : ¬ (l.incominglimit ≠ 0 ∧ l.channelCount = l.incominglimit))
    (hring : hasChannelInState l ChannelState.RINGING) :
    (env.CS_AST_DEVICE_RINGING = true → env.CS_AST_DEVICE_RINGINUSE = true →
      hasChannelInState l ChannelState.CONNECTED →
      sccp_devicestate env g data = AST_DEVICE_RINGINUSE) ∧
    (env.CS_AST_DEVICE_RINGING = true →
      (env.CS_AST_DEVICE_RINGINUSE = false ∨ ¬ hasChannelInState l ChannelState.CONNECTED) →
      sccp_devicestate env g data = AST_DEVICE_RINGING) ∧
    (env.CS_AST_DEVICE_RINGING = false → env.CS_AST_DEVICE_ONHOLD = true →
      hasChannelInState l ChannelState.HOLD →
      sccp_devicestate env g data = AST_DEVICE_ONHOLD) ∧
    (env.CS_AST_DEVICE_RINGING = false →
      (env.CS_AST_DEVICE_ONHOLD = false ∨ ¬ hasChannelInState l ChannelState.HOLD) →
      sccp_devicestate env g data = AST_DEVICE_INUSE) := by
  rw [devicestate_in_use env g data l hl hd hc hlim]
  refine ⟨?_, ?_, ?_, ?_⟩
  · intro hr hu hcon
    simp only [devicestate_inuse, hr, hu, find_bystate_isSome, true_and, if_pos hring,
      if_pos hcon]
  · intro hr hno
    simp only [devicestate_inuse, hr, find_bystate_isSome, true_and, if_pos hring]
    rw [if_neg]
    rintro ⟨hu, hcon⟩
    rcases hno with h | h
    · rw [hu] at h; cases h
    · exact h hcon
  · intro hr ho hhold
    simp only [devicestate_inuse, hr, ho, find_bystate_isSome, true_and, if_pos hhold]
    rw [if_neg (fun h => Bool.noConfusion h.1)]
  · intro hr hno
    simp only [devicestate_inuse, hr, find_bystate_isSome]
    rw [if_neg (fun h => Bool.noConfusion h.1), if_neg]
    rintro ⟨ho, hhold⟩
    rcases hno with h | h
    · rw [ho] at h; cases h
    · exact h hhold

/-- Witness of C4: a ringing channel next to one on hold, none connected, in the
build with all three states and in a build without `CS_AST_DEVICE_RINGING`. -/
theorem C4_ringing_precedence_witness :
    hasChannelInState lineRingingAndHold ChannelState.HOLD ∧
    hasChannelInState lineRingingAndHold ChannelState.RINGING ∧
    ¬ hasChannelInState lineRingingAndHold ChannelState.CONNECTED ∧
    sccp_devicestate fullEnv registryRingingAndHold "100".toList = AST_DEVICE_RINGING ∧
    sccp_devicestate envNoRinging registryRingingAndHold "100".toList = AST_DEVICE_ONHOLD :=
  ⟨by decide, by decide, by decide,
    (C4_ringing_precedence fullEnv registryRingingAndHold "100".toList lineRingingAndHold
      (by decide) (by decide) (by decide) (by decide) (by decide)).2.1 rfl
      (Or.inr (by decide)),
    (C4_ringing_precedence envNoRinging registryRingingAndHold "100".toList lineRingingAndHold
      (by decide) (by decide) (by decide) (by decide) (by decide)).2.2.1 rfl rfl
      (by decide)⟩

/-- Counterexample to C4 as stated: in a build without `CS_AST_DEVICE_RINGING`
(the states of lines 399-407 are compiled in only with the switches) a line with a
ringing channel and one on hold is OnHold, not Ringing; and in a build with
`CS_AST_DEVICE_RINGING` but without `CS_AST_DEVICE_RINGINUSE` a line with a
ringing and a connected channel is Ringing, not RingInUse. -/
theorem C4_counterexample :
    lineRingingAndHold.devices ≠ [] ∧ lineRingingAndHold.channelCount ≠ 0 ∧
    ¬ incomingLimitReached lineRingingAndHold ∧
    hasChannelInState lineRingingAndHold ChannelState.RINGING ∧
    ¬ hasChannelInState lineRingingAndHold ChannelState.CONNECTED ∧
    sccp_devicestate envNoRinging registryRingingAndHold "100".toList = AST_DEVICE_ONHOLD ∧
    lineRingingAndConnected.devices ≠ [] ∧ lineRingingAndConnected.channelCount ≠ 0 ∧
    ¬ incomingLimitReached lineRingingAndConnected ∧
    hasChannelInState lineRingingAndConnected ChannelState.RINGING ∧
    hasChannelInState lineRingingAndConnected ChannelState.CONNECTED ∧
    sccp_devicestate envNoRingInUse (sampleGlobals [lineRingingAndConnected] [deviceOnline])
      "100".toList = AST_DEVICE_RINGING ∧
    sccp_devicestate envNoRinging (sampleGlobals [lineRingingAndConnected] [deviceOnline])
      "100".toList = AST_DEVICE_INUSE := by
  decide

/-- Claim C5, as the code has it: on a line with a bound device and a configured
(non-zero) incoming limit, `sccp_devicestate` is Busy whenever the channel count
is equal to the limit, whatever the states of the channels. -/
theorem C5_busy_at_limit (env : Env) (g : Globals) (data : CStr) (l : Line)
    (hl : sccp_line_find_byname g (splitAtSlash data).1 = some l)
    (hd : l.devices ≠ []) (hlim : l.incominglimit ≠ 0)
    (hc : l.channelCount = l.incominglimit) :
    sccp_devicestate env g data = AST_DEVICE_BUSY := by
  rw [devicestate_of_found env g data l hl]
  have hd2 : ¬ l.devices.head? = none := by simpa [List.head?_eq_none_iff] using hd
  rw [if_neg hd2, if_pos ⟨hlim, hc⟩]

/-- Witness of C5: two calls, one of them ringing, on a line limited to two. -/
theorem C5_busy_at_limit_witness :
    sccp_line_find_byname registryAtLimit (splitAtSlash "100".toList).1 = some lineAtLimit ∧
    lineAtLimit.devices ≠ [] ∧ lineAtLimit.incominglimit ≠ 0 ∧
    lineAtLimit.channelCount = lineAtLimit.incominglimit ∧
    sccp_devicestate fullEnv registryAtLimit "100".toList = AST_DEVICE_BUSY :=
  ⟨by decide, by decide, by decide, by decide,
    C5_busy_at_limit fullEnv registryAtLimit "100".toList lineAtLimit
      (by decide) (by decide) (by decide) (by decide)⟩

/-- Counterexample to C5 as stated: three calls on a line with a bound device and
an incoming limit of two; the count is above the limit and the result is OnHold,
not Busy. A count above the limit is within reach: two requests for a line
limited to one call leave it with two channels, and its state is then InUse. -/
theorem C5_counterexample :
    sccp_line_find_byname registryThreeCalls "100".toList = some lineThreeCalls ∧
    lineThreeCalls.devices ≠ [] ∧ lineThreeCalls.incominglimit ≠ 0 ∧
    lineThreeCalls.incominglimit ≤ lineThreeCalls.channelCount ∧
    sccp_devicestate fullEnv registryThreeCalls "100".toList = AST_DEVICE_ONHOLD ∧
    sccp_devicestate fullEnv registryThreeCalls "100".toList ≠ AST_DEVICE_BUSY ∧
    (sccp_line_find_byname registryAfterTwoRequests "100".toList).map
      (fun l => (l.devices.length, l.incominglimit, l.channelCount)) = some (1, 1, 2) ∧
    sccp_devicestate fullEnv registryAfterTwoRequests "100".toList = AST_DEVICE_INUSE := by
  decide

/-! ## Theorems about sccp_request -/

theorem restart_monitor_frame (env : Env) (g : Globals) :
    (sccp_restart_monitor env g).2.lines = g.lines ∧
    (sccp_restart_monitor env g).2.devices = g.devices ∧
    (sccp_restart_monitor env g).2.sessions = g.sessions ∧
    (sccp_restart_monitor env g).2.callCount = g.callCount := by
  unfold sccp_restart_monitor
  simp only
  split
  · exact ⟨rfl, rfl, rfl, rfl⟩
  · split
    · exact ⟨rfl, rfl, rfl, rfl⟩
    · split
      · exact ⟨rfl, rfl, rfl, rfl⟩
      · split <;> exact ⟨rfl, rfl, rfl, rfl⟩

theorem request_out_none (env : Env) (g : Globals) (cause : Nat) :
    (request_out env g none cause).ret = none ∧
    (request_out env g none cause).c = none ∧
    (request_out env g none cause).cause = cause ∧
    (request_out env g none cause).g.lines = g.lines ∧
    (request_out env g none cause).g.devices = g.devices ∧
    (request_out env g none cause).g.sessions = g.sessions ∧
    (request_out env g none cause).g.callCount = g.callCount := by
  have h := restart_monitor_frame env g
  exact ⟨rfl, rfl, rfl, h.1, h.2.1, h.2.2.1, h.2.2.2⟩

/-- Claim C6: when the line name of the dial string does not resolve in the line
registry, `sccp_request` returns no channel, reports the cause "requested channel
unavailable", has no channel allocated (`c` is `NULL`, the call-identifier
counter is where it was) and leaves every line, device and session unchanged. -/
theorem C6_line_not_found (env : Env) (g : Globals) (type : Option CStr) (format : Int)
    (data : CStr)
    (h : sccp_line_find_byname g (sccp_parseComposedId (splitAtSlash data).1 80).mainId = none) :
    (sccp_request env g type format (some data)).ret = none ∧
    (sccp_request env g type format (some data)).c = none ∧
    (sccp_request env g type format (some data)).cause = AST_CAUSE_REQUESTED_CHAN_UNAVAIL ∧
    (sccp_request env g type format (some data)).g.lines = g.lines ∧
    (sccp_request env g type format (some data)).g.devices = g.devices ∧
    (sccp_request env g type format (some data)).g.sessions = g.sessions ∧
    (sccp_request env g type format (some data)).g.callCount = g.callCount := by
  cases type with
  | none => exact request_out_none env g _
  | some t =>
    simp only [sccp_request, h]
    exact request_out_none env g _

/-- Witness of C6: the dial string "100" against the empty registry. -/
theorem C6_line_not_found_witness :
    sccp_line_find_byname registryEmpty
      (sccp_parseComposedId (splitAtSlash "100".toList).1 80).mainId = none ∧
    (sccp_request fullEnv registryEmpty (some "SCCP".toList) 0 (some "100".toList)).ret = none ∧
    (sccp_request fullEnv registryEmpty (some "SCCP".toList) 0 (some "100".toList)).cause =
      AST_CAUSE_REQUESTED_CHAN_UNAVAIL :=
  ⟨by decide,
    (C6_line_not_found fullEnv registryEmpty (some "SCCP".toList) 0 "100".toList
      (by decide)).1,
    (C6_line_not_found fullEnv registryEmpty (some "SCCP".toList) 0 "100".toList
      (by decide)).2.2.1⟩

/-- Claim C7, as the code has it: when the dial string resolves to a line that
has no Line-Device association at all, `sccp_request` returns no channel, reports
"requested channel unavailable" and allocates no channel: `c` is `NULL`, the
call-identifier counter and every line are unchanged. -/
theorem C7_no_association (env : Env) (g : Globals) (type : Option CStr) (format : Int)
    (data : CStr) (l : Line)
    (hl : sccp_line_find_byname g (sccp_parseComposedId (splitAtSlash data).1 80).mainId =
      some l)
    (hd : l.devices = []) :
    (sccp_request env g type format (some data)).ret = none ∧
    (sccp_request env g type format (some data)).c = none ∧
    (sccp_request env g type format (some data)).cause = AST_CAUSE_REQUESTED_CHAN_UNAVAIL ∧
    (sccp_request env g type format (some data)).g.lines = g.lines ∧
    (sccp_request env g type format (some data)).g.callCount = g.callCount := by
  have key : ∀ r : RequestResult, r = request_out env g none AST_CAUSE_REQUESTED_CHAN_UNAVAIL →
      r.ret = none ∧ r.c = none ∧ r.cause = AST_CAUSE_REQUESTED_CHAN_UNAVAIL ∧
      r.g.lines = g.lines ∧ r.g.callCount = g.callCount := by
    intro r hr
    have h := request_out_none env g AST_CAUSE_REQUESTED_CHAN_UNAVAIL
    rw [hr]
    exact ⟨h.1, h.2.1, h.2.2.1, h.2.2.2.1, h.2.2.2.2.2.2⟩
  apply key
  cases type with
  | none => rfl
  | some t => simp [sccp_request, hl, hd]

/-- Witness of C7: the dial string "100" when line "100" is on no device. -/
theorem C7_no_association_witness :
    sccp_line_find_byname registryUnbound
      (sccp_parseComposedId (splitAtSlash "100".toList).1 80).mainId = some lineUnbound ∧
    lineUnbound.devices = [] ∧
    (sccp_request fullEnv registryUnbound (some "SCCP".toList) 0 (some "100".toList)).ret =
      none :=
  ⟨by decide, rfl,
    (C7_no_association fullEnv registryUnbound (some "SCCP".toList) 0 "100".toList
      lineUnbound (by decide) rfl).1⟩

/-- Counterexample to C7 as stated: line "100" has one Line-Device association,
to a device without session; no association has a connected session, and still
`sccp_request` allocates a channel (call identifier 1) and returns it. -/
theorem C7_counterexample :
    sccp_line_find_byname registryOfflineOnly
      (sccp_parseComposedId (splitAtSlash "100".toList).1 80).mainId =
      some lineOfflineOnly ∧
    hasConnectedDevice registryOfflineOnly lineOfflineOnly = false ∧
    (sccp_request fullEnv registryOfflineOnly (some "SCCP".toList) 0
      (some "100".toList)).ret = some ⟨7⟩ ∧
    ((sccp_request fullEnv registryOfflineOnly (some "SCCP".toList) 0
      (some "100".toList)).c.map (fun c => c.callid)) = some 1 ∧
    (sccp_request fullEnv registryOfflineOnly (some "SCCP".toList) 0
      (some "100".toList)).g.callCount = registryOfflineOnly.callCount + 1 := by
  decide

theorem sccp_copy_string_of_lt (src : CStr) (size : Nat) (h : src.length < size) :
    sccp_copy_string src size = src := by
  unfold sccp_copy_string
  exact List.take_of_length_le (by omega)

theorem autoanswerType_frame (c : Channel) (opt : CStr) :
    (autoanswerType c opt).1.subscriptionId = c.subscriptionId ∧
    (autoanswerType c opt).1.owner = c.owner ∧
    (autoanswerType c opt).1.callid = c.callid ∧
    (autoanswerType c opt).1.line = c.line := by
  unfold autoanswerType
  split_ifs <;> exact ⟨rfl, rfl, rfl, rfl⟩

theorem autoanswerCause_frame (c : Channel) (rest : CStr) :
    (autoanswerCause c rest).subscriptionId = c.subscriptionId ∧
    (autoanswerCause c rest).owner = c.owner ∧
    (autoanswerCause c rest).callid = c.callid ∧
    (autoanswerCause c rest).line = c.line := by
  unfold autoanswerCause
  split_ifs <;> exact ⟨rfl, rfl, rfl, rfl⟩

theorem ringerOption_frame (c : Channel) (v : CStr) :
    (ringerOption c v).subscriptionId = c.subscriptionId ∧
    (ringerOption c v).owner = c.owner ∧
    (ringerOption c v).callid = c.callid ∧
    (ringerOption c v).line = c.line := by
  unfold ringerOption
  split_ifs <;> exact ⟨rfl, rfl, rfl, rfl⟩

theorem applyOption_frame (c : Channel) (cause : Nat) (opt : CStr) :
    (applyOption c cause opt).1.subscriptionId = c.subscriptionId ∧
    (applyOption c cause opt).1.owner = c.owner ∧
    (applyOption c cause opt).1.callid = c.callid ∧
    (applyOption c cause opt).1.line = c.line := by
  unfold applyOption
  by_cases h1 : strncasecmp opt "aa".toList 2 = 0
  · rw [if_pos h1]
    have h2 := autoanswerType_frame c opt
    have h3 := autoanswerCause_frame (autoanswerType c opt).1 (autoanswerType c opt).2
    exact ⟨h3.1.trans h2.1, h3.2.1.trans h2.2.1, h3.2.2.1.trans h2.2.2.1,
      h3.2.2.2.trans h2.2.2.2⟩
  · rw [if_neg h1]
    by_cases h2 : strncasecmp opt "ringer=".toList 7 = 0
    · rw [if_pos h2]
      exact ringerOption_frame c (opt.drop 7)
    · rw [if_neg h2]
      exact ⟨rfl, rfl, rfl, rfl⟩

theorem applyOptions_frame (opts : List CStr) :
    ∀ (c : Channel) (cause : Nat),
      (applyOptions c cause opts).1.subscriptionId = c.subscriptionId ∧
      (applyOptions c cause opts).1.owner = c.owner ∧
      (applyOptions c cause opts).1.callid = c.callid ∧
      (applyOptions c cause opts).1.line = c.line := by
  induction opts with
  | nil => intro c cause; exact ⟨rfl, rfl, rfl, rfl⟩
  | cons opt rest ih =>
    intro c cause
    have h1 := applyOption_frame c cause opt
    have h2 := ih (applyOption c cause opt).1 (applyOption c cause opt).2
    simp only [applyOptions]
    exact ⟨h2.1.trans h1.1, h2.2.1.trans h1.2.1, h2.2.2.1.trans h1.2.2.1,
      h2.2.2.2.trans h1.2.2.2⟩

theorem setSubscriptionId_frame (env : Env) (c : Channel) (dialled : SubscriptionId) (l : Line) :
    (setSubscriptionId env c dialled l).callid = c.callid ∧
    (setSubscriptionId env c dialled l).line = c.line := by
  unfold setSubscriptionId
  simp only
  split_ifs <;> exact ⟨rfl, rfl⟩

/-- The shape of a call of `sccp_request` that gets through the hand-off. -/
theorem request_of_handoff (env : Env) (g g1 : Globals) (t : CStr) (format : Int) (data : CStr)
    (l : Line) (c0 : Channel) (owner : AstChannel)
    (hl : sccp_line_find_byname g (sccp_parseComposedId (splitAtSlash data).1 80).mainId =
      some l)
    (hd : l.devices ≠ [])
    (ha : sccp_channel_allocate env g l none = some (c0, g1))
    (hp : env.sccp_pbx_channel_allocate
      (setSubscriptionId env c0
        (sccp_parseComposedId (splitAtSlash data).1 80).subscriptionId l) = some owner) :
    sccp_request env g (some t) format (some data) =
      request_out env
        (storeChannel g1 (applyOptions
          (setFormat env
            { setSubscriptionId env c0
                (sccp_parseComposedId (splitAtSlash data).1 80).subscriptionId l with
              owner := some owner } format)
          AST_CAUSE_NOTDEFINED (requestOptions data)).1)
        (some (applyOptions
          (setFormat env
            { setSubscriptionId env c0
                (sccp_parseComposedId (splitAtSlash data).1 80).subscriptionId l with
              owner := some owner } format)
          AST_CAUSE_NOTDEFINED (requestOptions data)).1)
        (applyOptions
          (setFormat env
            { setSubscriptionId env c0
                (sccp_parseComposedId (splitAtSlash data).1 80).subscriptionId l with
              owner := some owner } format)
          AST_CAUSE_NOTDEFINED (requestOptions data)).2 := by
  have hd1 : ¬ l.devices.head? = none := by simpa [List.head?_eq_none_iff] using hd
  have hd2 : ¬ l.devices.length = 0 := by simpa using hd
  simp only [sccp_request, hl, if_neg hd1, ha, hp, if_neg hd2, setFormat, requestOptions]

/-- A call of `sccp_request` that returns a channel found the line, found it on
a device, allocated a channel and got it through the hand-off. -/
theorem request_ret_some (env : Env) (g : Globals) (type : Option CStr) (format : Int)
    (data : CStr) (o : AstChannel)
    (hret : (sccp_request env g type format (some data)).ret = some o) :
    ∃ t l c0 g1 owner, type = some t ∧
      sccp_line_find_byname g (sccp_parseComposedId (splitAtSlash data).1 80).mainId =
        some l ∧
      l.devices ≠ [] ∧
      sccp_channel_allocate env g l none = some (c0, g1) ∧
      env.sccp_pbx_channel_allocate
        (setSubscriptionId env c0
          (sccp_parseComposedId (splitAtSlash data).1 80).subscriptionId l) = some owner := by
  cases type with
  | none => simp [sccp_request, request_out] at hret
  | some t =>
    cases hl : sccp_line_find_byname g (sccp_parseComposedId (splitAtSlash data).1 80).mainId with
    | none => simp [sccp_request, hl, request_out] at hret
    | some l =>
      by_cases hd : l.devices = []
      · simp [sccp_request, hl, hd, request_out] at hret
      · have hd1 : ¬ l.devices.head? = none := by simpa [List.head?_eq_none_iff] using hd
        cases ha : sccp_channel_allocate env g l none with
        | none => simp [sccp_request, hl, hd1, ha, request_out] at hret
        | some p =>
          obtain ⟨c0, g1⟩ := p
          cases hp : env.sccp_pbx_channel_allocate
              (setSubscriptionId env c0
                (sccp_parseComposedId (splitAtSlash data).1 80).subscriptionId l) with
          | none => simp [sccp_request, hl, hd1, ha, hp, request_out] at hret
          | some owner => exact ⟨t, l, c0, g1, owner, rfl, rfl, hd, ha, hp⟩

/-- Claim C8: the channel of a successful `sccp_request` carries the resolved
subscription id. When the dial string has a non-empty subscription number, the
number of the channel is that number, and its name is the dialled name when one
is given; otherwise number and name are those of the default subscription id of
the line. The ids are taken to fit into the fields of the channel. -/
theorem C8_subscription_id (env : Env) (g : Globals) (type : Option CStr) (format : Int)
    (data : CStr) (o : AstChannel)
    (hret : (sccp_request env g type format (some data)).ret = some o)
    (hfit : fitsSubscriptionFields env
      (sccp_parseComposedId (splitAtSlash data).1 80).subscriptionId)
    (hfitl : ∀ l,
      sccp_line_find_byname g (sccp_parseComposedId (splitAtSlash data).1 80).mainId = some l →
      fitsSubscriptionFields env l.defaultSubscriptionId) :
    ∃ c l, (sccp_request env g type format (some data)).c = some c ∧
      c.owner = some o ∧
      sccp_line_find_byname g (sccp_parseComposedId (splitAtSlash data).1 80).mainId =
        some l ∧
      ((sccp_parseComposedId (splitAtSlash data).1 80).subscriptionId.number ≠ [] →
        c.subscriptionId.number =
          (sccp_parseComposedId (splitAtSlash data).1 80).subscriptionId.number ∧
        ((sccp_parseComposedId (splitAtSlash data).1 80).subscriptionId.name ≠ [] →
          c.subscriptionId.name =
            (sccp_parseComposedId (splitAtSlash data).1 80).subscriptionId.name)) ∧
      ((sccp_parseComposedId (splitAtSlash data).1 80).subscriptionId.number = [] →
        c.subscriptionId = l.defaultSubscriptionId) := by
  obtain ⟨t, l, c0, g1, owner, ht, hl, hd, ha, hp⟩ :=
    request_ret_some env g type format data o hret
  subst ht
  have hform := request_of_handoff env g g1 t format data l c0 owner hl hd ha hp
  rw [hform] at hret ⊢
  generalize hid : (sccp_parseComposedId (splitAtSlash data).1 80).subscriptionId = sid
    at hret hfit ⊢
  have hfr := applyOptions_frame (requestOptions data)
    (setFormat env { setSubscriptionId env c0 sid l with owner := some owner } format)
    AST_CAUSE_NOTDEFINED
  refine ⟨_, l, rfl, ?_, hl, ?_, ?_⟩
  · simpa [request_out] using hret
  · intro hnum
    rw [hfr.1]
    have hz : ast_strlen_zero sid.number = false := by
      simpa [ast_strlen_zero] using hnum
    constructor
    · simp only [setFormat, setSubscriptionId, hz]
      split_ifs <;> exact sccp_copy_string_of_lt _ _ hfit.1
    · intro hname
      have hz2 : ast_strlen_zero sid.name = false := by
        simpa [ast_strlen_zero] using hname
      simp only [setFormat, setSubscriptionId, hz, hz2]
      exact sccp_copy_string_of_lt _ _ hfit.2
  · intro hnum
    rw [hfr.1]
    have hz : ¬ ast_strlen_zero sid.number = false := by
      simp [ast_strlen_zero, hnum]
    have hl2 := hfitl l hl
    simp only [setFormat, setSubscriptionId, if_neg hz,
      sccp_copy_string_of_lt _ _ hl2.1, sccp_copy_string_of_lt _ _ hl2.2]

/-- Witness of C8: the dial string "100@42:bob/aa=1w" on the idle line "100". -/
theorem C8_subscription_id_witness :
    (sccp_request fullEnv registryIdle (some "SCCP".toList) 0 (some "100@42:bob/aa=1w".toList)).ret = some ⟨7⟩ ∧
    ∃ c l, (sccp_request fullEnv registryIdle (some "SCCP".toList) 0 (some "100@42:bob/aa=1w".toList)).c = some c ∧
      c.owner = some ⟨7⟩ ∧
      sccp_line_find_byname registryIdle (sccp_parseComposedId (splitAtSlash "100@42:bob/aa=1w".toList).1 80).mainId = some l ∧
      ((sccp_parseComposedId (splitAtSlash "100@42:bob/aa=1w".toList).1 80).subscriptionId.number ≠ [] →
        c.subscriptionId.number = (sccp_parseComposedId (splitAtSlash "100@42:bob/aa=1w".toList).1 80).subscriptionId.number ∧
        ((sccp_parseComposedId (splitAtSlash "100@42:bob/aa=1w".toList).1 80).subscriptionId.name ≠ [] → c.subscriptionId.name = (sccp_parseComposedId (splitAtSlash "100@42:bob/aa=1w".toList).1 80).subscriptionId.name)) ∧
      ((sccp_parseComposedId (splitAtSlash "100@42:bob/aa=1w".toList).1 80).subscriptionId.number = [] → c.subscriptionId = l.defaultSubscriptionId) :=
  ⟨by decide,
    C8_subscription_id fullEnv registryIdle (some "SCCP".toList) 0 "100@42:bob/aa=1w".toList
      ⟨7⟩ (by decide) (by unfold fitsSubscriptionFields; decide)
      (by
        intro l hl
        have h : sccp_line_find_byname registryIdle (sccp_parseComposedId (splitAtSlash "100@42:bob/aa=1w".toList).1 80).mainId = some lineIdle := by decide
        rw [h] at hl
        cases hl
        unfold fitsSubscriptionFields
        decide)⟩

theorem updateLine_cancel (n : CStr) (f1 f2 : Line → Line)
    (h : ∀ l : Line, l.name = n → (f1 l).name = n ∧ f2 (f1 l) = l) :
    ∀ ls : List Line, updateLine n f2 (updateLine n f1 ls) = ls := by
  intro ls
  induction ls with
  | nil => rfl
  | cons l ls ih =>
    by_cases hn : l.name = n
    · simp only [updateLine, if_pos hn, if_pos (h l hn).1, (h l hn).2]
    · simp only [updateLine, if_neg hn, ih]

/-- Deleting the channel that was just allocated on a line gives the lines and the
counter back, also when fields other than line and call identifier were written since. -/
theorem delete_after_allocate (env : Env) (g g1 : Globals) (l : Line) (c0 c1 : Channel)
    (ha : sccp_channel_allocate env g l none = some (c0, g1))
    (hline : c1.line = c0.line) (hid : c1.callid = c0.callid) :
    (sccp_channel_delete g1 c1).lines = g.lines ∧
    (sccp_channel_delete g1 c1).devices = g.devices ∧
    (sccp_channel_delete g1 c1).sessions = g.sessions ∧
    (sccp_channel_delete g1 c1).callCount = g.callCount := by
  unfold sccp_channel_allocate at ha
  by_cases hok : env.channel_alloc_ok = true
  · rw [if_pos hok] at ha
    simp only [Option.some.injEq, Prod.mk.injEq] at ha
    obtain ⟨hc, hg⟩ := ha
    subst hg
    have hl1 : c1.line = l.name := by rw [hline, ← hc]
    have hi1 : c1.callid = g.callCount := by rw [hid, ← hc]
    refine ⟨?_, rfl, rfl, ?_⟩
    swap
    · simp only [sccp_channel_delete, hi1, if_true]
    simp only [sccp_channel_delete, hl1, hi1]
    apply updateLine_cancel
    intro x hx
    refine ⟨hx, ?_⟩
    simp [← hc]
  · rw [if_neg hok] at ha
    cases ha

/-- Claim C10: when the hand-off of the freshly allocated channel to the PBX
fails, `sccp_request` destroys that channel and returns no channel, with the cause
"requested channel unavailable". Every line is as before the allocation, channel
count and channel list included, and so are every device, every session and the
call-identifier counter. Allocation and destruction are the models of
`sccp_channel_allocate` and `sccp_channel_delete`. -/
theorem C10_handoff_failure (env : Env) (g g1 : Globals) (t : CStr) (format : Int)
    (data : CStr) (l : Line) (c0 : Channel)
    (hl : sccp_line_find_byname g (sccp_parseComposedId (splitAtSlash data).1 80).mainId =
      some l)
    (hd : l.devices ≠ [])
    (ha : sccp_channel_allocate env g l none = some (c0, g1))
    (hp : env.sccp_pbx_channel_allocate
      (setSubscriptionId env c0
        (sccp_parseComposedId (splitAtSlash data).1 80).subscriptionId l) = none) :
    (sccp_request env g (some t) format (some data)).ret = none ∧
    (sccp_request env g (some t) format (some data)).c = none ∧
    (sccp_request env g (some t) format (some data)).cause = AST_CAUSE_REQUESTED_CHAN_UNAVAIL ∧
    (sccp_request env g (some t) format (some data)).g.lines = g.lines ∧
    (sccp_request env g (some t) format (some data)).g.devices = g.devices ∧
    (sccp_request env g (some t) format (some data)).g.sessions = g.sessions ∧
    (sccp_request env g (some t) format (some data)).g.callCount = g.callCount := by
  have hd1 : ¬ l.devices.head? = none := by simpa [List.head?_eq_none_iff] using hd
  have hform : sccp_request env g (some t) format (some data) =
      request_out env
        (sccp_channel_delete g1 (setSubscriptionId env c0
          (sccp_parseComposedId (splitAtSlash data).1 80).subscriptionId l))
        none AST_CAUSE_REQUESTED_CHAN_UNAVAIL := by
    simp only [sccp_request, hl, if_neg hd1, ha, hp]
  have hfr := setSubscriptionId_frame env c0
    (sccp_parseComposedId (splitAtSlash data).1 80).subscriptionId l
  have hdel := delete_after_allocate env g g1 l c0 _ ha hfr.2 hfr.1
  have hout := request_out_none env
    (sccp_channel_delete g1 (setSubscriptionId env c0
      (sccp_parseComposedId (splitAtSlash data).1 80).subscriptionId l))
    AST_CAUSE_REQUESTED_CHAN_UNAVAIL
  rw [hform]
  exact ⟨hout.1, hout.2.1, hout.2.2.1, hout.2.2.2.1.trans hdel.1,
    hout.2.2.2.2.1.trans hdel.2.1, hout.2.2.2.2.2.1.trans hdel.2.2.1,
    hout.2.2.2.2.2.2.trans hdel.2.2.2⟩

/-- Witness of C10: the dial string "100" on the idle line "100", with a PBX that
refuses the hand-off. -/
theorem C10_handoff_failure_witness :
    sccp_line_find_byname registryIdle
      (sccp_parseComposedId (splitAtSlash "100".toList).1 80).mainId = some lineIdle ∧
    lineIdle.devices ≠ [] ∧
    (sccp_request refusingEnv registryIdle (some "SCCP".toList) 0 (some "100".toList)).ret = none ∧
    (sccp_request refusingEnv registryIdle (some "SCCP".toList) 0 (some "100".toList)).g.lines = registryIdle.lines ∧
    (sccp_request refusingEnv registryIdle (some "SCCP".toList) 0 (some "100".toList)).g.callCount = registryIdle.callCount :=
  ⟨by decide, by decide,
    (C10_handoff_failure refusingEnv registryIdle _ "SCCP".toList 0 "100".toList lineIdle _
      (by decide) (by decide) rfl rfl).1,
    (C10_handoff_failure refusingEnv registryIdle _ "SCCP".toList 0 "100".toList lineIdle _
      (by decide) (by decide) rfl rfl).2.2.2.1,
    (C10_handoff_failure refusingEnv registryIdle _ "SCCP".toList 0 "100".toList lineIdle _
      (by decide) (by decide) rfl rfl).2.2.2.2.2.2⟩

theorem applyOption_aa2w_comma_b (c : Channel) (cause : Nat) :
    applyOption c cause "aa=2w,b".toList =
      ({ c with autoanswer_type := AutoAnswer.AA_2W },
       if c.autoanswer_cause ≠ 0 then c.autoanswer_cause else cause) := by
  have e1 : strncasecmp "aa=2w,b".toList "aa".toList 2 = 0 := by decide
  have e2 : ¬ strncasecmp "aa=2w,b".toList "aa1w".toList 4 = 0 := by decide
  have e3 : ¬ strncasecmp "aa=2w,b".toList "aa2w".toList 4 = 0 := by decide
  have e4 : strncasecmp "aa=2w,b".toList "aa=".toList 3 = 0 := by decide
  have e5 : ¬ strncasecmp ("aa=2w,b".toList.drop 3) "1w".toList 2 = 0 := by decide
  have e6 : strncasecmp ("aa=2w,b".toList.drop 3) "2w".toList 2 = 0 := by decide
  have e7 : ("aa=2w,b".toList.drop 3).drop 2 = ",b".toList := by decide
  have e8 : ¬ strcasecmp ",b".toList "b".toList = 0 := by decide
  have e9 : ¬ strcasecmp ",b".toList "u".toList = 0 := by decide
  have e10 : ¬ strcasecmp ",b".toList "c".toList = 0 := by decide
  have ht : autoanswerType c "aa=2w,b".toList =
      ({ c with autoanswer_type := AutoAnswer.AA_2W }, ",b".toList) := by
    simp only [autoanswerType, if_neg e2, if_neg e3, if_pos e4, if_neg e5, if_pos e6, e7]
  have hc : ∀ x : Channel, autoanswerCause x ",b".toList = x := by
    intro x
    simp only [autoanswerCause, if_neg e8, if_neg e9, if_neg e10, ite_self]
  simp only [applyOption, if_pos e1, ht, hc]

theorem applyOption_aa2wb (c : Channel) (cause : Nat) :
    applyOption c cause "aa=2wb".toList =
      ({ c with autoanswer_type := AutoAnswer.AA_2W, autoanswer_cause := AST_CAUSE_BUSY },
       AST_CAUSE_BUSY) := by
  have e1 : strncasecmp "aa=2wb".toList "aa".toList 2 = 0 := by decide
  have e2 : ¬ strncasecmp "aa=2wb".toList "aa1w".toList 4 = 0 := by decide
  have e3 : ¬ strncasecmp "aa=2wb".toList "aa2w".toList 4 = 0 := by decide
  have e4 : strncasecmp "aa=2wb".toList "aa=".toList 3 = 0 := by decide
  have e5 : ¬ strncasecmp ("aa=2wb".toList.drop 3) "1w".toList 2 = 0 := by decide
  have e6 : strncasecmp ("aa=2wb".toList.drop 3) "2w".toList 2 = 0 := by decide
  have e7 : ("aa=2wb".toList.drop 3).drop 2 = "b".toList := by decide
  have e8 : strcasecmp "b".toList "b".toList = 0 := by decide
  have e9 : ast_strlen_zero "b".toList = false := by decide
  have ht : autoanswerType c "aa=2wb".toList =
      ({ c with autoanswer_type := AutoAnswer.AA_2W }, "b".toList) := by
    simp only [autoanswerType, if_neg e2, if_neg e3, if_pos e4, if_neg e5, if_pos e6, e7]
  have hc : autoanswerCause { c with autoanswer_type := AutoAnswer.AA_2W } "b".toList =
      { c with autoanswer_type := AutoAnswer.AA_2W, autoanswer_cause := AST_CAUSE_BUSY } := by
    have hcond : ast_strlen_zero "b".toList = false ∧
        ({ c with autoanswer_type := AutoAnswer.AA_2W } : Channel).autoanswer_type ≠
          AutoAnswer.NONE := ⟨e9, by simp⟩
    simp only [autoanswerCause, if_pos hcond, if_pos e8]
  have hb : AST_CAUSE_BUSY ≠ 0 := by decide
  simp only [applyOption, if_pos e1, ht, hc, if_pos hb]

/-- A request for "100@42" with a single option, on a registry that has line
"100" on a device, with a PBX that accepts: the channel is the fresh one with
subscription number "42" after the option was applied. -/
theorem request_100_42 (env : Env) (g : Globals) (t : CStr) (format : Int) (l : Line)
    (data tok : CStr)
    (hparse : sccp_parseComposedId (splitAtSlash data).1 80 =
      ⟨"100".toList, ⟨"42".toList, []⟩⟩)
    (hopts : requestOptions data = [tok])
    (hl : sccp_line_find_byname g "100".toList = some l)
    (hd : l.devices ≠ [])
    (ha : env.channel_alloc_ok = true)
    (hp : ∀ c, env.sccp_pbx_channel_allocate c ≠ none)
    (hsz : 2 < env.sizeof_subscription_number) :
    ∃ c1 : Channel,
      c1.subscriptionId.number = "42".toList ∧ c1.autoanswer_type = AutoAnswer.NONE ∧
      c1.autoanswer_cause = AST_CAUSE_NOTDEFINED ∧ c1.owner ≠ none ∧
      (sccp_request env g (some t) format (some data)).c =
        some (applyOption c1 AST_CAUSE_NOTDEFINED tok).1 ∧
      (sccp_request env g (some t) format (some data)).ret =
        (applyOption c1 AST_CAUSE_NOTDEFINED tok).1.owner ∧
      (sccp_request env g (some t) format (some data)).cause =
        (applyOption c1 AST_CAUSE_NOTDEFINED tok).2 := by
  have hl2 : sccp_line_find_byname g
      (sccp_parseComposedId (splitAtSlash data).1 80).mainId = some l := by
    rw [hparse]; exact hl
  cases hA : sccp_channel_allocate env g l none with
  | none => simp [sccp_channel_allocate, ha] at hA
  | some p =>
    obtain ⟨c0, g1⟩ := p
    obtain ⟨owner, hown⟩ := Option.ne_none_iff_exists'.mp
      (hp (setSubscriptionId env c0
        (sccp_parseComposedId (splitAtSlash data).1 80).subscriptionId l))
    have hform := request_of_handoff env g g1 t format data l c0 owner hl2 hd hA hown
    simp only [sccp_channel_allocate, ha, if_true, Option.some.injEq, Prod.mk.injEq] at hA
    obtain ⟨hc0, -⟩ := hA
    have hcopy : sccp_copy_string "42".toList env.sizeof_subscription_number = "42".toList :=
      sccp_copy_string_of_lt _ _ (by simpa using hsz)
    have hcopy2 : sccp_copy_string ['4', '2'] env.sizeof_subscription_number = ['4', '2'] :=
      hcopy
    refine ⟨setFormat env { setSubscriptionId env c0
        (sccp_parseComposedId (splitAtSlash data).1 80).subscriptionId l with
        owner := some owner } format, ?_, ?_, ?_, ?_, ?_, ?_, ?_⟩
    · rw [hparse]
      simp [setFormat, setSubscriptionId, ast_strlen_zero, hcopy2]
    · rw [hparse, ← hc0]
      simp [setFormat, setSubscriptionId, ast_strlen_zero]
    · rw [hparse, ← hc0]
      simp [setFormat, setSubscriptionId, ast_strlen_zero]
    · simp [setFormat]
    · rw [hform, hopts]; rfl
    · rw [hform, hopts]; rfl
    · rw [hform, hopts]; rfl

/-- Claim C9, as the code has it: on a registry with line "100" on a device and a
PBX that accepts the hand-off, the dial string "100@42/aa=2w,b" gives a channel
with subscription number "42" and two-way autoanswer whose autoanswer cause is
not set, because ",b" is not the suffix "b"; the dial string "100@42/aa=2wb"
gives the same channel with the autoanswer cause busy. -/
theorem C9_autoanswer_suffix (env : Env) (g : Globals) (t : CStr) (format : Int) (l : Line)
    (hl : sccp_line_find_byname g "100".toList = some l)
    (hd : l.devices ≠ [])
    (ha : env.channel_alloc_ok = true)
    (hp : ∀ c, env.sccp_pbx_channel_allocate c ≠ none)
    (hsz : 2 < env.sizeof_subscription_number) :
    (∃ c, (sccp_request env g (some t) format (some "100@42/aa=2w,b".toList)).c = some c ∧
      (sccp_request env g (some t) format (some "100@42/aa=2w,b".toList)).ret = c.owner ∧
      c.owner ≠ none ∧
      c.subscriptionId.number = "42".toList ∧
      c.autoanswer_type = AutoAnswer.AA_2W ∧
      c.autoanswer_cause = AST_CAUSE_NOTDEFINED) ∧
    (∃ c, (sccp_request env g (some t) format (some "100@42/aa=2wb".toList)).c = some c ∧
      (sccp_request env g (some t) format (some "100@42/aa=2wb".toList)).ret = c.owner ∧
      c.owner ≠ none ∧
      c.subscriptionId.number = "42".toList ∧
      c.autoanswer_type = AutoAnswer.AA_2W ∧
      c.autoanswer_cause = AST_CAUSE_BUSY) := by
  constructor
  · obtain ⟨c1, h1, -, h3, h4, h5, h6, -⟩ :=
      request_100_42 env g t format l "100@42/aa=2w,b".toList "aa=2w,b".toList
        (by decide) (by decide) hl hd ha hp hsz
    rw [applyOption_aa2w_comma_b] at h5 h6
    exact ⟨_, h5, h6, h4, h1, rfl, h3⟩
  · obtain ⟨c1, h1, -, -, h4, h5, h6, -⟩ :=
      request_100_42 env g t format l "100@42/aa=2wb".toList "aa=2wb".toList
        (by decide) (by decide) hl hd ha hp hsz
    rw [applyOption_aa2wb] at h5 h6
    exact ⟨_, h5, h6, h4, h1, rfl, rfl⟩

/-- Witness of C9: line "100" with default subscription number "0" on the
connected device "SEP01". -/
theorem C9_autoanswer_suffix_witness :
    lineIdle.defaultSubscriptionId.number = "0".toList ∧
    hasConnectedDevice registryIdle lineIdle = true ∧
    ((∃ c, (sccp_request fullEnv registryIdle (some "SCCP".toList) 0
        (some "100@42/aa=2w,b".toList)).c = some c ∧
      (sccp_request fullEnv registryIdle (some "SCCP".toList) 0
        (some "100@42/aa=2w,b".toList)).ret = c.owner ∧
      c.owner ≠ none ∧
      c.subscriptionId.number = "42".toList ∧
      c.autoanswer_type = AutoAnswer.AA_2W ∧
      c.autoanswer_cause = AST_CAUSE_NOTDEFINED) ∧
    (∃ c, (sccp_request fullEnv registryIdle (some "SCCP".toList) 0
        (some "100@42/aa=2wb".toList)).c = some c ∧
      (sccp_request fullEnv registryIdle (some "SCCP".toList) 0
        (some "100@42/aa=2wb".toList)).ret = c.owner ∧
      c.owner ≠ none ∧
      c.subscriptionId.number = "42".toList ∧
      c.autoanswer_type = AutoAnswer.AA_2W ∧
      c.autoanswer_cause = AST_CAUSE_BUSY)) :=
  ⟨by decide, by decide,
    C9_autoanswer_suffix fullEnv registryIdle "SCCP".toList 0 lineIdle (by decide) (by decide)
      rfl (by intro c; simp [fullEnv]) (by decide)⟩

/-- Counterexample to C9 as stated: for "100@42/aa=2w,b" on line "100" with
default subscription number "0" and a connected device, the channel has
subscription number "42" and two-way autoanswer, but its autoanswer cause is
`AST_CAUSE_NOTDEFINED`, not busy. -/
theorem C9_counterexample :
    lineIdle.defaultSubscriptionId.number = "0".toList ∧
    hasConnectedDevice registryIdle lineIdle = true ∧
    ((sccp_request fullEnv registryIdle (some "SCCP".toList) 0
      (some "100@42/aa=2w,b".toList)).c.map
        (fun c => (c.subscriptionId.number, c.autoanswer_type, c.autoanswer_cause))) =
      some ("42".toList, AutoAnswer.AA_2W, AST_CAUSE_NOTDEFINED) ∧
    ((sccp_request fullEnv registryIdle (some "SCCP".toList) 0
      (some "100@42/aa=2w,b".toList)).c.map (fun c => c.autoanswer_cause)) ≠
      some AST_CAUSE_BUSY := by
  decide

/-! ## Theorems about sccp_handle_message -/

/-- What `sccp_handle_message` does for a session without device: whatever the
message is, it goes through the switch; the only trace of the test of line 444
is the warning. -/
theorem handle_unbound (env : Env) (g : Globals) (sk : Nat) (s0 : Session) (msg : Message)
    (hs : derefSession g sk = some s0) (hd : s0.device = none)
    (hm : notPreRegistration msg.lel_messageId = true) :
    sccp_handle_message env g (some msg) (some sk) =
      Except.ok (dispatchAndFree env (writeSession g { s0 with lastKeepAlive := env.now })
        { s0 with lastKeepAlive := env.now } msg [Call.ast_log LogLevel.LOG_WARNING]) := by
  simp only [sccp_handle_message, hs, hd, hm, if_true]

/-- Claim C1 fails on the code: a session without device sends a
`VersionReqMessage`, which is none of the pre-registration kinds; the dispatcher
logs the warning, still calls `sccp_handle_version`, releases the message and
returns 1. -/
theorem C1_unregistered_message_is_dispatched :
    derefSession registryUnboundSession 1 = some sessionUnbound ∧
    sessionUnbound.device = none ∧
    notPreRegistration MessageId.VersionReqMessage = true ∧
    sccp_handle_message fullEnv registryUnboundSession
        (some ⟨MessageId.VersionReqMessage, 0⟩) (some 1) =
      Except.ok
        { ret := 1,
          g := { registryUnboundSession with
                 sessions := [{ sessionUnbound with lastKeepAlive := fullEnv.now }] },
          calls := [Call.ast_log LogLevel.LOG_WARNING,
                    Call.handler Handler.sccp_handle_version, Call.ast_free] } ∧
    isHandlerCall (Call.handler Handler.sccp_handle_version) = true := by
  refine ⟨by decide, rfl, by decide, ?_, rfl⟩
  rw [handle_unbound fullEnv registryUnboundSession 1 sessionUnbound _ (by decide) rfl
    (by decide)]
  rfl


theorem handle_eq_validate (env : Env) (g : Globals) (sk : Nat) (s0 : Session) (msg : Message)
    (hs : derefSession g sk = some s0) :
    sccp_handle_message env g (some msg) (some sk) =
      validateAndDispatch env (writeSession g { s0 with lastKeepAlive := env.now })
        { s0 with lastKeepAlive := env.now } msg := by
  simp only [sccp_handle_message, hs, validateAndDispatch]

theorem derefSession_key (g : Globals) (k : Nat) (s : Session)
    (h : derefSession g k = some s) : s.key = k := by
  have := List.find?_some h
  simpa using this

theorem derefSession_writeSession (g : Globals) (s : Session) (k : Nat) :
    derefSession (writeSession g s) k =
      (derefSession g k).map (fun x => if x.key = s.key then s else x) := by
  simp only [derefSession, writeSession, List.find?_map]
  have hp : ((fun x : Session => decide (x.key = k)) ∘
      fun x : Session => if x.key = s.key then s else x) =
      fun x : Session => decide (x.key = k) := by
    funext x
    by_cases hx : x.key = s.key
    · simp [hx]
    · simp [hx]
  rw [hp]

theorem derefSession_writeSession_self (g : Globals) (s0 s1 : Session)
    (hs : derefSession g s1.key = some s0) :
    derefSession (writeSession g s1) s1.key = some s1 := by
  rw [derefSession_writeSession, hs]
  simp [derefSession_key g s1.key s0 hs]

theorem derefSession_writeSession_other (g : Globals) (s : Session) (k : Nat)
    (hk : k ≠ s.key) :
    derefSession (writeSession g s) k = derefSession g k := by
  rw [derefSession_writeSession]
  cases h : derefSession g k with
  | none => rfl
  | some x =>
    have hx := derefSession_key g k x h
    simp [hx, hk]


theorem find_byipaddress_writeSession (g : Globals) (s0 s1 : Session) (a : Nat)
    (hs : derefSession g s1.key = some s0) (haddr : s1.sin_addr = s0.sin_addr) :
    sccp_device_find_byipaddress (writeSession g s1) a = sccp_device_find_byipaddress g a := by
  have hp : ∀ k, (match derefSession (writeSession g s1) k with
        | none => false
        | some s => decide (s.sin_addr = a)) =
      (match derefSession g k with
        | none => false
        | some s => decide (s.sin_addr = a)) := by
    intro k
    by_cases hk : k = s1.key
    · rw [hk, derefSession_writeSession_self g s0 s1 hs, hs]
      simp only [haddr]
    · rw [derefSession_writeSession_other g s1 k hk]
  have hq : (fun d : Device =>
        match d.session with
        | none => false
        | some k =>
          match derefSession (writeSession g s1) k with
          | none => false
          | some s => decide (s.sin_addr = a)) =
      (fun d : Device =>
        match d.session with
        | none => false
        | some k =>
          match derefSession g k with
          | none => false
          | some s => decide (s.sin_addr = a)) := by
    funext d
    cases d.session with
    | none => rfl
    | some k => exact hp k
  unfold sccp_device_find_byipaddress
  rw [hq]
  rfl

theorem dispatch_session (env : Env) (s : Session) (r : Message) :
    (dispatch env s r).1.key = s.key ∧
    (dispatch env s r).1.lastKeepAlive = s.lastKeepAlive ∧
    (dispatch env s r).1.device = s.device ∧
    (dispatch env s r).1.sin_addr = s.sin_addr := by
  unfold dispatch
  split <;> exact ⟨rfl, rfl, rfl, rfl⟩

theorem dispatch_calls (env : Env) (s : Session) (r : Message) :
    (dispatch env s r).2.length ≤ 1 ∧
    ∀ c ∈ (dispatch env s r).2, isMessageHandler c = true := by
  unfold dispatch
  split <;> (try split) <;> simp [isMessageHandler]

/-- The results of the validation: either the message went through the switch,
behind at most the warning of line 445 or 451, or it was rejected with 0. -/
theorem validate_ok (env : Env) (g : Globals) (s : Session) (msg : Message) (res : HandleResult)
    (h : validateAndDispatch env g s msg = Except.ok res) :
    (∃ log, (log = [] ∨ log = [Call.ast_log LogLevel.LOG_WARNING]) ∧
      res = dispatchAndFree env g s msg log) ∨
    (res.ret = 0 ∧ res.g = g ∧
      ∃ d : Device, s.device = some d.key ∧ derefDevice g d.key = some d ∧
        (res.calls = [Call.ast_log LogLevel.LOG_ERROR, Call.ast_free] ∨
         res.calls = [Call.sccp_session_close d.session, Call.destroy_session d.session 2,
                      Call.ast_free])) := by
  unfold validateAndDispatch at h
  cases hdev : s.device with
  | none =>
    simp only [hdev] at h
    split at h
    · left; exact ⟨_, Or.inr rfl, (Except.ok.inj h).symm⟩
    · left; exact ⟨_, Or.inl rfl, (Except.ok.inj h).symm⟩
  | some dk =>
    simp only [hdev] at h
    cases hd : derefDevice g dk with
    | none => simp [hd] at h
    | some d =>
      have hk : d.key = dk := by
        have := List.find?_some hd
        simpa using this
      simp only [hd, checkDevice] at h
      split at h
      · split at h
        · split at h
          · cases h
          · split at h
            · cases h
            · left; exact ⟨_, Or.inr rfl, (Except.ok.inj h).symm⟩
        · right
          have := (Except.ok.inj h).symm
          subst this
          exact ⟨rfl, rfl, d, by rw [hk], by rw [hk]; exact hd, Or.inl rfl⟩
      · split at h
        · right
          have := (Except.ok.inj h).symm
          subst this
          exact ⟨rfl, rfl, d, by rw [hk], by rw [hk]; exact hd, Or.inr rfl⟩
        · left; exact ⟨_, Or.inl rfl, (Except.ok.inj h).symm⟩

/-- When the pointers resolve, the validation comes back with a result. -/
theorem validate_total (env : Env) (g : Globals) (s0 s1 : Session) (msg : Message)
    (hdev : s1.device = s0.device)
    (hp : pointersResolve g s0) :
    ∃ res, validateAndDispatch env (writeSession g s1) s1 msg = Except.ok res := by
  unfold validateAndDispatch
  cases hd : s1.device with
  | none =>
    simp only
    split <;> exact ⟨_, rfl⟩
  | some dk =>
    obtain ⟨d, hdd, hnat⟩ := hp dk (by rw [← hdev, hd])
    have hdd1 : derefDevice (writeSession g s1) dk = some d := hdd
    simp only [hdd1, checkDevice]
    split
    · split
      · rename_i hn
        obtain ⟨k, s2, hk, hs2⟩ := hnat hn
        have : derefSession (writeSession g s1) k =
            some (if s2.key = s1.key then s1 else s2) := by
          rw [derefSession_writeSession, hs2]; rfl
        simp only [hk, this]
        exact ⟨_, rfl⟩
      · exact ⟨_, rfl⟩
    · split <;> exact ⟨_, rfl⟩


theorem handle_total (env : Env) (g : Globals) (sk : Nat) (s0 : Session) (msg : Message)
    (hs : derefSession g sk = some s0) (hp : pointersResolve g s0) :
    ∃ res, sccp_handle_message env g (some msg) (some sk) = Except.ok res := by
  rw [handle_eq_validate env g sk s0 msg hs]
  exact validate_total env g s0 { s0 with lastKeepAlive := env.now } msg rfl hp

/-- Claim C11: for a session and a message that are not `NULL`,
`sccp_handle_message` writes the current time into the last-keepalive timestamp of
the session before anything else: the validation of session and device runs on
the registry in which the timestamp is already set, and every result that comes
back, whether after the switch or after a rejection, carries that timestamp. The
call does come back whenever the pointers it follows resolve. -/
theorem C11_keepalive_before_validation (env : Env) (g : Globals) (sk : Nat) (s0 : Session)
    (msg : Message) (hs : derefSession g sk = some s0) :
    sccp_handle_message env g (some msg) (some sk) =
      validateAndDispatch env (writeSession g { s0 with lastKeepAlive := env.now })
        { s0 with lastKeepAlive := env.now } msg ∧
    derefSession (writeSession g { s0 with lastKeepAlive := env.now }) sk =
      some { s0 with lastKeepAlive := env.now } ∧
    (∀ res, sccp_handle_message env g (some msg) (some sk) = Except.ok res →
      ∃ s1, derefSession res.g sk = some s1 ∧ s1.lastKeepAlive = env.now) ∧
    (pointersResolve g s0 →
      ∃ res, sccp_handle_message env g (some msg) (some sk) = Except.ok res) := by
  have hk : s0.key = sk := derefSession_key g sk s0 hs
  have hs1 : derefSession g ({ s0 with lastKeepAlive := env.now } : Session).key = some s0 := by
    rw [← hk] at hs; exact hs
  have hw : derefSession (writeSession g { s0 with lastKeepAlive := env.now }) sk =
      some { s0 with lastKeepAlive := env.now } := by
    have := derefSession_writeSession_self g s0 { s0 with lastKeepAlive := env.now } hs1
    rw [← hk]; exact this
  refine ⟨handle_eq_validate env g sk s0 msg hs, hw, ?_, handle_total env g sk s0 msg hs⟩
  intro res hres
  rw [handle_eq_validate env g sk s0 msg hs] at hres
  rcases validate_ok env _ _ msg res hres with ⟨log, -, hr⟩ | ⟨-, hg, -⟩
  · have hd := dispatch_session env { s0 with lastKeepAlive := env.now } msg
    refine ⟨(dispatch env { s0 with lastKeepAlive := env.now } msg).1, ?_, hd.2.1⟩
    rw [hr]
    have hkey : (dispatch env { s0 with lastKeepAlive := env.now } msg).1.key = sk := by
      rw [hd.1]; exact hk
    have := derefSession_writeSession_self
      (writeSession g { s0 with lastKeepAlive := env.now })
      { s0 with lastKeepAlive := env.now }
      (dispatch env { s0 with lastKeepAlive := env.now } msg).1 (by rw [hkey]; exact hw)
    rw [hkey] at this
    exact this
  · exact ⟨_, by rw [hg]; exact hw, rfl⟩

/-- Witness of C11: an off-hook message on four sessions of one registry. Session
1 is in order and the message is dispatched; session 3 has no device; session 4
comes from another address than its device without NAT; session 2 is not the
session of its device. -/
theorem C11_keepalive_before_validation_witness :
    (derefSession registrySessions 1 = some sessRegistered ∧
      ∃ s1, derefSession
        (dispatchAndFree fullEnv
          (writeSession registrySessions { sessRegistered with lastKeepAlive := fullEnv.now })
          { sessRegistered with lastKeepAlive := fullEnv.now }
          ⟨MessageId.OffHookMessage, 0⟩ []).g 1 = some s1 ∧
        s1.lastKeepAlive = fullEnv.now) ∧
    (∃ s1, derefSession
        (dispatchAndFree fullEnv
          (writeSession registrySessions { sessNoDevice with lastKeepAlive := fullEnv.now })
          { sessNoDevice with lastKeepAlive := fullEnv.now }
          ⟨MessageId.OffHookMessage, 0⟩ [Call.ast_log LogLevel.LOG_WARNING]).g 3 = some s1 ∧
        s1.lastKeepAlive = fullEnv.now) ∧
    (∃ s1, derefSession
        (writeSession registrySessions { sessMoved with lastKeepAlive := fullEnv.now }) 4 =
          some s1 ∧
        s1.lastKeepAlive = fullEnv.now) ∧
    (∃ s1, derefSession
        (writeSession registrySessions { sessSecond with lastKeepAlive := fullEnv.now }) 2 =
          some s1 ∧
        s1.lastKeepAlive = fullEnv.now) :=
  ⟨⟨by decide,
    (C11_keepalive_before_validation fullEnv registrySessions 1 sessRegistered
      ⟨MessageId.OffHookMessage, 0⟩ (by decide)).2.2.1 _ rfl⟩,
   (C11_keepalive_before_validation fullEnv registrySessions 3 sessNoDevice
      ⟨MessageId.OffHookMessage, 0⟩ (by decide)).2.2.1 _ rfl,
   (C11_keepalive_before_validation fullEnv registrySessions 4 sessMoved
      ⟨MessageId.OffHookMessage, 0⟩ (by decide)).2.2.1
      ⟨0, writeSession registrySessions { sessMoved with lastKeepAlive := fullEnv.now },
        [Call.ast_log LogLevel.LOG_ERROR, Call.ast_free]⟩ rfl,
   (C11_keepalive_before_validation fullEnv registrySessions 2 sessSecond
      ⟨MessageId.OffHookMessage, 0⟩ (by decide)).2.2.1
      ⟨0, writeSession registrySessions { sessSecond with lastKeepAlive := fullEnv.now },
        [Call.sccp_session_close (some 1), Call.destroy_session (some 1) 2,
         Call.ast_free]⟩ rfl⟩


/-- For a session with a device, what is left behind the timestamp is the
comparison of the device with the one found by address; the timestamp does not
change what is found. -/
theorem handle_bound (env : Env) (g : Globals) (sk dk : Nat) (s0 : Session) (d : Device)
    (msg : Message)
    (hs : derefSession g sk = some s0) (hdev : s0.device = some dk)
    (hd : derefDevice g dk = some d) :
    sccp_handle_message env g (some msg) (some sk) =
      checkDevice env (writeSession g { s0 with lastKeepAlive := env.now })
        { s0 with lastKeepAlive := env.now } msg d ∧
    sccp_device_find_byipaddress (writeSession g { s0 with lastKeepAlive := env.now })
      s0.sin_addr = sccp_device_find_byipaddress g s0.sin_addr := by
  have hk : s0.key = sk := derefSession_key g sk s0 hs
  constructor
  · rw [handle_eq_validate env g sk s0 msg hs]
    have hd1 : ∀ s : Session, derefDevice (writeSession g s) dk = some d := fun _ => hd
    simp only [validateAndDispatch, hdev, hd1]
  · exact find_byipaddress_writeSession g s0 { s0 with lastKeepAlive := env.now } _
      (by rw [← hk] at hs; exact hs) rfl

/-- Claim C12, as the code has it: for a session bound to a device without NAT
(`nat` is not 1) that is not the device found by the peer address of the
session, `sccp_handle_message` rejects the message: it logs an error, releases
the message and returns 0. No handler is called, and no session is closed or
destroyed by `sccp_handle_message`; only the keepalive timestamp has changed. -/
theorem C12_address_change_without_nat (env : Env) (g : Globals) (sk dk : Nat) (s0 : Session)
    (d : Device) (msg : Message)
    (hs : derefSession g sk = some s0) (hdev : s0.device = some dk)
    (hd : derefDevice g dk = some d) (hnat : d.nat ≠ 1)
    (hip : (sccp_device_find_byipaddress g s0.sin_addr).map (fun x => x.key) ≠ some d.key) :
    sccp_handle_message env g (some msg) (some sk) =
      Except.ok
        { ret := 0,
          g := writeSession g { s0 with lastKeepAlive := env.now },
          calls := [Call.ast_log LogLevel.LOG_ERROR, Call.ast_free] } := by
  obtain ⟨h1, h2⟩ := handle_bound env g sk dk s0 d msg hs hdev hd
  rw [h1]
  simp only [checkDevice, h2, hip, hnat, ne_eq, not_false_eq_true, if_true, if_false]

/-- Witness of C12: session 4 comes from address 40, its device 2 has no NAT and
is found under address 60. -/
theorem C12_address_change_without_nat_witness :
    sccp_handle_message fullEnv registrySessions (some ⟨MessageId.OffHookMessage, 0⟩)
        (some 4) =
      Except.ok
        { ret := 0,
          g := writeSession registrySessions { sessMoved with lastKeepAlive := fullEnv.now },
          calls := [Call.ast_log LogLevel.LOG_ERROR, Call.ast_free] } :=
  C12_address_change_without_nat fullEnv registrySessions 4 2 sessMoved device2
    ⟨MessageId.OffHookMessage, 0⟩ (by decide) (by decide) (by decide) (by decide) (by decide)

/-- Counterexample to C12 as stated: session 4 is bound to device 2, which has no
NAT and is not found under the address of session 4; the message is rejected
with 0, and among the calls made there is no `sccp_session_close` and no
`destroy_session`. -/
theorem C12_counterexample :
    sessMoved.device = some 2 ∧ derefDevice registrySessions 2 = some device2 ∧
    device2.nat = 0 ∧
    sccp_device_find_byipaddress registrySessions sessMoved.sin_addr = none ∧
    ∃ res, sccp_handle_message fullEnv registrySessions
        (some ⟨MessageId.OffHookMessage, 0⟩) (some 4) = Except.ok res ∧
      res.ret = 0 ∧
      res.calls = [Call.ast_log LogLevel.LOG_ERROR, Call.ast_free] ∧
      (∀ k, Call.sccp_session_close k ∉ res.calls) ∧
      (∀ k n, Call.destroy_session k n ∉ res.calls) :=
  ⟨rfl, by decide, rfl, by decide,
    ⟨0, writeSession registrySessions { sessMoved with lastKeepAlive := fullEnv.now },
      [Call.ast_log LogLevel.LOG_ERROR, Call.ast_free]⟩,
    rfl, rfl, rfl, by intro k; simp, by intro k n; simp⟩

/-- What the code does for a NAT device whose session pointer is in order: the
mismatch is logged and the message goes through the switch. -/
theorem handle_nat_mismatch (env : Env) (g : Globals) (sk dk k : Nat) (s0 s2 : Session)
    (d : Device) (msg : Message)
    (hs : derefSession g sk = some s0) (hdev : s0.device = some dk)
    (hd : derefDevice g dk = some d) (hnat : d.nat = 1)
    (hip : (sccp_device_find_byipaddress g s0.sin_addr).map (fun x => x.key) ≠ some d.key)
    (hk : d.session = some k) (hs2 : derefSession g k = some s2) :
    sccp_handle_message env g (some msg) (some sk) =
      Except.ok
        (dispatchAndFree env (writeSession g { s0 with lastKeepAlive := env.now })
          { s0 with lastKeepAlive := env.now } msg [Call.ast_log LogLevel.LOG_WARNING]) := by
  obtain ⟨h1, h2⟩ := handle_bound env g sk dk s0 d msg hs hdev hd
  have h3 : derefSession (writeSession g { s0 with lastKeepAlive := env.now }) k =
      some (if s2.key = s0.key then { s0 with lastKeepAlive := env.now } else s2) := by
    rw [derefSession_writeSession, hs2]; rfl
  rw [h1]
  simp only [checkDevice, h2, hip, hnat, hk, h3, ne_eq, not_false_eq_true, if_true]

/-- Claim C13 fails on the code: session 8 is bound to device 4, which has NAT,
is not found under the address of the session and has no session of its own
(`d->session` is `NULL`, the case line 470 tests for). The warning of line 451
reads `s->device->session->sin.sin_addr`: the call ends in a `NULL` dereference
instead of dispatching the keepalive and returning 1. With a device whose session
pointer is in order (session 5, device 3) the mismatch is tolerated. -/
theorem C13_nat_warning_reads_null_session :
    derefSession registrySessions 8 = some sessOrphanNat ∧
    sessOrphanNat.device = some 4 ∧
    derefDevice registrySessions 4 = some device4 ∧
    device4.nat = 1 ∧ device4.session = none ∧
    (sccp_device_find_byipaddress registrySessions sessOrphanNat.sin_addr).map
      (fun x => x.key) ≠ some device4.key ∧
    sccp_handle_message fullEnv registrySessions
        (some ⟨MessageId.KeepAliveMessage, 0⟩) (some 8) =
      Except.error Fault.nullDereference ∧
    sccp_handle_message fullEnv registrySessions
        (some ⟨MessageId.KeepAliveMessage, 0⟩) (some 5) =
      Except.ok
        { ret := 1,
          g := writeSession registrySessions
            { sessMovedNat with lastKeepAlive := fullEnv.now },
          calls := [Call.ast_log LogLevel.LOG_WARNING,
                    Call.sccp_session_sendmsg_KeepAliveAck (some 3), Call.ast_free] } :=
  ⟨by decide, rfl, by decide, rfl, rfl, by decide, rfl, rfl⟩

/-- Claim C14, as the code has it: for a session `s` bound to a device `d` that
is the device found by the peer address of `s`, while `d.session` is not `s`,
`sccp_handle_message` closes and destroys the session recorded in `d.session`
(the one it takes for the old session), not `s`; it releases the message and
returns 0 without calling any handler. -/
theorem C14_cross_session_closes_registered (env : Env) (g : Globals) (sk dk : Nat)
    (s0 : Session) (d : Device) (msg : Message)
    (hs : derefSession g sk = some s0) (hdev : s0.device = some dk)
    (hd : derefDevice g dk = some d)
    (hip : (sccp_device_find_byipaddress g s0.sin_addr).map (fun x => x.key) = some d.key)
    (hsess : d.session ≠ some sk) :
    sccp_handle_message env g (some msg) (some sk) =
      Except.ok
        { ret := 0,
          g := writeSession g { s0 with lastKeepAlive := env.now },
          calls := [Call.sccp_session_close d.session, Call.destroy_session d.session 2,
                    Call.ast_free] } ∧
    Call.sccp_session_close (some sk) ∉
      [Call.sccp_session_close d.session, Call.destroy_session d.session 2, Call.ast_free] ∧
    handlerCalls
      [Call.sccp_session_close d.session, Call.destroy_session d.session 2, Call.ast_free] =
      [] := by
  obtain ⟨h1, h2⟩ := handle_bound env g sk dk s0 d msg hs hdev hd
  have hk : s0.key = sk := derefSession_key g sk s0 hs
  have hc : d.session = none ∨ d.session ≠ some s0.key := Or.inr (by rw [hk]; exact hsess)
  refine ⟨?_, ?_, rfl⟩
  · rw [h1]
    simp only [checkDevice, h2, hip, hc, ne_eq, not_true_eq_false, if_true, if_false]
  · intro hmem
    simp only [List.mem_cons, Call.sccp_session_close.injEq, List.mem_singleton,
      reduceCtorEq, or_false, List.not_mem_nil] at hmem
    exact hsess hmem.symm

/-- Witness of C14: sessions 1 and 2 come from address 10 and are bound to device
1, whose session is session 1; a message on session 2 closes session 1. -/
theorem C14_cross_session_closes_registered_witness :
    sccp_handle_message fullEnv registrySessions (some ⟨MessageId.OffHookMessage, 0⟩)
        (some 2) =
      Except.ok
        { ret := 0,
          g := writeSession registrySessions { sessSecond with lastKeepAlive := fullEnv.now },
          calls := [Call.sccp_session_close (some 1), Call.destroy_session (some 1) 2,
                    Call.ast_free] } :=
  (C14_cross_session_closes_registered fullEnv registrySessions 2 1 sessSecond deviceOnline
    ⟨MessageId.OffHookMessage, 0⟩ (by decide) (by decide) (by decide) (by decide)
    (by decide)).1

/-- Counterexample to C14 as stated: session 2 is bound to device 1, which is
found under the address of session 2 and has session 1 as its session. The calls
are `sccp_session_close` and `destroy_session` on session 1, the session recorded
in the device; session 2 itself is neither closed nor destroyed. -/
theorem C14_counterexample :
    sessSecond.device = some 1 ∧ derefDevice registrySessions 1 = some deviceOnline ∧
    deviceOnline.session = some 1 ∧
    (sccp_device_find_byipaddress registrySessions sessSecond.sin_addr).map
      (fun x => x.key) = some 1 ∧
    ∃ res, sccp_handle_message fullEnv registrySessions
        (some ⟨MessageId.OffHookMessage, 0⟩) (some 2) = Except.ok res ∧
      Call.sccp_session_close (some 1) ∈ res.calls ∧
      Call.destroy_session (some 1) 2 ∈ res.calls ∧
      Call.sccp_session_close (some 2) ∉ res.calls ∧
      (∀ n, Call.destroy_session (some 2) n ∉ res.calls) :=
  ⟨rfl, by decide, rfl, by decide,
    ⟨0, writeSession registrySessions { sessSecond with lastKeepAlive := fullEnv.now },
      [Call.sccp_session_close (some 1), Call.destroy_session (some 1) 2, Call.ast_free]⟩,
    rfl, by decide, by decide, by decide, by intro n; simp⟩


theorem handlerCalls_dispatchAndFree (env : Env) (g : Globals) (s : Session) (msg : Message)
    (log : List Call) (hlog : log = [] ∨ log = [Call.ast_log LogLevel.LOG_WARNING]) :
    handlerCalls (dispatchAndFree env g s msg log).calls = (dispatch env s msg).2 := by
  have hd : List.filter isMessageHandler (dispatch env s msg).2 = (dispatch env s msg).2 :=
    List.filter_eq_self.mpr (dispatch_calls env s msg).2
  rcases hlog with h | h <;>
    simp [handlerCalls, dispatchAndFree, h, List.filter_append, hd, isMessageHandler]

theorem dispatch_kind_only (env : Env) (s : Session) (r r2 : Message)
    (h : r2.lel_messageId = r.lel_messageId) :
    (dispatch env s r2).2 = (dispatch env s r).2 := by
  unfold dispatch
  rw [h]
  split <;> rfl

theorem dispatch_one_call (env : Env) (s : Session) (r : Message)
    (hip : r.lel_messageId ≠ MessageId.IpPortMessage)
    (hdbg : env.debugMessage = true ∨
      (r.lel_messageId ≠ MessageId.Unknown_0x004A_Message ∧
       r.lel_messageId ≠ MessageId.Unknown_0x0143_Message ∧
       r.lel_messageId ≠ MessageId.Unknown_0x0144_Message ∧
       r.lel_messageId ≠ MessageId.ExtensionDeviceCaps)) :
    (dispatch env s r).2.length = 1 := by
  unfold dispatch
  split <;> simp_all

theorem dispatch_other (env : Env) (s : Session) (r : Message) (n : Nat)
    (h : r.lel_messageId = MessageId.other n) :
    (dispatch env s r).2 = [Call.handler Handler.sccp_handle_unknown_message] := by
  unfold dispatch
  rw [h]

/-- The results with 1 are those of the switch. -/
theorem handle_ret_one (env : Env) (g : Globals) (sk : Nat) (msg : Message) (res : HandleResult)
    (h : sccp_handle_message env g (some msg) (some sk) = Except.ok res) (hret : res.ret = 1) :
    ∃ s0 log, derefSession g sk = some s0 ∧
      (log = [] ∨ log = [Call.ast_log LogLevel.LOG_WARNING]) ∧
      res = dispatchAndFree env (writeSession g { s0 with lastKeepAlive := env.now })
        { s0 with lastKeepAlive := env.now } msg log := by
  cases hs : derefSession g sk with
  | none => simp [sccp_handle_message, hs] at h
  | some s0 =>
    rw [handle_eq_validate env g sk s0 msg hs] at h
    rcases validate_ok env _ _ msg res h with ⟨log, hlog, hr⟩ | ⟨h0, -, -⟩
    · exact ⟨s0, log, rfl, hlog, hr⟩
    · rw [h0] at hret
      cases hret

theorem dispatch_debug_only (env : Env) (s : Session) (r : Message)
    (h : r.lel_messageId = MessageId.Unknown_0x004A_Message ∨
      r.lel_messageId = MessageId.Unknown_0x0143_Message ∨
      r.lel_messageId = MessageId.Unknown_0x0144_Message ∨
      r.lel_messageId = MessageId.ExtensionDeviceCaps) :
    (dispatch env s r).2 =
      if env.debugMessage = true then [Call.handler Handler.sccp_handle_unknown_message]
      else [] := by
  unfold dispatch
  rcases h with h | h | h | h <;> rw [h]

theorem dispatch_ipport (env : Env) (s : Session) (r : Message)
    (h : r.lel_messageId = MessageId.IpPortMessage) :
    (dispatch env s r).2 = [] := by
  unfold dispatch
  rw [h]

theorem dispatch_unknown_iff (env : Env) (s : Session) (r : Message) :
    Call.handler Handler.sccp_handle_unknown_message ∈ (dispatch env s r).2 ↔
      ((∃ n, r.lel_messageId = MessageId.other n) ∨
        (env.debugMessage = true ∧
          (r.lel_messageId = MessageId.Unknown_0x004A_Message ∨
           r.lel_messageId = MessageId.Unknown_0x0143_Message ∨
           r.lel_messageId = MessageId.Unknown_0x0144_Message ∨
           r.lel_messageId = MessageId.ExtensionDeviceCaps))) := by
  unfold dispatch
  split <;> simp_all

/-- Claim C15, as the code has it: a message that passes the validation (the call
returns 1) goes through a switch on the message kind alone and reaches at most one
handler there: another message of the same kind on the same session reaches the
same handler. A kind without `case` label reaches `sccp_handle_unknown_message`,
exactly once. `IpPortMessage` reaches no handler (its media port is stored). The
four kinds `Unknown_0x004A_Message`, `Unknown_0x0143_Message`,
`Unknown_0x0144_Message` and `ExtensionDeviceCaps` reach
`sccp_handle_unknown_message` once when the debug category for messages is on and
no handler otherwise. Every other kind reaches exactly one handler, which is not
`sccp_handle_unknown_message`. -/
theorem C15_dispatch_by_kind (env : Env) (g : Globals) (sk : Nat) (msg : Message)
    (res : HandleResult)
    (h : sccp_handle_message env g (some msg) (some sk) = Except.ok res) (hret : res.ret = 1) :
    (∃ s1 : Session,
      handlerCalls res.calls = (dispatch env s1 msg).2 ∧
      (∀ msg2 : Message, msg2.lel_messageId = msg.lel_messageId →
        (dispatch env s1 msg2).2 = (dispatch env s1 msg).2)) ∧
    (∀ (msg2 : Message) (res2 : HandleResult), msg2.lel_messageId = msg.lel_messageId →
      sccp_handle_message env g (some msg2) (some sk) = Except.ok res2 → res2.ret = 1 →
      handlerCalls res2.calls = handlerCalls res.calls) ∧
    (handlerCalls res.calls).length ≤ 1 ∧
    (∀ n, msg.lel_messageId = MessageId.other n →
      handlerCalls res.calls = [Call.handler Handler.sccp_handle_unknown_message]) ∧
    (msg.lel_messageId = MessageId.IpPortMessage → handlerCalls res.calls = []) ∧
    ((msg.lel_messageId = MessageId.Unknown_0x004A_Message ∨
        msg.lel_messageId = MessageId.Unknown_0x0143_Message ∨
        msg.lel_messageId = MessageId.Unknown_0x0144_Message ∨
        msg.lel_messageId = MessageId.ExtensionDeviceCaps) →
      handlerCalls res.calls =
        if env.debugMessage = true then [Call.handler Handler.sccp_handle_unknown_message]
        else []) ∧
    (msg.lel_messageId ≠ MessageId.IpPortMessage →
      (env.debugMessage = true ∨
        (msg.lel_messageId ≠ MessageId.Unknown_0x004A_Message ∧
         msg.lel_messageId ≠ MessageId.Unknown_0x0143_Message ∧
         msg.lel_messageId ≠ MessageId.Unknown_0x0144_Message ∧
         msg.lel_messageId ≠ MessageId.ExtensionDeviceCaps)) →
      (handlerCalls res.calls).length = 1) ∧
    (Call.handler Handler.sccp_handle_unknown_message ∈ handlerCalls res.calls ↔
      ((∃ n, msg.lel_messageId = MessageId.other n) ∨
        (env.debugMessage = true ∧
          (msg.lel_messageId = MessageId.Unknown_0x004A_Message ∨
           msg.lel_messageId = MessageId.Unknown_0x0143_Message ∨
           msg.lel_messageId = MessageId.Unknown_0x0144_Message ∨
           msg.lel_messageId = MessageId.ExtensionDeviceCaps)))) := by
  obtain ⟨s0, log, hs0, hlog, hr⟩ := handle_ret_one env g sk msg res h hret
  have hc := handlerCalls_dispatchAndFree env
    (writeSession g { s0 with lastKeepAlive := env.now })
    { s0 with lastKeepAlive := env.now } msg log hlog
  rw [← hr] at hc
  refine ⟨⟨{ s0 with lastKeepAlive := env.now }, hc, ?_⟩, ?_, ?_, ?_, ?_, ?_, ?_, ?_⟩
  · intro msg2 h2
    exact dispatch_kind_only env _ msg msg2 h2
  · intro msg2 res2 hk h2 hret2
    obtain ⟨s2, log2, hs2, hlog2, hr2⟩ := handle_ret_one env g sk msg2 res2 h2 hret2
    have e : s2 = s0 := by
      rw [hs0] at hs2
      exact (Option.some.inj hs2).symm
    subst e
    have hc2 := handlerCalls_dispatchAndFree env
      (writeSession g { s2 with lastKeepAlive := env.now })
      { s2 with lastKeepAlive := env.now } msg2 log2 hlog2
    rw [← hr2] at hc2
    rw [hc2, hc]
    exact dispatch_kind_only env _ msg msg2 hk
  · rw [hc]; exact (dispatch_calls env _ msg).1
  · intro n hn
    rw [hc]; exact dispatch_other env _ msg n hn
  · intro hip
    rw [hc]; exact dispatch_ipport env _ msg hip
  · intro hk
    rw [hc]; exact dispatch_debug_only env _ msg hk
  · intro h1 h2
    rw [hc]; exact dispatch_one_call env _ msg h1 h2
  · rw [hc]; exact dispatch_unknown_iff env _ msg

/-- Witness of C15: a message of a kind without `case` label on session 1. -/
theorem C15_dispatch_by_kind_witness :
    handlerCalls [Call.handler Handler.sccp_handle_unknown_message, Call.ast_free] =
      [Call.handler Handler.sccp_handle_unknown_message] ∧
    (handlerCalls [Call.handler Handler.sccp_handle_unknown_message, Call.ast_free]).length ≤ 1 :=
  ⟨(C15_dispatch_by_kind fullEnv registrySessions 1 ⟨MessageId.other 999, 0⟩
      ⟨1, writeSession registrySessions { sessRegistered with lastKeepAlive := fullEnv.now },
        [Call.handler Handler.sccp_handle_unknown_message, Call.ast_free]⟩ rfl rfl).2.2.2.1
      999 rfl,
    (C15_dispatch_by_kind fullEnv registrySessions 1 ⟨MessageId.other 999, 0⟩
      ⟨1, writeSession registrySessions { sessRegistered with lastKeepAlive := fullEnv.now },
        [Call.handler Handler.sccp_handle_unknown_message, Call.ast_free]⟩ rfl rfl).2.2.1⟩

/-- Counterexample to C15 as stated: on session 1, which passes the validation,
an `Unknown_0x004A_Message` in a build without message debugging and an
`IpPortMessage` both return 1 with the release of the message as the only call: no
handler is called, `sccp_handle_unknown_message` included. -/
theorem C15_counterexample :
    fullEnv.debugMessage = false ∧
    sccp_handle_message fullEnv registrySessions
        (some ⟨MessageId.Unknown_0x004A_Message, 0⟩) (some 1) =
      Except.ok
        { ret := 1,
          g := writeSession registrySessions
            { sessRegistered with lastKeepAlive := fullEnv.now },
          calls := [Call.ast_free] } ∧
    sccp_handle_message fullEnv registrySessions
        (some ⟨MessageId.IpPortMessage, 16384⟩) (some 1) =
      Except.ok
        { ret := 1,
          g := writeSession registrySessions
            { sessRegistered with lastKeepAlive := fullEnv.now, rtpPort := 16384 },
          calls := [Call.ast_free] } ∧
    handlerCalls [Call.ast_free] = [] ∧
    Call.handler Handler.sccp_handle_unknown_message ∉ [Call.ast_free] :=
  ⟨rfl, rfl, rfl, rfl, by decide⟩


theorem count_free_dispatchAndFree (env : Env) (g : Globals) (s : Session) (msg : Message)
    (log : List Call) (hlog : log = [] ∨ log = [Call.ast_log LogLevel.LOG_WARNING]) :
    (dispatchAndFree env g s msg log).calls.count Call.ast_free = 1 := by
  have hd : (dispatch env s msg).2.count Call.ast_free = 0 := by
    rw [List.count_eq_zero]
    intro hmem
    have := (dispatch_calls env s msg).2 _ hmem
    simp [isMessageHandler] at this
  rcases hlog with h | h <;> simp [dispatchAndFree, h, List.count_append, hd]

/-- Claim C16: whenever `sccp_handle_message` comes back for a session and a
message that are not `NULL`, it has released the message exactly once, be it
after the switch or in one of the rejections; and it does come back whenever the
pointers it follows resolve. -/
theorem C16_message_released_once (env : Env) (g : Globals) (sk : Nat) (msg : Message) :
    (∀ res, sccp_handle_message env g (some msg) (some sk) = Except.ok res →
      res.calls.count Call.ast_free = 1) ∧
    (∀ s0, derefSession g sk = some s0 → pointersResolve g s0 →
      ∃ res, sccp_handle_message env g (some msg) (some sk) = Except.ok res) := by
  constructor
  · intro res h
    cases hs : derefSession g sk with
    | none => simp [sccp_handle_message, hs] at h
    | some s0 =>
      rw [handle_eq_validate env g sk s0 msg hs] at h
      rcases validate_ok env _ _ msg res h with ⟨log, hlog, hr⟩ | ⟨-, -, d, -, -, hc | hc⟩
      · rw [hr]; exact count_free_dispatchAndFree env _ _ msg log hlog
      · rw [hc]; decide
      · rw [hc]; simp [List.count_cons]
  · intro s0 hs hp
    exact handle_total env g sk s0 msg hs hp

/-- Witness of C16: the four ways back on the sessions 1 (dispatch), 3 (no
device), 4 (address changed, no NAT) and 2 (not the session of its device). -/
theorem C16_message_released_once_witness :
    List.count Call.ast_free
      (dispatchAndFree fullEnv
        (writeSession registrySessions { sessRegistered with lastKeepAlive := fullEnv.now })
        { sessRegistered with lastKeepAlive := fullEnv.now }
        ⟨MessageId.OffHookMessage, 0⟩ []).calls = 1 ∧
    List.count Call.ast_free
      (dispatchAndFree fullEnv
        (writeSession registrySessions { sessNoDevice with lastKeepAlive := fullEnv.now })
        { sessNoDevice with lastKeepAlive := fullEnv.now }
        ⟨MessageId.OffHookMessage, 0⟩ [Call.ast_log LogLevel.LOG_WARNING]).calls = 1 ∧
    List.count Call.ast_free [Call.ast_log LogLevel.LOG_ERROR, Call.ast_free] = 1 ∧
    List.count Call.ast_free
      [Call.sccp_session_close (some 1), Call.destroy_session (some 1) 2, Call.ast_free] = 1 ∧
    pointersResolve registrySessions sessRegistered ∧
    ∃ res, sccp_handle_message fullEnv registrySessions
      (some ⟨MessageId.OffHookMessage, 0⟩) (some 1) = Except.ok res :=
  have hp : pointersResolve registrySessions sessRegistered := by
    intro dk hdk
    cases hdk
    exact ⟨deviceOnline, by decide, fun hn => absurd hn (by decide)⟩
  ⟨(C16_message_released_once fullEnv registrySessions 1 ⟨MessageId.OffHookMessage, 0⟩).1
      _ rfl,
   (C16_message_released_once fullEnv registrySessions 3 ⟨MessageId.OffHookMessage, 0⟩).1
      _ rfl,
   (C16_message_released_once fullEnv registrySessions 4 ⟨MessageId.OffHookMessage, 0⟩).1
      ⟨0, writeSession registrySessions { sessMoved with lastKeepAlive := fullEnv.now },
        [Call.ast_log LogLevel.LOG_ERROR, Call.ast_free]⟩ rfl,
   (C16_message_released_once fullEnv registrySessions 2 ⟨MessageId.OffHookMessage, 0⟩).1
      ⟨0, writeSession registrySessions { sessSecond with lastKeepAlive := fullEnv.now },
        [Call.sccp_session_close (some 1), Call.destroy_session (some 1) 2,
         Call.ast_free]⟩ rfl,
   hp,
   (C16_message_released_once fullEnv registrySessions 1 ⟨MessageId.OffHookMessage, 0⟩).2
      sessRegistered (by decide) hp⟩

theorem writeSession_idem (g : Globals) (s : Session) :
    writeSession (writeSession g s) s = writeSession g s := by
  simp only [writeSession, List.map_map]
  congr 1
  apply List.map_congr_left
  intro x _
  by_cases hx : x.key = s.key <;> simp [hx]

theorem writeSession_frame (g : Globals) (s : Session) :
    (writeSession g s).lines = g.lines ∧ (writeSession g s).devices = g.devices ∧
    (writeSession g s).callCount = g.callCount ∧
    (writeSession g s).monitor_thread = g.monitor_thread :=
  ⟨rfl, rfl, rfl, rfl⟩

/-- Claim C20: for a session bound to a device, a `KeepAliveMessage` that passes
the validation (the call returns 1) has exactly one `KeepAliveAck` sent to that
device and no other handler called; lines with their channels, devices, call
counter and monitor are untouched, every other session is what it was, and the
session itself differs from before in its last-keepalive timestamp only. When the
device is the one found by the address of the session and the session is the
session of the device, the call does return 1. -/
theorem C20_keepalive_ack (env : Env) (g : Globals) (sk dk port : Nat) (s0 : Session)
    (hs : derefSession g sk = some s0) (hdev : s0.device = some dk) :
    (∀ res, sccp_handle_message env g (some ⟨MessageId.KeepAliveMessage, port⟩) (some sk) =
        Except.ok res → res.ret = 1 →
      handlerCalls res.calls = [Call.sccp_session_sendmsg_KeepAliveAck (some dk)] ∧
      res.calls.count (Call.sccp_session_sendmsg_KeepAliveAck (some dk)) = 1 ∧
      res.g.lines = g.lines ∧ res.g.devices = g.devices ∧
      res.g.callCount = g.callCount ∧ res.g.monitor_thread = g.monitor_thread ∧
      (∀ k, k ≠ sk → derefSession res.g k = derefSession g k) ∧
      derefSession res.g sk = some { s0 with lastKeepAlive := env.now }) ∧
    (∀ d, derefDevice g dk = some d →
      (sccp_device_find_byipaddress g s0.sin_addr).map (fun x => x.key) = some d.key →
      d.session = some sk →
      sccp_handle_message env g (some ⟨MessageId.KeepAliveMessage, port⟩) (some sk) =
        Except.ok
          { ret := 1,
            g := writeSession g { s0 with lastKeepAlive := env.now },
            calls := [Call.sccp_session_sendmsg_KeepAliveAck (some dk), Call.ast_free] }) := by
  have hk : s0.key = sk := derefSession_key g sk s0 hs
  have hdisp : dispatch env { s0 with lastKeepAlive := env.now }
      ⟨MessageId.KeepAliveMessage, port⟩ =
      ({ s0 with lastKeepAlive := env.now },
       [Call.sccp_session_sendmsg_KeepAliveAck (some dk)]) := by
    simp only [dispatch, hdev]
  constructor
  · intro res h hret
    obtain ⟨s0', log, hs', hlog, hr⟩ := handle_ret_one env g sk _ res h hret
    rw [hs] at hs'
    cases hs'
    have hc := handlerCalls_dispatchAndFree env
      (writeSession g { s0 with lastKeepAlive := env.now })
      { s0 with lastKeepAlive := env.now } ⟨MessageId.KeepAliveMessage, port⟩ log hlog
    rw [← hr, hdisp] at hc
    have hg : res.g = writeSession g { s0 with lastKeepAlive := env.now } := by
      rw [hr]
      simp only [dispatchAndFree, hdisp, writeSession_idem]
    have hcalls : res.calls =
        log ++ [Call.sccp_session_sendmsg_KeepAliveAck (some dk)] ++ [Call.ast_free] := by
      rw [hr]
      simp only [dispatchAndFree, hdisp]
    refine ⟨hc, ?_, ?_, ?_, ?_, ?_, ?_, ?_⟩
    · rw [hcalls]
      rcases hlog with hl | hl <;> simp [hl, List.count_cons]
    · rw [hg]; rfl
    · rw [hg]; rfl
    · rw [hg]; rfl
    · rw [hg]; rfl
    · intro k hne
      rw [hg]
      exact derefSession_writeSession_other g _ k (by rw [hk]; exact hne)
    · rw [hg]
      have := derefSession_writeSession_self g s0 { s0 with lastKeepAlive := env.now }
        (by rw [← hk] at hs; exact hs)
      rw [← hk]
      exact this
  · intro d hd hip hsess
    obtain ⟨h1, h2⟩ := handle_bound env g sk dk s0 d ⟨MessageId.KeepAliveMessage, port⟩
      hs hdev hd
    have hc : ¬ (d.session = none ∨ d.session ≠ some s0.key) := by
      rw [hk, hsess]; simp
    rw [h1]
    simp only [checkDevice, h2, hip, hc, ne_eq, not_true_eq_false, if_false,
      dispatchAndFree, hdisp, writeSession_idem, List.nil_append, List.singleton_append]

/-- Witness of C20: a keepalive on session 1, the session of device 1. -/
theorem C20_keepalive_ack_witness :
    derefSession registrySessions 1 = some sessRegistered ∧
    sessRegistered.device = some 1 ∧
    sccp_handle_message fullEnv registrySessions (some ⟨MessageId.KeepAliveMessage, 0⟩)
        (some 1) =
      Except.ok
        { ret := 1,
          g := writeSession registrySessions
            { sessRegistered with lastKeepAlive := fullEnv.now },
          calls := [Call.sccp_session_sendmsg_KeepAliveAck (some 1), Call.ast_free] } ∧
    handlerCalls [Call.sccp_session_sendmsg_KeepAliveAck (some 1), Call.ast_free] =
      [Call.sccp_session_sendmsg_KeepAliveAck (some 1)] :=
  ⟨by decide, rfl,
    (C20_keepalive_ack fullEnv registrySessions 1 1 0 sessRegistered (by decide) rfl).2
      deviceOnline (by decide) (by decide) rfl,
    ((C20_keepalive_ack fullEnv registrySessions 1 1 0 sessRegistered (by decide) rfl).1
      ⟨1, writeSession registrySessions { sessRegistered with lastKeepAlive := fullEnv.now },
        [Call.sccp_session_sendmsg_KeepAliveAck (some 1), Call.ast_free]⟩ rfl rfl).1⟩


/-! ## Theorems about the options of sccp_request -/

theorem autoanswerType_eq (c : Channel) (opt : CStr) :
    autoanswerType c opt =
      ({ c with autoanswer_type := (autoanswerSplit opt).1.getD c.autoanswer_type },
       (autoanswerSplit opt).2) := by
  unfold autoanswerType autoanswerSplit
  split_ifs <;> rfl

theorem autoanswerCause_eq (c : Channel) (rest : CStr) :
    autoanswerCause c rest =
      { c with autoanswer_cause :=
          (if rest ≠ [] ∧ c.autoanswer_type ≠ AutoAnswer.NONE then causeLetter rest
           else none).getD c.autoanswer_cause } := by
  unfold autoanswerCause causeLetter ast_strlen_zero
  by_cases h1 : rest = []
  · subst h1; simp
  · have h2 : rest.isEmpty = false := by simpa using h1
    by_cases h3 : c.autoanswer_type = AutoAnswer.NONE
    · have hc : ¬ (rest.isEmpty = false ∧ c.autoanswer_type ≠ AutoAnswer.NONE) :=
        fun h => h.2 h3
      have hc2 : ¬ (rest ≠ [] ∧ c.autoanswer_type ≠ AutoAnswer.NONE) := fun h => h.2 h3
      rw [if_neg hc, if_neg hc2]
      rfl
    · have hc : rest.isEmpty = false ∧ c.autoanswer_type ≠ AutoAnswer.NONE := ⟨h2, h3⟩
      have hc2 : rest ≠ [] ∧ c.autoanswer_type ≠ AutoAnswer.NONE := ⟨h1, h3⟩
      rw [if_pos hc, if_pos hc2]
      split_ifs <;> rfl

theorem ringerOption_eq (c : Channel) (v : CStr) :
    ringerOption c v = { c with ringermode := ringerWord v } := by
  unfold ringerOption ringerWord
  split_ifs <;> rfl

/-- The channel behind one option, field by field. -/
theorem applyOption_channel (c : Channel) (cause : Nat) (opt : CStr) :
    (applyOption c cause opt).1 =
      { c with
        autoanswer_type := (tokenAutoanswer opt).getD c.autoanswer_type,
        autoanswer_cause := (tokenCause c.autoanswer_type opt).getD c.autoanswer_cause,
        ringermode := (tokenRinger opt).getD c.ringermode } := by
  unfold applyOption tokenAutoanswer tokenCause tokenRinger
  by_cases h1 : strncasecmp opt "aa".toList 2 = 0
  · simp only [if_pos h1, autoanswerType_eq, autoanswerCause_eq, Option.getD_none]
    by_cases h2 : (autoanswerSplit opt).2 ≠ [] ∧
        (autoanswerSplit opt).1.getD c.autoanswer_type ≠ AutoAnswer.NONE
    · rw [if_pos h2, if_pos ⟨h1, h2⟩]
    · rw [if_neg h2, if_neg (fun h => h2 h.2)]
  · have h3 : ¬ (strncasecmp opt "aa".toList 2 = 0 ∧ (autoanswerSplit opt).2 ≠ [] ∧
        (autoanswerSplit opt).1.getD c.autoanswer_type ≠ AutoAnswer.NONE) := fun h => h1 h.1
    simp only [if_neg h1, if_neg h3, Option.getD_none]
    by_cases h2 : strncasecmp opt "ringer=".toList 7 = 0
    · simp only [if_pos h2, ringerOption_eq, Option.getD_some]
    · simp only [if_neg h2, Option.getD_none]

/-- The `*cause` of the caller behind one option. -/
theorem applyOption_cause (c : Channel) (cause : Nat) (opt : CStr) :
    (applyOption c cause opt).2 =
      if strncasecmp opt "aa".toList 2 = 0 then
        (if (applyOption c cause opt).1.autoanswer_cause ≠ 0
         then (applyOption c cause opt).1.autoanswer_cause else cause)
      else cause := by
  by_cases h1 : strncasecmp opt "aa".toList 2 = 0
  · simp only [applyOption, if_pos h1]
  · simp only [applyOption, if_neg h1]
    split_ifs <;> rfl


theorem applyOptions_append (a b : List CStr) :
    ∀ (c : Channel) (cause : Nat),
      applyOptions c cause (a ++ b) =
        applyOptions (applyOptions c cause a).1 (applyOptions c cause a).2 b := by
  induction a with
  | nil => intro c cause; rfl
  | cons t rest ih =>
    intro c cause
    simp only [List.cons_append, applyOptions]
    exact ih _ _

theorem applyOptions_type (opts : List CStr) :
    ∀ (c : Channel) (cause : Nat),
      (applyOptions c cause opts).1.autoanswer_type = typeInForce c.autoanswer_type opts := by
  induction opts with
  | nil => intro c cause; rfl
  | cons t rest ih =>
    intro c cause
    simp only [applyOptions, typeInForce]
    rw [ih, applyOption_channel]

theorem applyOptions_type_unset (opts : List CStr)
    (h : ∀ t ∈ opts, tokenAutoanswer t = none) :
    ∀ (c : Channel) (cause : Nat),
      (applyOptions c cause opts).1.autoanswer_type = c.autoanswer_type := by
  induction opts with
  | nil => intro c cause; rfl
  | cons t rest ih =>
    intro c cause
    simp only [applyOptions]
    rw [ih (fun x hx => h x (List.mem_cons_of_mem _ hx)), applyOption_channel,
      h t (List.mem_cons_self _ _)]
    rfl

theorem applyOptions_ringer_unset (opts : List CStr)
    (h : ∀ t ∈ opts, tokenRinger t = none) :
    ∀ (c : Channel) (cause : Nat),
      (applyOptions c cause opts).1.ringermode = c.ringermode := by
  induction opts with
  | nil => intro c cause; rfl
  | cons t rest ih =>
    intro c cause
    simp only [applyOptions]
    rw [ih (fun x hx => h x (List.mem_cons_of_mem _ hx)), applyOption_channel,
      h t (List.mem_cons_self _ _)]
    rfl

theorem applyOptions_cause_unset (opts : List CStr)
    (h : ∀ t ∈ opts, ∀ ty, tokenCause ty t = none) :
    ∀ (c : Channel) (cause : Nat),
      (applyOptions c cause opts).1.autoanswer_cause = c.autoanswer_cause := by
  induction opts with
  | nil => intro c cause; rfl
  | cons t rest ih =>
    intro c cause
    simp only [applyOptions]
    rw [ih (fun x hx => h x (List.mem_cons_of_mem _ hx)), applyOption_channel,
      h t (List.mem_cons_self _ _)]
    rfl

/-- The loop is last-wins: a token that sets the autoanswer type, the ringer mode
or the autoanswer cause decides the field when no token behind it sets it. -/
theorem applyOptions_last_wins (c : Channel) (cause : Nat) (pre post : List CStr) (tok : CStr) :
    (∀ ty, tokenAutoanswer tok = some ty → (∀ t ∈ post, tokenAutoanswer t = none) →
      (applyOptions c cause (pre ++ tok :: post)).1.autoanswer_type = ty) ∧
    (∀ m, tokenRinger tok = some m → (∀ t ∈ post, tokenRinger t = none) →
      (applyOptions c cause (pre ++ tok :: post)).1.ringermode = m) ∧
    (∀ k, tokenCause (typeInForce c.autoanswer_type pre) tok = some k →
      (∀ t ∈ post, ∀ ty, tokenCause ty t = none) →
      (applyOptions c cause (pre ++ tok :: post)).1.autoanswer_cause = k) := by
  have hsplit : applyOptions c cause (pre ++ tok :: post) =
      applyOptions
        (applyOption (applyOptions c cause pre).1 (applyOptions c cause pre).2 tok).1
        (applyOption (applyOptions c cause pre).1 (applyOptions c cause pre).2 tok).2 post := by
    rw [applyOptions_append]
    rfl
  refine ⟨?_, ?_, ?_⟩
  · intro ty h1 h2
    rw [hsplit, applyOptions_type_unset post h2, applyOption_channel, h1]
    rfl
  · intro m h1 h2
    rw [hsplit, applyOptions_ringer_unset post h2, applyOption_channel, h1]
    rfl
  · intro k h1 h2
    rw [hsplit, applyOptions_cause_unset post h2, applyOption_channel, applyOptions_type, h1]
    rfl

theorem ringer_not_aa (opt : CStr) (h : strncasecmp opt "ringer=".toList 7 = 0) :
    ¬ strncasecmp opt "aa".toList 2 = 0 := by
  unfold strncasecmp strcasecmp at *
  intro h2
  by_cases h7 : (opt.take 7).map Char.toLower = ("ringer=".toList.take 7).map Char.toLower
  · by_cases h2' : (opt.take 2).map Char.toLower = ("aa".toList.take 2).map Char.toLower
    · have e : (opt.take 2).map Char.toLower = ((opt.take 7).map Char.toLower).take 2 := by
        rw [← List.map_take, List.take_take]
        rfl
      rw [h7] at e
      rw [e] at h2'
      revert h2'
      decide
    · rw [if_neg h2'] at h2
      cases h2
  · rw [if_neg h7] at h
    cases h

theorem tokens_of_aa (a : CStr) (h : strncasecmp a "aa".toList 2 = 0) :
    tokenRinger a = none := by
  simp only [tokenRinger, if_pos h]

theorem tokens_of_ringer (r : CStr) (h : strncasecmp r "ringer=".toList 7 = 0) :
    tokenAutoanswer r = none ∧ (∀ ty, tokenCause ty r = none) ∧
    tokenRinger r = some (ringerWord (r.drop 7)) := by
  have hn := ringer_not_aa r h
  refine ⟨?_, ?_, ?_⟩
  · simp only [tokenAutoanswer, if_neg hn]
  · intro ty
    have h3 : ¬ (strncasecmp r "aa".toList 2 = 0 ∧ (autoanswerSplit r).2 ≠ [] ∧
        (autoanswerSplit r).1.getD ty ≠ AutoAnswer.NONE) := fun x => hn x.1
    simp only [tokenCause, if_neg h3]
  · simp only [tokenRinger, if_neg hn, if_pos h]

/-- An autoanswer option and a ringer option can change places. -/
theorem applyOption_swap (c : Channel) (cause : Nat) (a r : CStr)
    (ha : strncasecmp a "aa".toList 2 = 0) (hr : strncasecmp r "ringer=".toList 7 = 0) :
    applyOptions c cause [a, r] = applyOptions c cause [r, a] := by
  have hn := ringer_not_aa r hr
  obtain ⟨r1, r2, r3⟩ := tokens_of_ringer r hr
  have a1 := tokens_of_aa a ha
  have hc : (applyOptions c cause [a, r]).1 = (applyOptions c cause [r, a]).1 := by
    simp only [applyOptions, applyOption_channel, r1, r2, r3, a1, Option.getD_none,
      Option.getD_some]
  refine Prod.ext hc ?_
  simp only [applyOptions] at hc ⊢
  rw [applyOption_cause _ _ r, if_neg hn, applyOption_cause _ _ a, if_pos ha,
    applyOption_cause _ (applyOption c cause r).2 a, if_pos ha,
    applyOption_cause c cause r, if_neg hn]
  have hx : (applyOption (applyOption c cause r).1 cause a).1.autoanswer_cause =
      (applyOption c cause a).1.autoanswer_cause := by
    simp only [applyOption_channel, r1, r2, r3, Option.getD_none]
  rw [hx]

/-- An option that starts with neither "aa" nor "ringer=" changes nothing. -/
theorem applyOption_unknown (c : Channel) (cause : Nat) (tok : CStr) (h : ¬ knownOption tok) :
    applyOption c cause tok = (c, cause) := by
  have h1 : ¬ strncasecmp tok "aa".toList 2 = 0 := fun x => h (Or.inl x)
  have h2 : ¬ strncasecmp tok "ringer=".toList 7 = 0 := fun x => h (Or.inr x)
  simp only [applyOption, if_neg h1, if_neg h2]

theorem applyOptions_skip_unknown (pre post : List CStr) (tok : CStr) (h : ¬ knownOption tok)
    (c : Channel) (cause : Nat) :
    applyOptions c cause (pre ++ tok :: post) = applyOptions c cause (pre ++ post) := by
  rw [applyOptions_append, applyOptions_append]
  simp only [applyOptions, applyOption_unknown _ _ tok h]


theorem splitAtSlash_append (name rest : CStr) (h : '/' ∉ name) :
    splitAtSlash (name ++ '/' :: rest) = (name, some rest) := by
  have hp : ∀ a ∈ name, (a != '/') = true := by
    intro a ha
    simp only [bne_iff_ne, ne_eq]
    intro e
    exact h (e ▸ ha)
  unfold splitAtSlash
  simp [List.takeWhile_append_of_pos hp, List.dropWhile_append_of_pos hp]

theorem splitAtSlash_noslash (name : CStr) (h : '/' ∉ name) :
    splitAtSlash name = (name, none) := by
  have hp : ∀ a ∈ name, (a != '/') = true := by
    intro a ha
    simp only [bne_iff_ne, ne_eq]
    intro e
    exact h (e ▸ ha)
  unfold splitAtSlash
  simp only [if_neg h, List.takeWhile_eq_self_iff.mpr hp]

theorem separate_args_two (a b : CStr) (ha : '/' ∉ a) (hb : b ≠ []) :
    sccp_app_separate_args (a ++ '/' :: b) '/' 2 = [a, b] := by
  have hp : ∀ x ∈ a, (x != '/') = true := by
    intro x hx
    simp only [bne_iff_ne, ne_eq]
    intro e
    exact ha (e ▸ hx)
  have hb2 : b.isEmpty = false := by simpa using hb
  simp [sccp_app_separate_args, List.takeWhile_append_of_pos hp,
    List.dropWhile_append_of_pos hp, hb2]

theorem separate_args_one (a : CStr) (ha : '/' ∉ a) (hne : a ≠ []) :
    sccp_app_separate_args a '/' 2 = [a] := by
  have hp : ∀ x ∈ a, (x != '/') = true := by
    intro x hx
    simp only [bne_iff_ne, ne_eq]
    intro e
    exact ha (e ▸ hx)
  have hne2 : a.isEmpty = false := by simpa using hne
  have hd : a.dropWhile (fun ch => ch != '/') = [] := List.dropWhile_eq_nil_iff.mpr hp
  simp [sccp_app_separate_args, hne2, List.takeWhile_eq_self_iff.mpr hp, hd]

theorem requestOptions_none (name : CStr) (h : '/' ∉ name) : requestOptions name = [] := by
  simp only [requestOptions, splitAtSlash_noslash name h]

theorem requestOptions_one (name a : CStr) (h : '/' ∉ name) (ha : '/' ∉ a) (hne : a ≠ []) :
    requestOptions (name ++ '/' :: a) = [a] := by
  simp only [requestOptions, splitAtSlash_append name a h, separate_args_one a ha hne]

theorem requestOptions_two (name a b : CStr) (h : '/' ∉ name) (ha : '/' ∉ a) (hb : b ≠ []) :
    requestOptions (name ++ '/' :: (a ++ '/' :: b)) = [a, b] := by
  simp only [requestOptions, splitAtSlash_append name _ h, separate_args_two a b ha hb]

theorem known_ne_nil (tok : CStr) (h : knownOption tok) : tok ≠ [] := by
  intro e
  subst e
  revert h
  unfold knownOption
  decide

/-- Two dial strings with the same part before the first `/` and options that
the loop cannot tell apart give the same result. -/
theorem request_congr (env : Env) (g : Globals) (type : Option CStr) (format : Int)
    (d d2 : CStr) (h1 : (splitAtSlash d).1 = (splitAtSlash d2).1)
    (h2 : ∀ c cause, applyOptions c cause (requestOptions d) =
      applyOptions c cause (requestOptions d2)) :
    sccp_request env g type format (some d) = sccp_request env g type format (some d2) := by
  cases type with
  | none => rfl
  | some t =>
    cases hl : sccp_line_find_byname g (sccp_parseComposedId (splitAtSlash d).1 80).mainId with
    | none =>
      have hl2 := hl
      rw [h1] at hl2
      simp only [sccp_request, hl, hl2]
    | some l =>
      have hl2 := hl
      rw [h1] at hl2
      by_cases hd : l.devices = []
      · simp only [sccp_request, hl, hl2, hd, List.head?_nil, if_true]
      · have hd1 : ¬ l.devices.head? = none := by simpa [List.head?_eq_none_iff] using hd
        cases ha : sccp_channel_allocate env g l none with
        | none => simp only [sccp_request, hl, hl2, if_neg hd1, ha]
        | some p =>
          obtain ⟨c0, g1⟩ := p
          cases hp : env.sccp_pbx_channel_allocate
              (setSubscriptionId env c0
                (sccp_parseComposedId (splitAtSlash d).1 80).subscriptionId l) with
          | none =>
            have hp2 := hp
            rw [h1] at hp2
            simp only [sccp_request, hl, hl2, if_neg hd1, ha, hp, hp2]
            rw [h1]
          | some owner =>
            have hp2 := hp
            rw [h1] at hp2
            rw [request_of_handoff env g g1 t format d l c0 owner hl hd ha hp,
              request_of_handoff env g g1 t format d2 l c0 owner hl2 hd ha hp2, h2, h1]


theorem requestOptions_length (d : CStr) : (requestOptions d).length ≤ 2 := by
  unfold requestOptions
  cases (splitAtSlash d).2 with
  | none => simp
  | some o =>
    simp only [sccp_app_separate_args]
    split_ifs <;> simp

/-- The channel of a call of `sccp_request` that returns a channel: a channel
without autoanswer and with the ringer mode outside, behind the option loop. -/
theorem request_channel_options (env : Env) (g : Globals) (type : Option CStr) (format : Int)
    (data : CStr) (o : AstChannel)
    (hret : (sccp_request env g type format (some data)).ret = some o) :
    ∃ c4 : Channel,
      c4.autoanswer_type = AutoAnswer.NONE ∧ c4.autoanswer_cause = AST_CAUSE_NOTDEFINED ∧
      c4.ringermode = RingerMode.OUTSIDERING ∧
      (sccp_request env g type format (some data)).c =
        some (applyOptions c4 AST_CAUSE_NOTDEFINED (requestOptions data)).1 ∧
      (sccp_request env g type format (some data)).cause =
        (applyOptions c4 AST_CAUSE_NOTDEFINED (requestOptions data)).2 := by
  obtain ⟨t, l, c0, g1, owner, ht, hl, hd, ha, hp⟩ :=
    request_ret_some env g type format data o hret
  subst ht
  have hform := request_of_handoff env g g1 t format data l c0 owner hl hd ha hp
  have hc0 : c0.autoanswer_type = AutoAnswer.NONE ∧
      c0.autoanswer_cause = AST_CAUSE_NOTDEFINED ∧
      c0.ringermode = RingerMode.OUTSIDERING := by
    unfold sccp_channel_allocate at ha
    by_cases hok : env.channel_alloc_ok = true
    · rw [if_pos hok] at ha
      simp only [Option.some.injEq, Prod.mk.injEq] at ha
      rw [← ha.1]
      exact ⟨rfl, rfl, rfl⟩
    · rw [if_neg hok] at ha
      cases ha
  have hsub : ∀ sid : SubscriptionId,
      (setSubscriptionId env c0 sid l).autoanswer_type = c0.autoanswer_type ∧
      (setSubscriptionId env c0 sid l).autoanswer_cause = c0.autoanswer_cause ∧
      (setSubscriptionId env c0 sid l).ringermode = c0.ringermode := by
    intro sid
    unfold setSubscriptionId
    simp only
    split_ifs <;> exact ⟨rfl, rfl, rfl⟩
  refine ⟨_, ?_, ?_, ?_, by rw [hform]; rfl, by rw [hform]; rfl⟩
  · exact (hsub _).1.trans hc0.1
  · exact (hsub _).2.1.trans hc0.2.1
  · exact (hsub _).2.2.trans hc0.2.2

/-- Claim C17, as the code has it. The loop of `sccp_request` sees at most two
option tokens, the second one with everything behind the second `/`. Among the
tokens it sees it is last-wins: the autoanswer type, the ringer mode and the
autoanswer cause of the channel are those of the last token that sets them (a
token sets a cause only when it or a token before it sets an autoanswer type). A
dial string with an autoanswer option and a ringer option gives the same result in
both orders. -/
theorem C17_options_last_wins (env : Env) (g : Globals) (type : Option CStr) (format : Int)
    (data : CStr) (o : AstChannel)
    (hret : (sccp_request env g type format (some data)).ret = some o) :
    (∃ c, (sccp_request env g type format (some data)).c = some c ∧
      (requestOptions data).length ≤ 2 ∧
      ∀ pre tok post, requestOptions data = pre ++ tok :: post →
        (∀ ty, tokenAutoanswer tok = some ty → (∀ t ∈ post, tokenAutoanswer t = none) →
          c.autoanswer_type = ty) ∧
        (∀ m, tokenRinger tok = some m → (∀ t ∈ post, tokenRinger t = none) →
          c.ringermode = m) ∧
        (∀ k, tokenCause (typeInForce AutoAnswer.NONE pre) tok = some k →
          (∀ t ∈ post, ∀ ty, tokenCause ty t = none) → c.autoanswer_cause = k)) ∧
    (∀ name a r : CStr, '/' ∉ name → '/' ∉ a → '/' ∉ r →
      strncasecmp a "aa".toList 2 = 0 → strncasecmp r "ringer=".toList 7 = 0 →
      sccp_request env g type format (some (name ++ '/' :: (a ++ '/' :: r))) =
        sccp_request env g type format (some (name ++ '/' :: (r ++ '/' :: a)))) := by
  constructor
  · obtain ⟨c4, h1, -, -, hc, -⟩ := request_channel_options env g type format data o hret
    refine ⟨_, hc, requestOptions_length data, ?_⟩
    intro pre tok post hsplit
    have hlw := applyOptions_last_wins c4 AST_CAUSE_NOTDEFINED pre post tok
    rw [h1] at hlw
    rw [hsplit]
    exact hlw
  · intro name a r hn ha hr haa hrr
    have hane : a ≠ [] := known_ne_nil a (Or.inl haa)
    have hrne : r ≠ [] := known_ne_nil r (Or.inr hrr)
    apply request_congr
    · rw [splitAtSlash_append name _ hn, splitAtSlash_append name _ hn]
    · intro c cause
      rw [requestOptions_two name a r hn ha hrne, requestOptions_two name r a hn hr hane]
      exact applyOption_swap c cause a r haa hrr


/-- Witness of C17: the dial strings "100/ringer=inside/aa=2wb" and
"100/aa=2wb/ringer=inside" on the idle line "100". -/
theorem C17_options_last_wins_witness :
    (∃ c, (sccp_request fullEnv registryIdle (some "SCCP".toList) 0
        (some "100/ringer=inside/aa=2wb".toList)).c = some c ∧
      c.autoanswer_type = AutoAnswer.AA_2W ∧ c.ringermode = RingerMode.INSIDERING ∧
      c.autoanswer_cause = AST_CAUSE_BUSY) ∧
    sccp_request fullEnv registryIdle (some "SCCP".toList) 0
        (some ("100".toList ++ '/' :: ("aa=2wb".toList ++ '/' :: "ringer=inside".toList))) =
      sccp_request fullEnv registryIdle (some "SCCP".toList) 0
        (some ("100".toList ++ '/' :: ("ringer=inside".toList ++ '/' :: "aa=2wb".toList))) := by
  have h := C17_options_last_wins fullEnv registryIdle (some "SCCP".toList) 0
    "100/ringer=inside/aa=2wb".toList ⟨7⟩ (by decide)
  obtain ⟨⟨c, hc, -, hlw⟩, hswap⟩ := h
  have h1 := hlw ["ringer=inside".toList] "aa=2wb".toList [] (by decide)
  have h2 := hlw [] "ringer=inside".toList ["aa=2wb".toList] (by decide)
  refine ⟨⟨c, hc, ?_, ?_, ?_⟩, ?_⟩
  · exact h1.1 AutoAnswer.AA_2W (by decide) (by decide)
  · exact h2.2.1 RingerMode.INSIDERING (by decide) (by decide)
  · exact h1.2.2 AST_CAUSE_BUSY (by decide) (by intro t ht; cases ht)
  · exact hswap "100".toList "aa=2wb".toList "ringer=inside".toList (by decide) (by decide)
      (by decide) (by decide) (by decide)

/-- Counterexample to C17 as stated: with three options in the dial string the
loop gets "ringer=inside" and "aa=1w/ringer=urgent". The last ringer option,
"ringer=urgent", does not win: the ringer mode is inside. And with a third option
behind them, an autoanswer option and a ringer option in the two orders give
different ringer modes. -/
theorem C17_counterexample :
    requestOptions "100/ringer=inside/aa=1w/ringer=urgent".toList =
      ["ringer=inside".toList, "aa=1w/ringer=urgent".toList] ∧
    tokenRinger "ringer=urgent".toList = some RingerMode.URGENTRING ∧
    (sccp_request fullEnv registryIdle (some "SCCP".toList) 0
      (some "100/ringer=inside/aa=1w/ringer=urgent".toList)).c.map
        (fun c => c.ringermode) = some RingerMode.INSIDERING ∧
    (sccp_request fullEnv registryIdle (some "SCCP".toList) 0
      (some "100/aa=1w/ringer=inside/ringer=silent".toList)).c.map
        (fun c => c.ringermode) = some RingerMode.OUTSIDERING ∧
    (sccp_request fullEnv registryIdle (some "SCCP".toList) 0
      (some "100/ringer=inside/aa=1w/ringer=silent".toList)).c.map
        (fun c => c.ringermode) = some RingerMode.INSIDERING := by
  decide

theorem request_of_handoff_fields (env : Env) (g g1 : Globals) (t : CStr) (format : Int)
    (data : CStr) (l : Line) (c0 : Channel) (owner : AstChannel)
    (hl : sccp_line_find_byname g (sccp_parseComposedId (splitAtSlash data).1 80).mainId =
      some l)
    (hd : l.devices ≠ [])
    (ha : sccp_channel_allocate env g l none = some (c0, g1))
    (hp : env.sccp_pbx_channel_allocate
      (setSubscriptionId env c0
        (sccp_parseComposedId (splitAtSlash data).1 80).subscriptionId l) = some owner) :
    (sccp_request env g (some t) format (some data)).ret = some owner ∧
    (sccp_request env g (some t) format (some data)).c.map (fun c => c.subscriptionId) =
      some (setSubscriptionId env c0
        (sccp_parseComposedId (splitAtSlash data).1 80).subscriptionId l).subscriptionId := by
  rw [request_of_handoff env g g1 t format data l c0 owner hl hd ha hp]
  constructor
  · show (applyOptions _ _ _).1.owner = some owner
    rw [(applyOptions_frame _ _ _).2.1]
    rfl
  · show some (applyOptions _ _ _).1.subscriptionId = some _
    rw [(applyOptions_frame _ _ _).1]
    rfl

/-- The options of a dial string decide neither whether a channel is returned nor
its subscription id. -/
theorem request_ret_congr (env : Env) (g : Globals) (type : Option CStr) (format : Int)
    (d d2 : CStr) (h1 : (splitAtSlash d).1 = (splitAtSlash d2).1) :
    (sccp_request env g type format (some d)).ret =
      (sccp_request env g type format (some d2)).ret ∧
    (sccp_request env g type format (some d)).c.map (fun c => c.subscriptionId) =
      (sccp_request env g type format (some d2)).c.map (fun c => c.subscriptionId) := by
  cases type with
  | none => exact ⟨rfl, rfl⟩
  | some t =>
    cases hl : sccp_line_find_byname g (sccp_parseComposedId (splitAtSlash d).1 80).mainId with
    | none =>
      have hl2 := hl
      rw [h1] at hl2
      simp only [sccp_request, hl, hl2, and_self]
    | some l =>
      have hl2 := hl
      rw [h1] at hl2
      by_cases hd : l.devices = []
      · simp only [sccp_request, hl, hl2, hd, List.head?_nil, if_true, and_self]
      · have hd1 : ¬ l.devices.head? = none := by simpa [List.head?_eq_none_iff] using hd
        cases ha : sccp_channel_allocate env g l none with
        | none => simp only [sccp_request, hl, hl2, if_neg hd1, ha, and_self]
        | some p =>
          obtain ⟨c0, g1⟩ := p
          cases hp : env.sccp_pbx_channel_allocate
              (setSubscriptionId env c0
                (sccp_parseComposedId (splitAtSlash d).1 80).subscriptionId l) with
          | none =>
            have hp2 := hp
            rw [h1] at hp2
            simp only [sccp_request, hl, hl2, if_neg hd1, ha, hp, hp2]
            exact ⟨rfl, rfl⟩
          | some owner =>
            have hp2 := hp
            rw [h1] at hp2
            have e1 := request_of_handoff_fields env g g1 t format d l c0 owner hl hd ha hp
            have e2 := request_of_handoff_fields env g g1 t format d2 l c0 owner hl2 hd ha hp2
            rw [e1.1, e1.2, e2.1, e2.2, h1]
            exact ⟨rfl, rfl⟩

/-- Claim C18, as the code has it: an option that starts with neither "aa" nor
"ringer=" is never fatal: the options of a dial string decide neither whether a
channel is returned nor its subscription id. Such an option has no effect at all
when the loop sees it as a token of its own, that is as the only option, or next
to one other option before or behind it; it is skipped wherever it stands among
the tokens of the loop. -/
theorem C18_unknown_option (env : Env) (g : Globals) (type : Option CStr) (format : Int)
    (tok : CStr) (hu : ¬ knownOption tok) (hs : '/' ∉ tok) (hne : tok ≠ []) :
    (∀ d d2 : CStr, (splitAtSlash d).1 = (splitAtSlash d2).1 →
      (sccp_request env g type format (some d)).ret =
        (sccp_request env g type format (some d2)).ret ∧
      (sccp_request env g type format (some d)).c.map (fun c => c.subscriptionId) =
        (sccp_request env g type format (some d2)).c.map (fun c => c.subscriptionId)) ∧
    (∀ name : CStr, '/' ∉ name →
      sccp_request env g type format (some (name ++ '/' :: tok)) =
        sccp_request env g type format (some name)) ∧
    (∀ name a : CStr, '/' ∉ name → '/' ∉ a → a ≠ [] →
      sccp_request env g type format (some (name ++ '/' :: (a ++ '/' :: tok))) =
        sccp_request env g type format (some (name ++ '/' :: a)) ∧
      sccp_request env g type format (some (name ++ '/' :: (tok ++ '/' :: a))) =
        sccp_request env g type format (some (name ++ '/' :: a))) ∧
    (∀ (c : Channel) (cause : Nat) (pre post : List CStr),
      applyOptions c cause (pre ++ tok :: post) = applyOptions c cause (pre ++ post)) := by
  refine ⟨?_, ?_, ?_, ?_⟩
  · intro d d2 h
    exact request_ret_congr env g type format d d2 h
  · intro name hn
    apply request_congr
    · rw [splitAtSlash_append name _ hn, splitAtSlash_noslash name hn]
    · intro c cause
      rw [requestOptions_one name tok hn hs hne, requestOptions_none name hn]
      exact applyOptions_skip_unknown [] [] tok hu c cause
  · intro name a hn ha hane
    constructor
    · apply request_congr
      · rw [splitAtSlash_append name _ hn, splitAtSlash_append name _ hn]
      · intro c cause
        rw [requestOptions_two name a tok hn ha hne, requestOptions_one name a hn ha hane]
        exact applyOptions_skip_unknown [a] [] tok hu c cause
    · apply request_congr
      · rw [splitAtSlash_append name _ hn, splitAtSlash_append name _ hn]
      · intro c cause
        rw [requestOptions_two name tok a hn hs hane, requestOptions_one name a hn ha hane]
        exact applyOptions_skip_unknown [] [a] tok hu c cause
  · intro c cause pre post
    exact applyOptions_skip_unknown pre post tok hu c cause

/-- Witness of C18: the option "xyz" behind "aa=1wb" on the idle line "100". -/
theorem C18_unknown_option_witness :
    ¬ knownOption "xyz".toList ∧
    sccp_request fullEnv registryIdle (some "SCCP".toList) 0
        (some ("100".toList ++ '/' :: ("aa=1wb".toList ++ '/' :: "xyz".toList))) =
      sccp_request fullEnv registryIdle (some "SCCP".toList) 0
        (some ("100".toList ++ '/' :: "aa=1wb".toList)) ∧
    (sccp_request fullEnv registryIdle (some "SCCP".toList) 0
        (some ("100".toList ++ '/' :: "aa=1wb".toList))).ret = some ⟨7⟩ :=
  ⟨by decide,
    ((C18_unknown_option fullEnv registryIdle (some "SCCP".toList) 0 "xyz".toList
      (by decide) (by decide) (by decide)).2.2.1
      "100".toList "aa=1wb".toList (by decide) (by decide) (by decide)).1,
    by decide⟩

/-- Counterexample to C18 as stated: "100/aa=1w/ringer=inside" returns a channel
with the ringer mode inside; with the unknown option "xyz" added behind it the
loop gets "ringer=inside/xyz" as its second token, and the channel that is
returned has the ringer mode outside. -/
theorem C18_counterexample :
    ¬ knownOption "xyz".toList ∧
    (sccp_request fullEnv registryIdle (some "SCCP".toList) 0
      (some "100/aa=1w/ringer=inside".toList)).ret = some ⟨7⟩ ∧
    (sccp_request fullEnv registryIdle (some "SCCP".toList) 0
      (some "100/aa=1w/ringer=inside".toList)).c.map (fun c => c.ringermode) =
      some RingerMode.INSIDERING ∧
    requestOptions "100/aa=1w/ringer=inside/xyz".toList =
      ["aa=1w".toList, "ringer=inside/xyz".toList] ∧
    (sccp_request fullEnv registryIdle (some "SCCP".toList) 0
      (some "100/aa=1w/ringer=inside/xyz".toList)).ret = some ⟨7⟩ ∧
    (sccp_request fullEnv registryIdle (some "SCCP".toList) 0
      (some "100/aa=1w/ringer=inside/xyz".toList)).c.map (fun c => c.ringermode) =
      some RingerMode.OUTSIDERING := by
  decide


theorem strcasecmp_eq_zero (a b : CStr) :
    strcasecmp a b = 0 ↔ a.map Char.toLower = b.map Char.toLower := by
  unfold strcasecmp
  split_ifs with h
  · simp [h]
  · simp [h]

theorem tokenRinger_none (t : CStr) (h : ¬ strncasecmp t "ringer=".toList 7 = 0) :
    tokenRinger t = none := by
  unfold tokenRinger
  split_ifs <;> rfl

/-- The ringer words, one by one. -/
theorem ringerWord_cases (v : CStr) :
    (strcasecmp v "inside".toList = 0 → ringerWord v = RingerMode.INSIDERING) ∧
    (strcasecmp v "outside".toList = 0 → ringerWord v = RingerMode.OUTSIDERING) ∧
    (strcasecmp v "feature".toList = 0 → ringerWord v = RingerMode.FEATURERING) ∧
    (strcasecmp v "silent".toList = 0 → ringerWord v = RingerMode.SILENTRING) ∧
    (strcasecmp v "urgent".toList = 0 → ringerWord v = RingerMode.URGENTRING) ∧
    (¬ strcasecmp v "inside".toList = 0 → ¬ strcasecmp v "outside".toList = 0 →
      ¬ strcasecmp v "feature".toList = 0 → ¬ strcasecmp v "silent".toList = 0 →
      ¬ strcasecmp v "urgent".toList = 0 → ringerWord v = RingerMode.OUTSIDERING) := by
  have two : ∀ w1 w2 : CStr, strcasecmp v w1 = 0 → strcasecmp v w2 = 0 →
      w1.map Char.toLower = w2.map Char.toLower := by
    intro w1 w2 h1 h2
    rw [strcasecmp_eq_zero] at h1 h2
    rw [← h1, ← h2]
  refine ⟨?_, ?_, ?_, ?_, ?_, ?_⟩
  · intro h
    simp only [ringerWord, if_pos h]
  · intro h
    have n1 : ¬ strcasecmp v "inside".toList = 0 := fun x =>
      absurd (two _ _ x h) (by decide)
    simp only [ringerWord, if_neg n1, if_pos h]
  · intro h
    have n1 : ¬ strcasecmp v "inside".toList = 0 := fun x =>
      absurd (two _ _ x h) (by decide)
    have n2 : ¬ strcasecmp v "outside".toList = 0 := fun x =>
      absurd (two _ _ x h) (by decide)
    simp only [ringerWord, if_neg n1, if_neg n2, if_pos h]
  · intro h
    have n1 : ¬ strcasecmp v "inside".toList = 0 := fun x =>
      absurd (two _ _ x h) (by decide)
    have n2 : ¬ strcasecmp v "outside".toList = 0 := fun x =>
      absurd (two _ _ x h) (by decide)
    have n3 : ¬ strcasecmp v "feature".toList = 0 := fun x =>
      absurd (two _ _ x h) (by decide)
    simp only [ringerWord, if_neg n1, if_neg n2, if_neg n3, if_pos h]
  · intro h
    have n1 : ¬ strcasecmp v "inside".toList = 0 := fun x =>
      absurd (two _ _ x h) (by decide)
    have n2 : ¬ strcasecmp v "outside".toList = 0 := fun x =>
      absurd (two _ _ x h) (by decide)
    have n3 : ¬ strcasecmp v "feature".toList = 0 := fun x =>
      absurd (two _ _ x h) (by decide)
    have n4 : ¬ strcasecmp v "silent".toList = 0 := fun x =>
      absurd (two _ _ x h) (by decide)
    simp only [ringerWord, if_neg n1, if_neg n2, if_neg n3, if_neg n4, if_pos h]
  · intro n1 n2 n3 n4 n5
    simp only [ringerWord, if_neg n1, if_neg n2, if_neg n3, if_neg n4, if_neg n5]

/-- Claim C19, as the code has it. The loop of `sccp_request` reads at most two
option tokens: the text between the first and the second `/`, and everything
behind the second `/` as one token. On the channel that `sccp_request` returns,
the last of these tokens that starts with "ringer=" (in any case of the letters)
decides the ringer mode: inside, outside, feature, silent or urgent when the value
behind "ringer=" is that word (in any case), and outside for every other value.
When none of these tokens starts with "ringer=", the ringer mode is outside. -/
theorem C19_ringer_mode (env : Env) (g : Globals) (type : Option CStr) (format : Int)
    (data : CStr) (o : AstChannel)
    (hret : (sccp_request env g type format (some data)).ret = some o) :
    (∃ c, (sccp_request env g type format (some data)).c = some c ∧
      ((∀ t ∈ requestOptions data, ¬ strncasecmp t "ringer=".toList 7 = 0) →
        c.ringermode = RingerMode.OUTSIDERING) ∧
      ∀ pre tok post, requestOptions data = pre ++ tok :: post →
        strncasecmp tok "ringer=".toList 7 = 0 →
        (∀ t ∈ post, ¬ strncasecmp t "ringer=".toList 7 = 0) →
        (strcasecmp (tok.drop 7) "inside".toList = 0 →
          c.ringermode = RingerMode.INSIDERING) ∧
        (strcasecmp (tok.drop 7) "outside".toList = 0 →
          c.ringermode = RingerMode.OUTSIDERING) ∧
        (strcasecmp (tok.drop 7) "feature".toList = 0 →
          c.ringermode = RingerMode.FEATURERING) ∧
        (strcasecmp (tok.drop 7) "silent".toList = 0 →
          c.ringermode = RingerMode.SILENTRING) ∧
        (strcasecmp (tok.drop 7) "urgent".toList = 0 →
          c.ringermode = RingerMode.URGENTRING) ∧
        (¬ strcasecmp (tok.drop 7) "inside".toList = 0 →
          ¬ strcasecmp (tok.drop 7) "outside".toList = 0 →
          ¬ strcasecmp (tok.drop 7) "feature".toList = 0 →
          ¬ strcasecmp (tok.drop 7) "silent".toList = 0 →
          ¬ strcasecmp (tok.drop 7) "urgent".toList = 0 →
          c.ringermode = RingerMode.OUTSIDERING)) ∧
    (requestOptions data).length ≤ 2 ∧
    (∀ name a b : CStr, '/' ∉ name → '/' ∉ a → b ≠ [] →
      requestOptions (name ++ '/' :: (a ++ '/' :: b)) = [a, b]) := by
  obtain ⟨c4, -, -, h3, hc, -⟩ := request_channel_options env g type format data o hret
  refine ⟨⟨_, hc, ?_, ?_⟩, requestOptions_length data, requestOptions_two⟩
  · intro hno
    rw [applyOptions_ringer_unset _ (fun t ht => tokenRinger_none t (hno t ht)), h3]
  · intro pre tok post hsplit htok hpost
    have hlw := (applyOptions_last_wins c4 AST_CAUSE_NOTDEFINED pre post tok).2.1
      (ringerWord (tok.drop 7)) (tokens_of_ringer tok htok).2.2
      (fun t ht => tokenRinger_none t (hpost t ht))
    rw [hsplit, hlw]
    exact ringerWord_cases (tok.drop 7)

/-- Witness of C19: the dial string "100/RINGER=Feature" on the idle line "100",
and the dial string "100" without options. -/
theorem C19_ringer_mode_witness :
    (∃ c, (sccp_request fullEnv registryIdle (some "SCCP".toList) 0
        (some "100/RINGER=Feature".toList)).c = some c ∧
      c.ringermode = RingerMode.FEATURERING) ∧
    (∃ c, (sccp_request fullEnv registryIdle (some "SCCP".toList) 0
        (some "100".toList)).c = some c ∧
      c.ringermode = RingerMode.OUTSIDERING) := by
  obtain ⟨⟨c, hc, -, h⟩, -, -⟩ := C19_ringer_mode fullEnv registryIdle (some "SCCP".toList) 0
    "100/RINGER=Feature".toList ⟨7⟩ (by decide)
  obtain ⟨⟨c2, hc2, h2, -⟩, -, -⟩ := C19_ringer_mode fullEnv registryIdle
    (some "SCCP".toList) 0 "100".toList ⟨7⟩ (by decide)
  exact ⟨⟨c, hc, (h [] "RINGER=Feature".toList [] (by decide) (by decide)
      (by intro t ht; cases ht)).2.2.1 (by decide)⟩,
    ⟨c2, hc2, h2 (by decide)⟩⟩

/-- Counterexample to C19 as stated: the dial string "100/aa=1w/xyz/ringer=inside"
has the option token "ringer=inside", but the loop reads "aa=1w" and
"xyz/ringer=inside": the request returns a channel whose ringer mode is outside,
not inside. The same holds for "ringer=feature" behind two autoanswer options. -/
theorem C19_counterexample :
    requestOptions "100/aa=1w/xyz/ringer=inside".toList =
      ["aa=1w".toList, "xyz/ringer=inside".toList] ∧
    strncasecmp "ringer=inside".toList "ringer=".toList 7 = 0 ∧
    strcasecmp ("ringer=inside".toList.drop 7) "inside".toList = 0 ∧
    (sccp_request fullEnv registryIdle (some "SCCP".toList) 0
      (some "100/aa=1w/xyz/ringer=inside".toList)).ret = some ⟨7⟩ ∧
    (sccp_request fullEnv registryIdle (some "SCCP".toList) 0
      (some "100/aa=1w/xyz/ringer=inside".toList)).c.map
        (fun c => c.ringermode) = some RingerMode.OUTSIDERING ∧
    (sccp_request fullEnv registryIdle (some "SCCP".toList) 0
      (some "100/aa=2w/aa=1wb/ringer=feature".toList)).c.map
        (fun c => c.ringermode) = some RingerMode.OUTSIDERING := by
  decide


/-! ## Theorems about the monitor -/

theorem do_monitor_length (sw : Nat → Int) (iw : Nat → Int → Int) (n : Nat) :
    (sccp_do_monitor sw iw n).length = n := by
  induction n with
  | zero => rfl
  | succ n ih => simp [sccp_do_monitor, ih]

theorem do_monitor_get (sw : Nat → Int) (iw : Nat → Int → Int) (n i : Nat) (hi : i < n) :
    (sccp_do_monitor sw iw n)[i]? = some (sccp_do_monitor_turn (sw i) (iw i)) := by
  induction n with
  | zero => omega
  | succ n ih =>
    simp only [sccp_do_monitor]
    by_cases h : i < n
    · rw [List.getElem?_append_left (by rw [do_monitor_length]; exact h)]
      exact ih h
    · have e : i = n := by omega
      subst e
      rw [List.getElem?_append_right (by rw [do_monitor_length])]
      simp [do_monitor_length]

/-- Claim C21: in every turn of the loop of `sccp_do_monitor` the wait passed to
`ast_io_wait` is between 0 and 1000 ms: it is the time `w` that the scheduler
reports when `0 ≤ w ≤ 1000`, and 1000 when `w` is negative or above 1000. -/
theorem C21_monitor_wait_capped (sw : Nat → Int) (iw : Nat → Int → Int) (n i : Nat)
    (hi : i < n) :
    ∃ turn, (sccp_do_monitor sw iw n)[i]? = some turn ∧
      0 ≤ turn.wait ∧ turn.wait ≤ 1000 ∧
      (0 ≤ sw i → sw i ≤ 1000 → turn.wait = sw i) ∧
      (sw i < 0 ∨ 1000 < sw i → turn.wait = 1000) := by
  refine ⟨_, do_monitor_get sw iw n i hi, ?_, ?_, ?_, ?_⟩
  · simp only [sccp_do_monitor_turn]
    split_ifs with h
    · decide
    · omega
  · simp only [sccp_do_monitor_turn]
    split_ifs with h
    · decide
    · omega
  · intro h0 h1
    simp only [sccp_do_monitor_turn]
    rw [if_neg (by omega)]
  · intro h
    simp only [sccp_do_monitor_turn]
    rw [if_pos (by omega)]

/-- Witness of C21: three turns in which the scheduler reports 250 ms, no timer
(-1) and 60000 ms. -/
theorem C21_monitor_wait_capped_witness :
    (sccp_do_monitor (fun i => if i = 0 then 250 else if i = 1 then -1 else 60000)
      (fun _ w => w) 3).map (fun t => t.wait) = [250, 1000, 1000] ∧
    ∃ turn, (sccp_do_monitor (fun i => if i = 0 then 250 else if i = 1 then -1 else 60000)
        (fun _ w => w) 3)[2]? = some turn ∧
      0 ≤ turn.wait ∧ turn.wait ≤ 1000 ∧
      (0 ≤ (60000 : Int) → (60000 : Int) ≤ 1000 → turn.wait = 60000) ∧
      ((60000 : Int) < 0 ∨ 1000 < (60000 : Int) → turn.wait = 1000) :=
  ⟨by decide,
    C21_monitor_wait_capped (fun i => if i = 0 then 250 else if i = 1 then -1 else 60000)
      (fun _ w => w) 3 2 (by decide)⟩

theorem restart_monitor_stopped (env : Env) (g : Globals)
    (h : g.monitor_thread = MonitorThread.AST_PTHREADT_STOP) :
    sccp_restart_monitor env g = (0, { g with restartCalls := g.restartCalls + 1 }) := by
  simp only [sccp_restart_monitor, h, if_true]

theorem restartTimes_stopped (env : Env) (n : Nat) :
    ∀ g : Globals, g.monitor_thread = MonitorThread.AST_PTHREADT_STOP →
      (restartTimes env n g).1 = List.replicate n 0 ∧
      (restartTimes env n g).2.monitor_thread = MonitorThread.AST_PTHREADT_STOP ∧
      (restartTimes env n g).2.monitorStarts = g.monitorStarts ∧
      (restartTimes env n g).2.monitorSignals = g.monitorSignals := by
  induction n with
  | zero => intro g h; exact ⟨rfl, h, rfl, rfl⟩
  | succ n ih =>
    intro g h
    have e := restart_monitor_stopped env g h
    have := ih { g with restartCalls := g.restartCalls + 1 } h
    simp only [restartTimes, e, List.replicate_succ]
    exact ⟨by rw [this.1], this.2.1, this.2.2.1, this.2.2.2⟩

theorem unload_module_monitor_stops (g : Globals) :
    (unload_module_monitor g).monitor_thread = MonitorThread.AST_PTHREADT_STOP := by
  unfold unload_module_monitor
  split_ifs <;> rfl

/-- Claim C25: once `unload_module` has set the marker of the monitor thread to
STOP, every call of `sccp_restart_monitor` returns 0, starts no monitor thread,
signals no thread and leaves the marker at STOP, however many calls follow. -/
theorem C25_stopped_monitor_stays_stopped (env : Env) (g : Globals) (n : Nat) :
    (unload_module_monitor g).monitor_thread = MonitorThread.AST_PTHREADT_STOP ∧
    (restartTimes env n (unload_module_monitor g)).1 = List.replicate n 0 ∧
    (restartTimes env n (unload_module_monitor g)).2.monitor_thread =
      MonitorThread.AST_PTHREADT_STOP ∧
    (restartTimes env n (unload_module_monitor g)).2.monitorStarts =
      (unload_module_monitor g).monitorStarts ∧
    (restartTimes env n (unload_module_monitor g)).2.monitorSignals =
      (unload_module_monitor g).monitorSignals ∧
    sccp_restart_monitor env (unload_module_monitor g) =
      (0, { unload_module_monitor g with
              restartCalls := (unload_module_monitor g).restartCalls + 1 }) := by
  have hs := unload_module_monitor_stops g
  have h := restartTimes_stopped env n (unload_module_monitor g) hs
  exact ⟨hs, h.1, h.2.1, h.2.2.1, h.2.2.2, restart_monitor_stopped env _ hs⟩

/-- Witness of C25: three calls of `sccp_restart_monitor` behind the unload of a
module whose monitor thread was running. -/
theorem C25_stopped_monitor_stays_stopped_witness :
    (restartTimes fullEnv 3 (unload_module_monitor registryMonitorRunning)).1 = [0, 0, 0] ∧
    (restartTimes fullEnv 3 registryMonitorRunning).2.monitorSignals =
      registryMonitorRunning.monitorSignals + 3 ∧
    (restartTimes fullEnv 3 (unload_module_monitor registryMonitorRunning)).2.monitorSignals =
      (unload_module_monitor registryMonitorRunning).monitorSignals :=
  ⟨by decide, by decide,
    (C25_stopped_monitor_stays_stopped fullEnv registryMonitorRunning 3).2.2.2.2.1⟩

/-! ## Theorems about sccp_devicestate as a query -/

theorem takeWhile_no_slash (s : CStr) : '/' ∉ s.takeWhile (fun ch => ch != '/') := by
  intro h
  have := List.mem_takeWhile_imp h
  simp at this

theorem devicestate_cut (env : Env) (g : Globals) (data : CStr) :
    sccp_devicestate env g (sccp_devicestate_data data) = sccp_devicestate env g data := by
  have h : (splitAtSlash (sccp_devicestate_data data)).1 = (splitAtSlash data).1 := by
    have h1 : (splitAtSlash data).1 = data.takeWhile (fun ch => ch != '/') := by
      unfold splitAtSlash
      simp only
      split_ifs <;> rfl
    unfold sccp_devicestate_data
    rw [h1, (splitAtSlash_noslash _ (takeWhile_no_slash data))]
  simp only [sccp_devicestate, h]

theorem devicestate_of_lookup (env : Env) (g g2 : Globals) (data data2 : CStr)
    (h : sccp_line_find_byname g2 (splitAtSlash data2).1 =
      sccp_line_find_byname g (splitAtSlash data).1) :
    sccp_devicestate env g2 data2 = sccp_devicestate env g data := by
  simp only [sccp_devicestate, h]

/-- Claim C23: `sccp_devicestate` is a query. Its embedding returns a state and
no registry, because the source writes to no line, device, channel or registry
field; the one write of the source goes to the argument buffer, which is cut at
the first `/`. The result is a function of the registry and the line name: the
text after a `/` does not influence it (the state of "name/options" is the state
of "name"), a second call on the buffer that the first call has cut returns the
same state, and two registries in which the name resolves to the same line give
the same state. -/
theorem C23_devicestate_is_query (env : Env) (g g2 : Globals) (name opts : CStr)
    (h : '/' ∉ name) :
    sccp_devicestate env g (name ++ '/' :: opts) = sccp_devicestate env g name ∧
    sccp_devicestate_data (name ++ '/' :: opts) = name ∧
    sccp_devicestate env g (sccp_devicestate_data (name ++ '/' :: opts)) =
      sccp_devicestate env g (name ++ '/' :: opts) ∧
    (sccp_line_find_byname g2 name = sccp_line_find_byname g name →
      sccp_devicestate env g2 (name ++ '/' :: opts) = sccp_devicestate env g name) := by
  have h1 : (splitAtSlash (name ++ '/' :: opts)).1 = name := by
    rw [splitAtSlash_append name opts h]
  have h2 : (splitAtSlash name).1 = name := by
    rw [splitAtSlash_noslash name h]
  refine ⟨?_, h1, devicestate_cut env g _, ?_⟩
  · exact devicestate_of_lookup env g g _ _ (by rw [h1, h2])
  · intro hl
    exact devicestate_of_lookup env g g2 _ _ (by rw [h1, h2]; exact hl)

/-- Witness of C23: the busy line "100" asked for as "100/aa=2w/ringer=inside". -/
theorem C23_devicestate_is_query_witness :
    sccp_devicestate fullEnv registryAtLimit "100/aa=2w/ringer=inside".toList = AST_DEVICE_BUSY ∧
    (sccp_devicestate fullEnv registryAtLimit ("100".toList ++ '/' :: "aa=2w/ringer=inside".toList) =
        sccp_devicestate fullEnv registryAtLimit "100".toList ∧
      sccp_devicestate_data ("100".toList ++ '/' :: "aa=2w/ringer=inside".toList) = "100".toList ∧
      sccp_devicestate fullEnv registryAtLimit
          (sccp_devicestate_data ("100".toList ++ '/' :: "aa=2w/ringer=inside".toList)) =
        sccp_devicestate fullEnv registryAtLimit
          ("100".toList ++ '/' :: "aa=2w/ringer=inside".toList) ∧
      (sccp_line_find_byname registryAtLimit "100".toList =
          sccp_line_find_byname registryAtLimit "100".toList →
        sccp_devicestate fullEnv registryAtLimit
            ("100".toList ++ '/' :: "aa=2w/ringer=inside".toList) =
          sccp_devicestate fullEnv registryAtLimit "100".toList)) :=
  ⟨by decide,
    C23_devicestate_is_query fullEnv registryAtLimit registryAtLimit "100".toList
      "aa=2w/ringer=inside".toList (by decide)⟩

theorem devicestate_inuse_cases (env : Env) (l : Line) :
    devicestate_inuse env l = AST_DEVICE_RINGINUSE ∨ devicestate_inuse env l = AST_DEVICE_RINGING ∨
    devicestate_inuse env l = AST_DEVICE_ONHOLD ∨ devicestate_inuse env l = AST_DEVICE_INUSE := by
  unfold devicestate_inuse
  split_ifs <;> simp

/-- Claim C27: `sccp_devicestate` never returns Unknown: for every registry, every
build and every argument the result is one of Invalid, Unavailable, Busy,
NotInUse, Ringing, RingingAndInUse, OnHold and InUse. Busy and NotInUse exclude
each other: Busy is only reported for a line with a configured incoming limit and
a channel count other than zero, NotInUse only for a line whose channel count is
zero; so a line with zero channels, and a line without a limit, is never Busy. -/
theorem C27_never_unknown (env : Env) (g : Globals) (data : CStr) :
    sccp_devicestate env g data ≠ AST_DEVICE_UNKNOWN ∧
    sccp_devicestate env g data ∈ listedDeviceStates ∧
    (∀ l, sccp_line_find_byname g (splitAtSlash data).1 = some l →
      l.channelCount = 0 ∨ l.incominglimit = 0 →
      sccp_devicestate env g data ≠ AST_DEVICE_BUSY) ∧
    (sccp_devicestate env g data = AST_DEVICE_BUSY →
      ∃ l, sccp_line_find_byname g (splitAtSlash data).1 = some l ∧
        l.incominglimit ≠ 0 ∧ l.channelCount ≠ 0) ∧
    (sccp_devicestate env g data = AST_DEVICE_NOT_INUSE →
      ∃ l, sccp_line_find_byname g (splitAtSlash data).1 = some l ∧ l.channelCount = 0) := by
  cases hl : sccp_line_find_byname g (splitAtSlash data).1 with
  | none =>
    have e : sccp_devicestate env g data = AST_DEVICE_INVALID := by
      simp only [sccp_devicestate, hl]
    rw [e]
    refine ⟨by decide, by decide, ?_, ?_, ?_⟩
    · intro l h; cases h
    · intro h; cases h
    · intro h; cases h
  | some l =>
    have e := devicestate_of_found env g data l hl
    rw [e]
    have hin := devicestate_inuse_cases env l
    refine ⟨?_, ?_, ?_, ?_, ?_⟩
    · split_ifs
      · decide
      · decide
      · decide
      · rcases hin with h | h | h | h <;> rw [h] <;> decide
    · split_ifs
      · decide
      · decide
      · decide
      · rcases hin with h | h | h | h <;> rw [h] <;> decide
    · intro l2 h2 h0
      cases h2
      split_ifs with h1 h2 h3
      · decide
      · exfalso; rcases h0 with h0 | h0
        · exact h2.1 (by rw [← h2.2]; exact h0)
        · exact h2.1 h0
      · decide
      · rcases hin with h | h | h | h <;> rw [h] <;> decide
    · intro hb
      refine ⟨l, rfl, ?_⟩
      split_ifs at hb with h1 h2 h3
      · exact ⟨h2.1, by rw [h2.2]; exact h2.1⟩
      · rcases hin with h | h | h | h <;> rw [h] at hb <;> cases hb
    · intro hb
      refine ⟨l, rfl, ?_⟩
      split_ifs at hb with h1 h2 h3
      · exact h3
      · rcases hin with h | h | h | h <;> rw [h] at hb <;> cases hb

/-- Witness of C27: line "100" is at its limit of two calls and Busy; the same
line without a limit, "200", is InUse; an unknown name is Invalid. -/
theorem C27_never_unknown_witness :
    sccp_devicestate fullEnv registryTwoLines "100".toList = AST_DEVICE_BUSY ∧
    sccp_devicestate fullEnv registryTwoLines "200".toList = AST_DEVICE_INUSE ∧
    sccp_devicestate fullEnv registryTwoLines "300".toList = AST_DEVICE_INVALID ∧
    sccp_devicestate fullEnv registryIdle "100".toList = AST_DEVICE_NOT_INUSE ∧
    (sccp_devicestate fullEnv registryTwoLines "200".toList ≠ AST_DEVICE_UNKNOWN ∧
      sccp_devicestate fullEnv registryTwoLines "200".toList ∈ listedDeviceStates) :=
  ⟨by decide, by decide, by decide, by decide,
    (C27_never_unknown fullEnv registryTwoLines "200".toList).1,
    (C27_never_unknown fullEnv registryTwoLines "200".toList).2.1⟩


/-! ## Theorems about the monitor wake of sccp_request -/

theorem strncasecmp_append (p x w : CStr) (n : Nat) (hn : n ≤ p.length) :
    strncasecmp (p ++ x) w n =
      if (p.map Char.toLower).take n = (w.take n).map Char.toLower then 0 else 1 := by
  unfold strncasecmp strcasecmp
  rw [List.take_append_of_le_length hn, List.map_take]

theorem length_of_lower (p w : CStr) (h : p.map Char.toLower = w) : p.length = w.length := by
  rw [← h, List.length_map]

/-- An old-style autoanswer token: four characters that read "aa1w" or "aa2w" in
lower case, and a suffix. -/
theorem autoanswerSplit_old (p x : CStr) (ty : AutoAnswer)
    (h : (p.map Char.toLower = "aa1w".toList ∧ ty = AutoAnswer.AA_1W) ∨
      (p.map Char.toLower = "aa2w".toList ∧ ty = AutoAnswer.AA_2W)) :
    strncasecmp (p ++ x) "aa".toList 2 = 0 ∧ autoanswerSplit (p ++ x) = (some ty, x) := by
  rcases h with ⟨hp, hty⟩ | ⟨hp, hty⟩
  · have hlen : p.length = 4 := length_of_lower p _ hp
    have e0 : strncasecmp (p ++ x) "aa".toList 2 = 0 := by
      rw [strncasecmp_append _ _ _ _ (by omega), hp]; decide
    have e1 : strncasecmp (p ++ x) "aa1w".toList 4 = 0 := by
      rw [strncasecmp_append _ _ _ _ (by omega), hp]; decide
    have e2 : (p ++ x).drop 4 = x := by rw [← hlen]; exact List.drop_left p x
    refine ⟨e0, ?_⟩
    simp only [autoanswerSplit, if_pos e1, e2, hty]
  · have hlen : p.length = 4 := length_of_lower p _ hp
    have e0 : strncasecmp (p ++ x) "aa".toList 2 = 0 := by
      rw [strncasecmp_append _ _ _ _ (by omega), hp]; decide
    have e1 : ¬ strncasecmp (p ++ x) "aa1w".toList 4 = 0 := by
      rw [strncasecmp_append _ _ _ _ (by omega), hp]; decide
    have e3 : strncasecmp (p ++ x) "aa2w".toList 4 = 0 := by
      rw [strncasecmp_append _ _ _ _ (by omega), hp]; decide
    have e2 : (p ++ x).drop 4 = x := by rw [← hlen]; exact List.drop_left p x
    refine ⟨e0, ?_⟩
    simp only [autoanswerSplit, if_neg e1, if_pos e3, e2, hty]

/-- A new-style autoanswer token: five characters that read "aa=1w" or "aa=2w" in
lower case, and a suffix. -/
theorem autoanswerSplit_new (q x : CStr) (ty : AutoAnswer)
    (h : (q.map Char.toLower = "aa=1w".toList ∧ ty = AutoAnswer.AA_1W) ∨
      (q.map Char.toLower = "aa=2w".toList ∧ ty = AutoAnswer.AA_2W)) :
    strncasecmp (q ++ x) "aa".toList 2 = 0 ∧ autoanswerSplit (q ++ x) = (some ty, x) := by
  have hlen : q.length = 5 := by
    rcases h with ⟨hq, _⟩ | ⟨hq, _⟩ <;> exact length_of_lower q _ hq
  have hd3 : (q ++ x).drop 3 = q.drop 3 ++ x := by
    rw [List.drop_append_of_le_length (by omega)]
  have hd5 : (q.drop 3 ++ x).drop 2 = x := by
    have : (q.drop 3).length = 2 := by rw [List.length_drop, hlen]
    rw [← this]; exact List.drop_left _ x
  have hl2 : 2 ≤ (q.drop 3).length := by rw [List.length_drop, hlen]
  rcases h with ⟨hq, hty⟩ | ⟨hq, hty⟩
  · have e0 : strncasecmp (q ++ x) "aa".toList 2 = 0 := by
      rw [strncasecmp_append _ _ _ _ (by omega), hq]; decide
    have e1 : ¬ strncasecmp (q ++ x) "aa1w".toList 4 = 0 := by
      rw [strncasecmp_append _ _ _ _ (by omega), hq]; decide
    have e2 : ¬ strncasecmp (q ++ x) "aa2w".toList 4 = 0 := by
      rw [strncasecmp_append _ _ _ _ (by omega), hq]; decide
    have e3 : strncasecmp (q ++ x) "aa=".toList 3 = 0 := by
      rw [strncasecmp_append _ _ _ _ (by omega), hq]; decide
    have e4 : strncasecmp (q.drop 3 ++ x) "1w".toList 2 = 0 := by
      rw [strncasecmp_append _ _ _ _ hl2, List.map_drop, hq]; decide
    refine ⟨e0, ?_⟩
    simp only [autoanswerSplit, if_neg e1, if_neg e2, if_pos e3, hd3, if_pos e4, hd5, hty]
  · have e0 : strncasecmp (q ++ x) "aa".toList 2 = 0 := by
      rw [strncasecmp_append _ _ _ _ (by omega), hq]; decide
    have e1 : ¬ strncasecmp (q ++ x) "aa1w".toList 4 = 0 := by
      rw [strncasecmp_append _ _ _ _ (by omega), hq]; decide
    have e2 : ¬ strncasecmp (q ++ x) "aa2w".toList 4 = 0 := by
      rw [strncasecmp_append _ _ _ _ (by omega), hq]; decide
    have e3 : strncasecmp (q ++ x) "aa=".toList 3 = 0 := by
      rw [strncasecmp_append _ _ _ _ (by omega), hq]; decide
    have e4 : ¬ strncasecmp (q.drop 3 ++ x) "1w".toList 2 = 0 := by
      rw [strncasecmp_append _ _ _ _ hl2, List.map_drop, hq]; decide
    have e5 : strncasecmp (q.drop 3 ++ x) "2w".toList 2 = 0 := by
      rw [strncasecmp_append _ _ _ _ hl2, List.map_drop, hq]; decide
    refine ⟨e0, ?_⟩
    simp only [autoanswerSplit, if_neg e1, if_neg e2, if_pos e3, hd3, if_neg e4, if_pos e5, hd5,
      hty]

theorem causeLetter_nil : causeLetter [] = none := by decide

/-- One option that names an autoanswer type, in terms of its type and suffix. -/
theorem applyOption_of_split (c : Channel) (cause : Nat) (opt rest : CStr) (ty : AutoAnswer)
    (haa : strncasecmp opt "aa".toList 2 = 0) (hs : autoanswerSplit opt = (some ty, rest))
    (hty : ty ≠ AutoAnswer.NONE) :
    applyOption c cause opt =
      ({ c with autoanswer_type := ty,
                autoanswer_cause := (causeLetter rest).getD c.autoanswer_cause },
       if (causeLetter rest).getD c.autoanswer_cause ≠ 0
       then (causeLetter rest).getD c.autoanswer_cause else cause) := by
  have hcause : tokenCause c.autoanswer_type opt = causeLetter rest := by
    unfold tokenCause
    rw [hs]
    by_cases hr : rest = []
    · subst hr
      rw [if_neg (fun h => h.2.1 rfl), causeLetter_nil]
    · rw [if_pos ⟨haa, hr, by simpa using hty⟩]
  have h1 : (applyOption c cause opt).1 =
      { c with autoanswer_type := ty,
               autoanswer_cause := (causeLetter rest).getD c.autoanswer_cause } := by
    rw [applyOption_channel, hcause, tokens_of_aa opt haa]
    simp only [tokenAutoanswer, if_pos haa, hs, Option.getD_some, Option.getD_none]
  have h2 := applyOption_cause c cause opt
  rw [if_pos haa, h1] at h2
  exact Prod.ext h1 h2

theorem causeLetter_spec (x : CStr) :
    (x.map Char.toLower = "b".toList → causeLetter x = some AST_CAUSE_BUSY) ∧
    (x.map Char.toLower = "u".toList → causeLetter x = some AST_CAUSE_REQUESTED_CHAN_UNAVAIL) ∧
    (x.map Char.toLower = "c".toList → causeLetter x = some AST_CAUSE_CONGESTION) ∧
    (x.map Char.toLower ≠ "b".toList → x.map Char.toLower ≠ "u".toList →
      x.map Char.toLower ≠ "c".toList → causeLetter x = none) := by
  have hb : "b".toList.map Char.toLower = "b".toList := by decide
  have hu : "u".toList.map Char.toLower = "u".toList := by decide
  have hc : "c".toList.map Char.toLower = "c".toList := by decide
  have hbu : "b".toList ≠ "u".toList := by decide
  have hbc : "b".toList ≠ "c".toList := by decide
  have huc : "u".toList ≠ "c".toList := by decide
  unfold causeLetter
  simp only [strcasecmp_eq_zero, hb, hu, hc]
  refine ⟨?_, ?_, ?_, ?_⟩
  · intro h; rw [if_pos h]
  · intro h; rw [if_neg (by rw [h]; exact hbu.symm), if_pos h]
  · intro h
    rw [if_neg (by rw [h]; exact hbc.symm), if_neg (by rw [h]; exact huc.symm), if_pos h]
  · intro h1 h2 h3; rw [if_neg h1, if_neg h2, if_neg h3]

/-- Behind the option loop the `*cause` of the caller is the autoanswer cause of
the channel, when that is set. -/
theorem applyOptions_cause_out (opts : List CStr) :
    ∀ (c : Channel) (cause : Nat),
      (c.autoanswer_cause ≠ 0 → cause = c.autoanswer_cause) →
      ((applyOptions c cause opts).1.autoanswer_cause ≠ 0 →
        (applyOptions c cause opts).2 = (applyOptions c cause opts).1.autoanswer_cause) := by
  induction opts with
  | nil => intro c cause h; exact h
  | cons opt rest ih =>
    intro c cause h
    simp only [applyOptions]
    apply ih
    intro hne
    have hc := applyOption_cause c cause opt
    by_cases haa : strncasecmp opt "aa".toList 2 = 0
    · rw [if_pos haa, if_pos hne] at hc
      exact hc
    · rw [if_neg haa] at hc
      have hch := applyOption_channel c cause opt
      have htc : tokenCause c.autoanswer_type opt = none := by
        unfold tokenCause
        rw [if_neg (fun x => haa x.1)]
      rw [htc] at hch
      have e : (applyOption c cause opt).1.autoanswer_cause = c.autoanswer_cause := by
        rw [hch]; rfl
      rw [hc, e]
      exact h (by rw [← e]; exact hne)


/-- Claim C28: the autoanswer tokens of `sccp_request`. A token made of "aa1w" or
"aa=1w" and a suffix `x` sets autoanswer one-way, one made of "aa2w" or "aa=2w"
and `x` sets it two-way, the letters in either case; the old and the new style
leave the same channel and the same `*cause` for every `x`. The autoanswer cause
becomes busy, unavailable or congestion when `x` is the one letter "b", "u" or
"c" (in either case) and stays as it was for every other `x`. A call that returns
a channel whose autoanswer cause is set reports that cause through `*cause`. -/
theorem C28_autoanswer_grammar (c : Channel) (cause : Nat) (p q x : CStr) (ty : AutoAnswer)
    (h : (p.map Char.toLower = "aa1w".toList ∧ q.map Char.toLower = "aa=1w".toList ∧
        ty = AutoAnswer.AA_1W) ∨
      (p.map Char.toLower = "aa2w".toList ∧ q.map Char.toLower = "aa=2w".toList ∧
        ty = AutoAnswer.AA_2W)) :
    applyOption c cause (p ++ x) = applyOption c cause (q ++ x) ∧
    (applyOption c cause (p ++ x)).1.autoanswer_type = ty ∧
    (applyOption c cause (p ++ x)).1 =
      { c with autoanswer_type := ty,
               autoanswer_cause := (applyOption c cause (p ++ x)).1.autoanswer_cause } ∧
    (x.map Char.toLower = "b".toList →
      (applyOption c cause (p ++ x)).1.autoanswer_cause = AST_CAUSE_BUSY) ∧
    (x.map Char.toLower = "u".toList →
      (applyOption c cause (p ++ x)).1.autoanswer_cause = AST_CAUSE_REQUESTED_CHAN_UNAVAIL) ∧
    (x.map Char.toLower = "c".toList →
      (applyOption c cause (p ++ x)).1.autoanswer_cause = AST_CAUSE_CONGESTION) ∧
    (x.map Char.toLower ≠ "b".toList → x.map Char.toLower ≠ "u".toList →
      x.map Char.toLower ≠ "c".toList →
      (applyOption c cause (p ++ x)).1.autoanswer_cause = c.autoanswer_cause) ∧
    ((applyOption c cause (p ++ x)).1.autoanswer_cause ≠ 0 →
      (applyOption c cause (p ++ x)).2 = (applyOption c cause (p ++ x)).1.autoanswer_cause) ∧
    (∀ (env : Env) (g : Globals) (type : Option CStr) (format : Int) (data : CStr)
      (o : AstChannel), (sccp_request env g type format (some data)).ret = some o →
      ∃ ch, (sccp_request env g type format (some data)).c = some ch ∧
        (ch.autoanswer_cause ≠ 0 →
          (sccp_request env g type format (some data)).cause = ch.autoanswer_cause)) := by
  have hty : ty ≠ AutoAnswer.NONE := by
    rcases h with ⟨_, _, e⟩ | ⟨_, _, e⟩ <;> rw [e] <;> decide
  have hold := autoanswerSplit_old p x ty
    (h.elim (fun a => Or.inl ⟨a.1, a.2.2⟩) (fun a => Or.inr ⟨a.1, a.2.2⟩))
  have hnew := autoanswerSplit_new q x ty
    (h.elim (fun a => Or.inl ⟨a.2.1, a.2.2⟩) (fun a => Or.inr ⟨a.2.1, a.2.2⟩))
  have e1 := applyOption_of_split c cause (p ++ x) x ty hold.1 hold.2 hty
  have e2 := applyOption_of_split c cause (q ++ x) x ty hnew.1 hnew.2 hty
  have hl := causeLetter_spec x
  refine ⟨e1.trans e2.symm, ?_, ?_, ?_, ?_, ?_, ?_, ?_, ?_⟩
  · rw [e1]
  · rw [e1]
  · intro hx; rw [e1, hl.1 hx]; rfl
  · intro hx; rw [e1, hl.2.1 hx]; rfl
  · intro hx; rw [e1, hl.2.2.1 hx]; rfl
  · intro h1 h2 h3; rw [e1, hl.2.2.2 h1 h2 h3]; rfl
  · intro hne
    rw [e1] at hne ⊢
    exact if_pos hne
  · intro env g type format data o hret
    obtain ⟨c4, _, hc0, _, hc, hcause⟩ := request_channel_options env g type format data o hret
    refine ⟨_, hc, ?_⟩
    intro hne
    rw [hcause]
    exact applyOptions_cause_out (requestOptions data) c4 AST_CAUSE_NOTDEFINED
      (fun hn => absurd hc0 hn) hne

/-- Witness of C28: the tokens "AA2w" and "aA=2W" with the suffix "U" on a channel
without autoanswer, and a request for "100/Aa=2Wu" that returns a channel and
the cause 44. -/
theorem C28_autoanswer_grammar_witness :
    (sccp_request fullEnv registryIdle (some "SCCP".toList) 0 (some "100/Aa=2Wu".toList)).ret =
      some ⟨7⟩ ∧
    (sccp_request fullEnv registryIdle (some "SCCP".toList) 0 (some "100/Aa=2Wu".toList)).cause =
      AST_CAUSE_REQUESTED_CHAN_UNAVAIL ∧
    applyOption (sampleChannel 1 ChannelState.DOWN) 0 ("AA2w".toList ++ "U".toList) =
      applyOption (sampleChannel 1 ChannelState.DOWN) 0 ("aA=2W".toList ++ "U".toList) ∧
    (applyOption (sampleChannel 1 ChannelState.DOWN) 0
      ("AA2w".toList ++ "U".toList)).1.autoanswer_type = AutoAnswer.AA_2W ∧
    (applyOption (sampleChannel 1 ChannelState.DOWN) 0
      ("AA2w".toList ++ "U".toList)).1.autoanswer_cause = AST_CAUSE_REQUESTED_CHAN_UNAVAIL :=
  ⟨by decide, by decide,
    (C28_autoanswer_grammar (sampleChannel 1 ChannelState.DOWN) 0 "AA2w".toList "aA=2W".toList
      "U".toList AutoAnswer.AA_2W (Or.inr ⟨by decide, by decide, rfl⟩)).1,
    (C28_autoanswer_grammar (sampleChannel 1 ChannelState.DOWN) 0 "AA2w".toList "aA=2W".toList
      "U".toList AutoAnswer.AA_2W (Or.inr ⟨by decide, by decide, rfl⟩)).2.1,
    (C28_autoanswer_grammar (sampleChannel 1 ChannelState.DOWN) 0 "AA2w".toList "aA=2W".toList
      "U".toList AutoAnswer.AA_2W (Or.inr ⟨by decide, by decide, rfl⟩)).2.2.2.2.1
      (by decide)⟩

/-- Claim C29 fails on the code: both `NULL` guards of `sccp_handle_message` build
their log line from `s->device->id`. With a `NULL` session the guard reads
`s->device` through the `NULL` pointer, for every message; with a `NULL` message
and a session that has no device (session 3) it reads the id of an absent device.
Only with a session that is bound to a device (session 1) a `NULL` message gives
the error line, the release and the result 0. -/
theorem C29_null_guards_dereference :
    (∀ (env : Env) (g : Globals) (r : Option Message),
      sccp_handle_message env g r none = Except.error Fault.nullDereference) ∧
    derefSession registrySessions 3 = some sessNoDevice ∧
    sessNoDevice.device = none ∧
    sccp_handle_message fullEnv registrySessions none (some 3) =
      Except.error Fault.nullDereference ∧
    sccp_handle_message fullEnv registrySessions none (some 1) =
      Except.ok
        { ret := 0, g := registrySessions,
          calls := [Call.ast_log LogLevel.LOG_ERROR, Call.ast_free] } :=
  ⟨fun _ _ _ => rfl, by decide, rfl, rfl, rfl⟩


/-! ## Theorems about sccp_app_setmessage -/

/-- Claim C26: `sccp_app_setmessage` keeps the message of the device and the note
in the database in step. For a channel bound to a device `d`, a text that is not
empty (and that `ast_strdup` could copy) becomes the phone message of `d` and the
entry under family "SCCPM" and key `d.id`; the empty text clears the phone message
and deletes that entry. The message of every other device and every other entry
of the database stay as they were. Without a text, without an SCCP channel or
with a channel that has no device, nothing changes. The result is always 0. -/
theorem C26_setmessage_in_step (ast_strdup : CStr → Option CStr) (g : Globals)
    (st : MessageState) (c : Channel) (text : CStr) (dk : Nat) (d : Device)
    (hc : c.device = some dk) (hd : derefDevice g dk = some d)
    (hdup : text ≠ [] → ast_strdup text = some text) :
    (∃ st2, sccp_app_setmessage ast_strdup g st (some c) (some text) = Except.ok (0, st2) ∧
      (text ≠ [] → st2.phonemessage dk = some text ∧
        st2.astdb "SCCPM".toList d.id = some text) ∧
      (text = [] → st2.phonemessage dk = none ∧ st2.astdb "SCCPM".toList d.id = none) ∧
      st2.phonemessage dk = st2.astdb "SCCPM".toList d.id ∧
      (∀ k, k ≠ dk → st2.phonemessage k = st.phonemessage k) ∧
      (∀ f k, ¬ (f = "SCCPM".toList ∧ k = d.id) → st2.astdb f k = st.astdb f k)) ∧
    sccp_app_setmessage ast_strdup g st (some c) none = Except.ok (0, st) ∧
    (∀ t, sccp_app_setmessage ast_strdup g st none t = Except.ok (0, st)) ∧
    (∀ t, sccp_app_setmessage ast_strdup g st (some { c with device := none }) t =
      Except.ok (0, st)) := by
  refine ⟨?_, ?_, ?_, ?_⟩
  · by_cases ht : text = []
    · have e : sccp_app_setmessage ast_strdup g st (some c) (some text) = Except.ok (0,
          { phonemessage := fun k => if k = dk then none else st.phonemessage k,
            astdb := ast_db_del st.astdb "SCCPM".toList d.id,
            displays := st.displays ++
              [DisplayCall.sccp_dev_displayprinotify dk "Message off".toList 5 1,
               DisplayCall.sccp_dev_displayprompt dk 0 0 "Message off".toList 1] }) := by
        simp only [sccp_app_setmessage, hc, hd, ht, ne_eq, not_true_eq_false, if_false]
      refine ⟨_, e, ?_, ?_, ?_, ?_, ?_⟩
      · intro h; exact absurd ht h
      · intro _; simp [ast_db_del]
      · simp [ast_db_del]
      · intro k hk; simp [hk]
      · intro f k hfk; simp only [ast_db_del, if_neg hfk]
    · have e : sccp_app_setmessage ast_strdup g st (some c) (some text) = Except.ok (0,
          { phonemessage := fun k => if k = dk then ast_strdup text else st.phonemessage k,
            astdb := ast_db_put st.astdb "SCCPM".toList d.id text,
            displays := st.displays ++
              [DisplayCall.sccp_dev_displayprinotify dk text 5 0,
               DisplayCall.sccp_dev_displayprompt dk 0 0 text 0] }) := by
        simp only [sccp_app_setmessage, hc, hd, ne_eq, ht, not_false_eq_true, if_true]
      refine ⟨_, e, ?_, ?_, ?_, ?_, ?_⟩
      · intro _; simp [ast_db_put, hdup ht]
      · intro h; exact absurd h ht
      · simp [ast_db_put, hdup ht]
      · intro k hk; simp [hk]
      · intro f k hfk; simp only [ast_db_put, if_neg hfk]
  · simp only [sccp_app_setmessage]
  · intro t; simp only [sccp_app_setmessage]
  · intro t
    cases t <;> simp only [sccp_app_setmessage]

/-- Witness of C26: the message "Back at 2" for the channel on device 1, while
device 2 shows "Lunch". -/
theorem C26_setmessage_in_step_witness :
    (sccp_app_setmessage some registryTwoDevices messagesLunch (some channelOnDevice)
      (some "Back at 2".toList)).toOption.map
        (fun r => (r.1, r.2.phonemessage 1, r.2.astdb "SCCPM".toList "SEP01".toList,
          r.2.phonemessage 2, r.2.astdb "SCCPM".toList "SEP02".toList)) =
      some (0, some "Back at 2".toList, some "Back at 2".toList, some "Lunch".toList,
        some "Lunch".toList) ∧
    (sccp_app_setmessage some registryTwoDevices messagesLunch (some channelOnDevice)
      (some [])).toOption.map
        (fun r => (r.1, r.2.phonemessage 1, r.2.astdb "SCCPM".toList "SEP01".toList,
          r.2.phonemessage 2, r.2.astdb "SCCPM".toList "SEP02".toList)) =
      some (0, none, none, some "Lunch".toList, some "Lunch".toList) ∧
    sccp_app_setmessage some registryTwoDevices messagesLunch (some channelOnDevice) none =
      Except.ok (0, messagesLunch) :=
  ⟨rfl, rfl,
    (C26_setmessage_in_step some registryTwoDevices messagesLunch channelOnDevice
      "Back at 2".toList 1 deviceOnline rfl (by decide) (fun _ => rfl)).2.1⟩


/-! ## Theorems about sccp_rtp_bridge -/

theorem lockAvoidance_ends (busy : Nat → Bool) (n : Nat) :
    ∀ (i : Nat) (lk : BridgeLocks), busy (i + n) = false →
      ∃ lk2, lockAvoidance busy (n + 1) i lk = some lk2 := by
  induction n with
  | zero =>
    intro i lk h
    have hb : ¬ busy i = true := by simpa using h
    exact ⟨_, by unfold lockAvoidance; rw [if_neg hb]⟩
  | succ n ih =>
    intro i lk h
    by_cases hb : busy i = true
    · have h2 : busy (i + 1 + n) = false := by
        have e : i + 1 + n = i + (n + 1) := by omega
        rw [e]; exact h
      obtain ⟨lk2, h3⟩ := ih (i + 1) { lk with c0 := lk.c0 - 1 + 1, spins := lk.spins + 1 } h2
      exact ⟨lk2, by rw [lockAvoidance, if_pos hb]; exact h3⟩
    · exact ⟨_, by rw [lockAvoidance, if_neg hb]⟩

theorem packetization_ok (cur_ms : Nat → Int → Int) (pvt : Option Channel) (f : Int)
    (h : (pvt.bind (fun c => c.device)).isSome) :
    ∃ v, packetization cur_ms pvt f = Except.ok v := by
  unfold packetization
  cases hc : pvt with
  | none => rw [hc] at h; cases h
  | some c =>
    rw [hc] at h
    cases hd : c.device with
    | none => simp [hd] at h
    | some dk => exact ⟨cur_ms dk f, by simp only [hd]⟩

theorem rtp_bridge_locked_total (cur_ms : Nat → Int → Int) (c0 c1 : BridgedChannel)
    (lk : BridgeLocks) (hp : bridgeReadsPacketization c0 c1 → bridgePointersResolve c0 c1) :
    ∃ out, rtp_bridge_locked cur_ms c0 c1 lk = Except.ok out := by
  unfold rtp_bridge_locked
  by_cases h1 : c0.hangup = true ∨ c1.hangup = true
  · rw [if_pos h1]; exact ⟨_, rfl⟩
  · rw [if_neg h1]
    by_cases h2 : c0.rtp_peer = AstRtpGetResult.AST_RTP_GET_FAILED ∨
        c1.rtp_peer = AstRtpGetResult.AST_RTP_GET_FAILED
    · rw [if_pos h2]; exact ⟨_, rfl⟩
    · rw [if_neg h2]
      by_cases h3 : c0.rtp_peer = AstRtpGetResult.AST_RTP_TRY_PARTIAL ∨
          c1.rtp_peer = AstRtpGetResult.AST_RTP_TRY_PARTIAL
      · rw [if_pos h3]
        by_cases h4 : c0.rawreadformat ≠ c1.rawwriteformat ∨
            c1.rawreadformat ≠ c0.rawwriteformat
        · rw [if_pos h4]; exact ⟨_, rfl⟩
        · rw [if_neg h4]
          have hres := hp ⟨h1, h2, h3, h4⟩
          obtain ⟨v0, e0⟩ := packetization_ok cur_ms c0.tech_pvt c0.rawreadformat hres.1
          obtain ⟨v1, e1⟩ := packetization_ok cur_ms c1.tech_pvt c1.rawreadformat hres.2
          rw [e0, e1]
          simp only [ite_self]
          exact ⟨_, rfl⟩
      · rw [if_neg h3]; exact ⟨_, rfl⟩

/-- The function `sccp_rtp_bridge` returns a result as soon as the lock of the
second channel is free in some turn, unless it reaches the packetization test with
a channel that has no SCCP channel bound to a device. -/
theorem rtp_bridge_returns (busy : Nat → Bool) (cur_ms : Nat → Int → Int) (n : Nat)
    (c0 c1 : BridgedChannel) (hfree : busy n = false)
    (hp : bridgeReadsPacketization c0 c1 → bridgePointersResolve c0 c1) :
    ∃ out, sccp_rtp_bridge busy cur_ms (n + 1) c0 c1 = some (Except.ok out) := by
  obtain ⟨lk, hlk⟩ := lockAvoidance_ends busy n 0 { c0 := 1, c1 := 0, spins := 0 }
    (by rw [Nat.zero_add]; exact hfree)
  obtain ⟨out, hout⟩ := rtp_bridge_locked_total cur_ms c0 c1 lk hp
  exact ⟨out, by simp only [sccp_rtp_bridge, hlk, hout]⟩

theorem load_config_returns_zero (env : LoadEnv) (st : LoadState) : (load_config env st).1 = 0 := by
  unfold load_config
  simp only
  split_ifs <;> rfl

/-- The three failures that `load_module` tests itself end the start with
`AST_MODULE_LOAD_FAILURE` and without a registration. -/
theorem load_module_aborts (env : LoadEnv)
    (h : env.malloc_globals = false ∨ env.malloc_event_listeners = false ∨
      env.sched_context_create = false ∨ env.io_context_create = false) :
    ∃ st, load_module env = Except.ok (AST_MODULE_LOAD_FAILURE, st) ∧
      LoadCall.ast_channel_register ∉ st.calls := by
  unfold load_module
  by_cases h1 : env.malloc_globals = false ∨ env.malloc_event_listeners = false
  · rw [if_pos h1]; exact ⟨_, rfl, by decide⟩
  · rw [if_neg h1]
    by_cases h2 : env.sched_context_create = false
    · rw [if_pos h2]; exact ⟨_, rfl, by decide⟩
    · rw [if_neg h2]
      by_cases h3 : env.io_context_create = false
      · rw [if_pos h3]; exact ⟨_, rfl, by decide⟩
      · rcases h with h | h | h | h
        · exact absurd (Or.inl h) h1
        · exact absurd (Or.inr h) h1
        · exact absurd h h2
        · exact absurd h h3

/-- Whenever `load_module` gets as far as `load_config`, the channel technology
is registered, whatever became of the server socket. -/
theorem load_module_registers (env : LoadEnv)
    (h1 : env.malloc_globals = true) (h2 : env.malloc_event_listeners = true)
    (h3 : env.sched_context_create = true) (h4 : env.io_context_create = true)
    (h5 : env.malloc_hotline = true) (h6 : env.ast_channel_register = 0) :
    ∃ st, load_module env = Except.ok (0, st) ∧ LoadCall.ast_channel_register ∈ st.calls := by
  have hz := load_config_returns_zero env { descriptor := -1, calls := [] }
  unfold load_module
  simp only [h1, h2, h3, h4, h5, h6, hz, Bool.true_eq_false, or_self, if_false, if_true, ne_eq,
    not_true_eq_false]
  exact ⟨_, rfl, by simp⟩

/-- Claim C22 fails on the code: `load_config` ends every path with `return 0`,
so `load_module` cannot tell a server socket that was not created, not bound or
not listening from one that works: in each of the three cases it registers the
channel technology and returns 0, and the descriptor stays -1. The failures that
`load_module` tests itself (the global state, the scheduler context, the I/O
context) end the start with `AST_MODULE_LOAD_FAILURE` and no registration. -/
theorem C22_socket_failure_is_not_fatal :
    load_module { loadEnvFine with bind := -1 } =
      Except.ok (0,
        { descriptor := -1,
          calls := [LoadCall.sccp_config_readDevicesLines,
            LoadCall.ast_log LogLevel.LOG_WARNING, LoadCall.close 5,
            LoadCall.ast_channel_register, LoadCall.ast_rtp_proto_register,
            LoadCall.sccp_register_cli, LoadCall.sccp_register_dialplan_functions,
            LoadCall.sccp_restart_monitor] }) ∧
    load_module { loadEnvFine with listen := -1 } =
      Except.ok (0,
        { descriptor := -1,
          calls := [LoadCall.sccp_config_readDevicesLines,
            LoadCall.ast_log LogLevel.LOG_WARNING, LoadCall.close 5,
            LoadCall.ast_channel_register, LoadCall.ast_rtp_proto_register,
            LoadCall.sccp_register_cli, LoadCall.sccp_register_dialplan_functions,
            LoadCall.sccp_restart_monitor] }) ∧
    load_module { loadEnvFine with socket := -1 } =
      Except.ok (0,
        { descriptor := -1,
          calls := [LoadCall.sccp_config_readDevicesLines,
            LoadCall.ast_log LogLevel.LOG_WARNING, LoadCall.sccp_restart_monitor,
            LoadCall.ast_channel_register, LoadCall.ast_rtp_proto_register,
            LoadCall.sccp_register_cli, LoadCall.sccp_register_dialplan_functions,
            LoadCall.sccp_restart_monitor] }) ∧
    load_module loadEnvFine =
      Except.ok (0,
        { descriptor := 5,
          calls := [LoadCall.sccp_config_readDevicesLines,
            LoadCall.ast_pthread_create_socket_thread, LoadCall.sccp_restart_monitor,
            LoadCall.ast_channel_register, LoadCall.ast_rtp_proto_register,
            LoadCall.sccp_register_cli, LoadCall.sccp_register_dialplan_functions,
            LoadCall.sccp_restart_monitor] }) ∧
    load_module { loadEnvFine with malloc_globals := false } =
      Except.ok (AST_MODULE_LOAD_FAILURE,
        { descriptor := -1, calls := [LoadCall.ast_log LogLevel.LOG_ERROR] }) ∧
    load_module { loadEnvFine with sched_context_create := false } =
      Except.ok (AST_MODULE_LOAD_FAILURE,
        { descriptor := -1, calls := [LoadCall.ast_log LogLevel.LOG_WARNING] }) ∧
    load_module { loadEnvFine with io_context_create := false } =
      Except.ok (AST_MODULE_LOAD_FAILURE,
        { descriptor := -1, calls := [LoadCall.ast_log LogLevel.LOG_WARNING] }) :=
  ⟨rfl, rfl, rfl, rfl, rfl, rfl, rfl⟩

end ChanSccp
